import Mathlib

/-! VkExtensionsFeaturesHelp: a shallow embedding of `VkExtensionsFeaturesHelp.hpp`.

Conventions of the embedding.

* `const char*` names are `String`s; `strcmp(a, b) == 0` is `a = b`.
* `std::vector<T>` is `List T`; an index loop over a vector is a structural
  recursion, a `map` or a `foldl` over the list.
* `SIZE_MAX` as a "not found" index is `none`.
* `assert(c)` is fatal: a mutating operation returns a pair
  `(Except Fatal result, state)`, whose second component is the object state
  when the operation returned, or when the assertion fired. A `const` member
  function returns `Except Fatal result` only.
* Addresses of the embedded feature structures are natural numbers and a
  pointer that may be null is an `Option Nat`.
* A sequence of calls on an object (`run`) ends at the first failed
  assertion; its `history` is read off what the calls returned.
-/

namespace VKEFH

/-- The assertions of the header, one constructor per assertion message. -/
inductive Fatal where
  /-- Message "You can query only for items specified in VkExtensionsFeatures.inl." -/
  | queryUnknownItem
  /-- Message "You can enable only for items specified in VkExtensionsFeatures.inl." -/
  | enableUnknownItem
  /-- The check `assert(m_Items[i].m_Supported)` inside `PrepareEnabled`. -/
  | enabledItemNotSupported
  /-- Message "You should call EnumerateExtensions first." (in the device
  `PrepareCreation`: "You need to call EnumerateExtensions first.") -/
  | enumerateExtensionsFirst
  /-- Message "You should call EnumerateExtensions only once." -/
  | enumerateExtensionsOnlyOnce
  /-- Message "You should call EnumerateLayers first." -/
  | enumerateLayersFirst
  /-- Message "You should call EnumerateLayers only once." -/
  | enumerateLayersOnlyOnce
  /-- Message "You need to call PrepareCreation first." -/
  | prepareCreationFirst
  /-- Message "You can query only for feature structs specified in VkExtensionsFeatures.inl." -/
  | queryUnknownFeatureStruct
  /-- Message "You can enable only feature structs specified in VkExtensionsFeatures.inl." -/
  | enableUnknownFeatureStruct
  /-- The check `assert(m_StructPtr->sType == m_sType)` of the chain loops. -/
  | structTypeMismatch
  /-- The check `assert(physicalDevice)`. -/
  | nullPhysicalDevice
  /-- Message "You need to call GetPhysicalDeviceFeatures first." -/
  | getPhysicalDeviceFeaturesFirst
  /-- Message "You should call GetPhysicalDeviceFeatures only once." -/
  | getPhysicalDeviceFeaturesOnlyOnce
  /-- The check `assert(m_Features2.sType == VK_STRUCTURE_TYPE_PHYSICAL_DEVICE_FEATURES_2)`. -/
  | features2TypeMismatch
deriving DecidableEq, Repr

deriving instance DecidableEq for Except

/-- The C enum `VkResult`. -/
abbrev VkResult := Int

/-- The value `VK_SUCCESS = 0`. -/
def VK_SUCCESS : VkResult := 0

/-- The C enum `VkStructureType`. -/
abbrev VkStructureType := Int

/-! ## `class EnabledItemVector` -/

/-- The record `EnabledItemVector::EnabledItem`. -/
structure EnabledItem where
  m_Name : String
  m_Supported : Bool
  m_Enabled : Bool
deriving DecidableEq, Repr

/-- The data members of `class EnabledItemVector`. -/
structure EnabledItemVector where
  m_Items : List EnabledItem
  m_EnabledItemNames : List String
deriving DecidableEq, Repr

namespace EnabledItemVector

/-- The loop of `Find`, started at index `i` on the items from `i` on:
the first index whose name compares equal, `none` for `SIZE_MAX`. -/
def findLoop (name : String) : List EnabledItem → Nat → Option Nat
  | [], _ => none
  | it :: rest, i => if name = it.m_Name then some i else findLoop name rest (i + 1)

/-- The private member `Find`. -/
def Find (v : EnabledItemVector) (name : String) : Option Nat :=
  findLoop name v.m_Items 0

/-- The element `m_Items[index]`, read at an index `Find` returned (the
default value stands for an out-of-range read, which `Find` never causes). -/
def itemAt (v : EnabledItemVector) (index : Nat) : EnabledItem :=
  v.m_Items.getD index { m_Name := "", m_Supported := false, m_Enabled := false }

/-- The assignment `m_Items[index].m_Enabled = b`. -/
def setEnabledAt (v : EnabledItemVector) (index : Nat) (b : Bool) : EnabledItemVector :=
  { v with m_Items := v.m_Items.set index { v.itemAt index with m_Enabled := b } }

/-- The member `Reset`. -/
def Reset (v : EnabledItemVector) : EnabledItemVector :=
  { m_Items := v.m_Items.map fun it => { it with m_Supported := false, m_Enabled := false }
    m_EnabledItemNames := [] }

/-- The member `IsSupported`. -/
def IsSupported (v : EnabledItemVector) (name : String) : Except Fatal Bool :=
  match v.Find name with
  | some index => .ok (v.itemAt index).m_Supported
  | none => .error .queryUnknownItem

/-- The member `IsEnabled`. -/
def IsEnabled (v : EnabledItemVector) (name : String) : Except Fatal Bool :=
  match v.Find name with
  | some index => .ok (v.itemAt index).m_Enabled
  | none => .error .queryUnknownItem

/-- The member `Enable`. -/
def Enable (v : EnabledItemVector) (name : String) (enabled : Bool) :
    Except Fatal Bool × EnabledItemVector :=
  match v.Find name with
  | some index =>
    if enabled && (v.itemAt index).m_Supported then
      (.ok true, v.setEnabledAt index true)
    else
      (.ok false, v.setEnabledAt index false)
  | none => (.error .enableUnknownItem, v)

/-- The member `EnableAll`. -/
def EnableAll (v : EnabledItemVector) (enabled : Bool) : EnabledItemVector :=
  { v with m_Items := v.m_Items.map fun it => { it with m_Enabled := enabled && it.m_Supported } }

/-- The loop of `PrepareEnabled` over the remaining items, `names` being
`m_EnabledItemNames` so far; on a failed assertion the names pushed so far are
returned with the error. -/
def prepareLoop : List EnabledItem → List String → Except Fatal Unit × List String
  | [], names => (.ok (), names)
  | it :: rest, names =>
    if it.m_Enabled then
      if it.m_Supported then prepareLoop rest (names ++ [it.m_Name])
      else (.error .enabledItemNotSupported, names)
    else prepareLoop rest names

/-- The member `PrepareEnabled`. -/
def PrepareEnabled (v : EnabledItemVector) : Except Fatal Unit × EnabledItemVector :=
  let r := prepareLoop v.m_Items []
  (r.1, { v with m_EnabledItemNames := r.2 })

end EnabledItemVector

/-! ## `class InitHelpBase` -/

/-- The record `InitHelpBase::FeatureStruct`; `m_StructPtr` is the address of
the embedded structure. -/
structure FeatureStruct where
  m_Name : String
  m_sType : VkStructureType
  m_StructPtr : Nat
  m_Enabled : Bool
deriving DecidableEq, Repr

/-- The header of every Vulkan feature structure, `VkBaseInStructure`: the
two fields the library reads and writes through `m_StructPtr`. -/
structure VkBaseInStructure where
  sType : VkStructureType
  pNext : Option Nat
deriving DecidableEq, Repr

/-- The storage of the embedded feature structures, by address. -/
abbrev StructMemory := Nat → VkBaseInStructure

/-- The write `ptr->pNext = next`. -/
def setNext (mem : StructMemory) (ptr : Nat) (next : Option Nat) : StructMemory :=
  fun a => if a = ptr then { mem a with pNext := next } else mem a

/-- The data members of `class InitHelpBase`. -/
structure InitHelpBase where
  m_ExtensionsEnumerated : Bool
  m_CreationPrepared : Bool
  m_Extensions : EnabledItemVector
  m_FeatureStructs : List FeatureStruct
deriving DecidableEq, Repr

/-- What the two calls of a `vkEnumerate...Properties` function report: the
status and the count of the count query, and the status of the data query
with the names of the entries the loader then reads (the first
`extPropCount` entries of the array, with `extPropCount` as the data query
left it). -/
structure EnumerateReply where
  countResult : VkResult
  count : Nat
  dataResult : VkResult
  names : List String
deriving DecidableEq, Repr

/-- The reply of a collaborator that reports the names `L` with success on
both queries. -/
def EnumerateReply.success (L : List String) : EnumerateReply :=
  { countResult := VK_SUCCESS, count := L.length, dataResult := VK_SUCCESS, names := L }

/-- The inner loop of `LoadExtensions` and of `LoadLayers` for one reported
name: every item whose name compares equal becomes supported and enabled. -/
def markLoaded (propName : String) (items : List EnabledItem) : List EnabledItem :=
  items.map fun it =>
    if propName = it.m_Name then { it with m_Supported := true, m_Enabled := true } else it

/-- The two nested loops of `LoadExtensions` and of `LoadLayers`. -/
def loadNames (props : List String) (items : List EnabledItem) : List EnabledItem :=
  props.foldl (fun acc propName => markLoaded propName acc) items

namespace InitHelpBase

/-- The loop of `FindFeatureStruct(const char*)` from index `i`. -/
def findByNameLoop (name : String) : List FeatureStruct → Nat → Option Nat
  | [], _ => none
  | f :: rest, i => if f.m_Name = name then some i else findByNameLoop name rest (i + 1)

/-- The loop of `FindFeatureStruct(VkStructureType)` from index `i`. -/
def findByTypeLoop (sType : VkStructureType) : List FeatureStruct → Nat → Option Nat
  | [], _ => none
  | f :: rest, i => if f.m_sType = sType then some i else findByTypeLoop sType rest (i + 1)

/-- The private member `FindFeatureStruct(const char* name)`. -/
def FindFeatureStructByName (s : InitHelpBase) (name : String) : Option Nat :=
  findByNameLoop name s.m_FeatureStructs 0

/-- The private member `FindFeatureStruct(VkStructureType sType)`. -/
def FindFeatureStructByType (s : InitHelpBase) (sType : VkStructureType) : Option Nat :=
  findByTypeLoop sType s.m_FeatureStructs 0

/-- The element `m_FeatureStructs[index]`, read at an index a find returned. -/
def featureStructAt (s : InitHelpBase) (index : Nat) : FeatureStruct :=
  s.m_FeatureStructs.getD index { m_Name := "", m_sType := 0, m_StructPtr := 0, m_Enabled := false }

/-- The assignment `m_FeatureStructs[index].m_Enabled = b`. -/
def setFeatureStructEnabledAt (s : InitHelpBase) (index : Nat) (b : Bool) : InitHelpBase :=
  { s with m_FeatureStructs :=
      s.m_FeatureStructs.set index { s.featureStructAt index with m_Enabled := b } }

/-- The member `IsExtensionSupported`. -/
def IsExtensionSupported (s : InitHelpBase) (extensionName : String) : Except Fatal Bool :=
  if s.m_ExtensionsEnumerated then s.m_Extensions.IsSupported extensionName
  else .error .enumerateExtensionsFirst

/-- The member `IsExtensionEnabled`. -/
def IsExtensionEnabled (s : InitHelpBase) (extensionName : String) : Except Fatal Bool :=
  if s.m_ExtensionsEnumerated then s.m_Extensions.IsEnabled extensionName
  else .error .enumerateExtensionsFirst

/-- The member `EnableExtension`. -/
def EnableExtension (s : InitHelpBase) (extensionName : String) (enabled : Bool) :
    Except Fatal Bool × InitHelpBase :=
  if s.m_ExtensionsEnumerated then
    let r := s.m_Extensions.Enable extensionName enabled
    (r.1, { s with m_Extensions := r.2 })
  else (.error .enumerateExtensionsFirst, s)

/-- The member `EnableAllExtensions`. -/
def EnableAllExtensions (s : InitHelpBase) (enabled : Bool) : Except Fatal Unit × InitHelpBase :=
  if s.m_ExtensionsEnumerated then
    (.ok (), { s with m_Extensions := s.m_Extensions.EnableAll enabled })
  else (.error .enumerateExtensionsFirst, s)

/-- The member `GetEnabledExtensionCount` (before the cast to `uint32_t`). -/
def GetEnabledExtensionCount (s : InitHelpBase) : Except Fatal Nat :=
  if s.m_CreationPrepared then .ok s.m_Extensions.m_EnabledItemNames.length
  else .error .prepareCreationFirst

/-- The member `GetEnabledExtensionNames`: the array of names, `none` for
`nullptr`, returned when the snapshot is empty. -/
def GetEnabledExtensionNames (s : InitHelpBase) : Except Fatal (Option (List String)) :=
  if s.m_CreationPrepared then
    .ok (if s.m_Extensions.m_EnabledItemNames.isEmpty then none
         else some s.m_Extensions.m_EnabledItemNames)
  else .error .prepareCreationFirst

/-- The member `IsFeatureStructEnabled(const char*)`. -/
def IsFeatureStructEnabledByName (s : InitHelpBase) (structName : String) : Except Fatal Bool :=
  match s.FindFeatureStructByName structName with
  | some index => .ok (s.featureStructAt index).m_Enabled
  | none => .error .queryUnknownFeatureStruct

/-- The member `EnableFeatureStruct(const char*, bool)`. -/
def EnableFeatureStructByName (s : InitHelpBase) (structName : String) (enabled : Bool) :
    Except Fatal Unit × InitHelpBase :=
  match s.FindFeatureStructByName structName with
  | some index => (.ok (), s.setFeatureStructEnabledAt index enabled)
  | none => (.error .enableUnknownFeatureStruct, s)

/-- The member `IsFeatureStructEnabled(VkStructureType)`. -/
def IsFeatureStructEnabledByType (s : InitHelpBase) (sType : VkStructureType) :
    Except Fatal Bool :=
  match s.FindFeatureStructByType sType with
  | some index => .ok (s.featureStructAt index).m_Enabled
  | none => .error .queryUnknownFeatureStruct

/-- The member `EnableFeatureStruct(VkStructureType, bool)`. -/
def EnableFeatureStructByType (s : InitHelpBase) (sType : VkStructureType) (enabled : Bool) :
    Except Fatal Unit × InitHelpBase :=
  match s.FindFeatureStructByType sType with
  | some index => (.ok (), s.setFeatureStructEnabledAt index enabled)
  | none => (.error .enableUnknownFeatureStruct, s)

/-- The member `EnableAllFeatureStructs`. -/
def EnableAllFeatureStructs (s : InitHelpBase) (enabled : Bool) : InitHelpBase :=
  { s with m_FeatureStructs := s.m_FeatureStructs.map fun f => { f with m_Enabled := enabled } }

/-- The protected member `Reset`. -/
def Reset (s : InitHelpBase) : InitHelpBase :=
  { m_ExtensionsEnumerated := false
    m_CreationPrepared := false
    m_Extensions := s.m_Extensions.Reset
    m_FeatureStructs := s.m_FeatureStructs.map fun f => { f with m_Enabled := true } }

/-- The protected member `LoadExtensions`, on the names of the entries
`extProps[0 .. extPropCount)`. -/
def LoadExtensions (s : InitHelpBase) (extProps : List String) :
    Except Fatal Unit × InitHelpBase :=
  if s.m_ExtensionsEnumerated then (.error .enumerateExtensionsOnlyOnce, s)
  else
    (.ok (),
      { s with
        m_Extensions :=
          { s.m_Extensions with m_Items := loadNames extProps s.m_Extensions.m_Items }
        m_ExtensionsEnumerated := true })

/-- The protected member `PrepareEnabledExtensionNames`. -/
def PrepareEnabledExtensionNames (s : InitHelpBase) : Except Fatal Unit × InitHelpBase :=
  if s.m_ExtensionsEnumerated then
    let r := s.m_Extensions.PrepareEnabled
    (r.1, { s with m_Extensions := r.2 })
  else (.error .enumerateExtensionsFirst, s)

end InitHelpBase

/-- Following `pNext` from `head` until null, at most `fuel` links: the
addresses visited, `none` when the fuel runs out first. -/
def traverse (mem : StructMemory) : Nat → Option Nat → Option (List Nat)
  | _, none => some []
  | 0, some _ => none
  | fuel + 1, some p => (traverse mem fuel (mem p).pNext).map fun rest => p :: rest

/-- The declaration table `VkExtensionsFeatures.inl`, which the header
includes and which is supplied by the user of the library: the names given
to `VKEFH_INSTANCE_EXTENSION`, `VKEFH_INSTANCE_LAYER`, `VKEFH_DEVICE_EXTENSION`
and the (structure name, `sType`) pairs given to
`VKEFH_INSTANCE_FEATURE_STRUCT` and `VKEFH_DEVICE_FEATURE_STRUCT`, each in
the order of the file. -/
structure Declarations where
  instanceExtensions : List String
  instanceLayers : List String
  instanceFeatureStructs : List (String × VkStructureType)
  deviceExtensions : List String
  deviceFeatureStructs : List (String × VkStructureType)
deriving DecidableEq, Repr

/-- The `push_back` calls of a constructor for the declared names. -/
def declaredItems (names : List String) : List EnabledItem :=
  names.map fun n => { m_Name := n, m_Supported := false, m_Enabled := false }

/-- The `push_back` calls of a constructor for the declared feature
structures; the member declared at position `i` lives at address `i`. -/
def declaredFeatureStructs (decls : List (String × VkStructureType)) : List FeatureStruct :=
  decls.enum.map fun d =>
    { m_Name := d.2.1, m_sType := d.2.2, m_StructPtr := d.1, m_Enabled := true }

/-- The member initialisers `structName m_structName = { (sType) }`: the
declared `sType` and a null `pNext`. -/
def declaredStorage (decls : List (String × VkStructureType)) : StructMemory :=
  fun a =>
    match decls[a]? with
    | some d => { sType := d.2, pNext := none }
    | none => { sType := 0, pNext := none }

/-! ## `class InstanceInitHelp` -/

/-- The data members of `class InstanceInitHelp`; `structs` is the storage
of the members `m_structName` the feature-structure macro declares. -/
structure InstanceInitHelp extends InitHelpBase where
  m_LayersEnumerated : Bool
  m_Layers : EnabledItemVector
  m_FeaturesChain : Option Nat
  structs : StructMemory

namespace InstanceInitHelp

/-- The constructor `InstanceInitHelp()`. -/
def new (d : Declarations) : InstanceInitHelp :=
  { m_ExtensionsEnumerated := false
    m_CreationPrepared := false
    m_Extensions := { m_Items := declaredItems d.instanceExtensions, m_EnabledItemNames := [] }
    m_FeatureStructs := declaredFeatureStructs d.instanceFeatureStructs
    m_LayersEnumerated := false
    m_Layers := { m_Items := declaredItems d.instanceLayers, m_EnabledItemNames := [] }
    m_FeaturesChain := none
    structs := declaredStorage d.instanceFeatureStructs }

/-- The member `Reset`. -/
def Reset (s : InstanceInitHelp) : InstanceInitHelp :=
  { s with
    toInitHelpBase := s.toInitHelpBase.Reset
    m_LayersEnumerated := false
    m_Layers := s.m_Layers.Reset
    m_FeaturesChain := none }

/-- The member `EnumerateExtensions`; `vk` is what
`vkEnumerateInstanceExtensionProperties` reports. -/
def EnumerateExtensions (s : InstanceInitHelp) (vk : EnumerateReply) :
    Except Fatal VkResult × InstanceInitHelp :=
  if vk.countResult ≠ VK_SUCCESS then (.ok vk.countResult, s)
  else if vk.count ≠ 0 then
    if vk.dataResult ≠ VK_SUCCESS then (.ok vk.dataResult, s)
    else
      match s.toInitHelpBase.LoadExtensions vk.names with
      | (.error e, b) => (.error e, { s with toInitHelpBase := b })
      | (.ok _, b) => (.ok VK_SUCCESS, { s with toInitHelpBase := b })
  else (.ok VK_SUCCESS, s)

/-- The private member `LoadLayers`, on the names of the entries
`layerProps[0 .. layerPropCount)`. -/
def LoadLayers (s : InstanceInitHelp) (layerProps : List String) : InstanceInitHelp :=
  { s with m_Layers := { s.m_Layers with m_Items := loadNames layerProps s.m_Layers.m_Items } }

/-- The member `EnumerateLayers`; `vk` is what
`vkEnumerateInstanceLayerProperties` reports. -/
def EnumerateLayers (s : InstanceInitHelp) (vk : EnumerateReply) :
    Except Fatal VkResult × InstanceInitHelp :=
  if s.m_LayersEnumerated then (.error .enumerateLayersOnlyOnce, s)
  else if vk.countResult ≠ VK_SUCCESS then (.ok vk.countResult, s)
  else if vk.count ≠ 0 then
    if vk.dataResult ≠ VK_SUCCESS then (.ok vk.dataResult, s)
    else (.ok VK_SUCCESS, { s.LoadLayers vk.names with m_LayersEnumerated := true })
  else (.ok VK_SUCCESS, { s with m_LayersEnumerated := true })

/-- The member `IsLayerSupported`. -/
def IsLayerSupported (s : InstanceInitHelp) (layerName : String) : Except Fatal Bool :=
  if s.m_LayersEnumerated then s.m_Layers.IsSupported layerName
  else .error .enumerateLayersFirst

/-- The member `IsLayerEnabled`. -/
def IsLayerEnabled (s : InstanceInitHelp) (layerName : String) : Except Fatal Bool :=
  if s.m_LayersEnumerated then s.m_Layers.IsEnabled layerName
  else .error .enumerateLayersFirst

/-- The member `EnableLayer`. -/
def EnableLayer (s : InstanceInitHelp) (layerName : String) (enabled : Bool) :
    Except Fatal Bool × InstanceInitHelp :=
  if s.m_LayersEnumerated then
    let r := s.m_Layers.Enable layerName enabled
    (r.1, { s with m_Layers := r.2 })
  else (.error .enumerateLayersFirst, s)

/-- The member `EnableAllLayers`. -/
def EnableAllLayers (s : InstanceInitHelp) (enabled : Bool) :
    Except Fatal Unit × InstanceInitHelp :=
  if s.m_LayersEnumerated then (.ok (), { s with m_Layers := s.m_Layers.EnableAll enabled })
  else (.error .enumerateLayersFirst, s)

/-- The chain-building loop of `PrepareCreation` over the remaining feature
structures, on the object state. -/
def chainLoop : List FeatureStruct → InstanceInitHelp → Except Fatal Unit × InstanceInitHelp
  | [], s => (.ok (), s)
  | f :: rest, s =>
    if f.m_Enabled then
      if (s.structs f.m_StructPtr).sType = f.m_sType then
        chainLoop rest
          { s with
            structs := setNext s.structs f.m_StructPtr s.m_FeaturesChain
            m_FeaturesChain := some f.m_StructPtr }
      else (.error .structTypeMismatch, s)
    else chainLoop rest s

/-- The member `PrepareCreation`. -/
def PrepareCreation (s : InstanceInitHelp) : Except Fatal Unit × InstanceInitHelp :=
  if s.m_LayersEnumerated then
    match s.toInitHelpBase.PrepareEnabledExtensionNames with
    | (.error e, b) => (.error e, { s with toInitHelpBase := b })
    | (.ok _, b) =>
      match s.m_Layers.PrepareEnabled with
      | (.error e, l) => (.error e, { s with toInitHelpBase := b, m_Layers := l })
      | (.ok _, l) =>
        match chainLoop b.m_FeatureStructs
            { s with toInitHelpBase := b, m_Layers := l, m_FeaturesChain := none } with
        | (.error e, s') => (.error e, s')
        | (.ok _, s') => (.ok (), { s' with m_CreationPrepared := true })
  else (.error .enumerateLayersFirst, s)

/-- The member `GetEnabledLayerCount` (before the cast to `uint32_t`). -/
def GetEnabledLayerCount (s : InstanceInitHelp) : Except Fatal Nat :=
  if s.m_CreationPrepared then .ok s.m_Layers.m_EnabledItemNames.length
  else .error .prepareCreationFirst

/-- The member `GetEnabledLayerNames`, `none` for `nullptr`. -/
def GetEnabledLayerNames (s : InstanceInitHelp) : Except Fatal (Option (List String)) :=
  if s.m_CreationPrepared then
    .ok (if s.m_Layers.m_EnabledItemNames.isEmpty then none
         else some s.m_Layers.m_EnabledItemNames)
  else .error .prepareCreationFirst

/-- The member `GetFeaturesChain`: the head of the chain. -/
def GetFeaturesChain (s : InstanceInitHelp) : Except Fatal (Option Nat) :=
  if s.m_CreationPrepared then .ok s.m_FeaturesChain
  else .error .prepareCreationFirst

end InstanceInitHelp

/-! ## `class DeviceInitHelp` -/

/-- The value `VK_STRUCTURE_TYPE_PHYSICAL_DEVICE_FEATURES_2` of `vulkan_core.h`. -/
def VK_STRUCTURE_TYPE_PHYSICAL_DEVICE_FEATURES_2 : VkStructureType := 1000059000

/-- The data members of `class DeviceInitHelp`; `m_Features2` keeps the
`sType` and `pNext` fields of the `VkPhysicalDeviceFeatures2` member and
`structs` is the storage of the members `m_structName`. -/
structure DeviceInitHelp extends InitHelpBase where
  m_PhysicalDeviceFeaturesQueried : Bool
  m_Features2 : VkBaseInStructure
  structs : StructMemory

/-- A `VkPhysicalDevice` handle; `0` is the null handle. -/
abbrev VkPhysicalDevice := Nat

namespace DeviceInitHelp

/-- The constructor `DeviceInitHelp()`. -/
def new (d : Declarations) : DeviceInitHelp :=
  { m_ExtensionsEnumerated := false
    m_CreationPrepared := false
    m_Extensions := { m_Items := declaredItems d.deviceExtensions, m_EnabledItemNames := [] }
    m_FeatureStructs := declaredFeatureStructs d.deviceFeatureStructs
    m_PhysicalDeviceFeaturesQueried := false
    m_Features2 := { sType := VK_STRUCTURE_TYPE_PHYSICAL_DEVICE_FEATURES_2, pNext := none }
    structs := declaredStorage d.deviceFeatureStructs }

/-- The member `Reset`. -/
def Reset (s : DeviceInitHelp) : DeviceInitHelp :=
  { s with
    toInitHelpBase := s.toInitHelpBase.Reset
    m_PhysicalDeviceFeaturesQueried := false
    m_Features2 := { sType := VK_STRUCTURE_TYPE_PHYSICAL_DEVICE_FEATURES_2, pNext := none } }

/-- The member `EnumerateExtensions`; `vk` is what
`vkEnumerateDeviceExtensionProperties` reports for `physicalDevice`. -/
def EnumerateExtensions (s : DeviceInitHelp) (physicalDevice : VkPhysicalDevice)
    (vk : EnumerateReply) : Except Fatal VkResult × DeviceInitHelp :=
  if physicalDevice = 0 then (.error .nullPhysicalDevice, s)
  else if vk.countResult ≠ VK_SUCCESS then (.ok vk.countResult, s)
  else if vk.count ≠ 0 then
    if vk.dataResult ≠ VK_SUCCESS then (.ok vk.dataResult, s)
    else
      match s.toInitHelpBase.LoadExtensions vk.names with
      | (.error e, b) => (.error e, { s with toInitHelpBase := b })
      | (.ok _, b) => (.ok VK_SUCCESS, { s with toInitHelpBase := b })
  else (.ok VK_SUCCESS, s)

/-- The chain-building loop of `GetPhysicalDeviceFeatures` over the remaining
feature structures, on the object state. -/
def queryChainLoop : List FeatureStruct → DeviceInitHelp → Except Fatal Unit × DeviceInitHelp
  | [], s => (.ok (), s)
  | f :: rest, s =>
    if f.m_Enabled then
      if (s.structs f.m_StructPtr).sType = f.m_sType then
        queryChainLoop rest
          { s with
            structs := setNext s.structs f.m_StructPtr s.m_Features2.pNext
            m_Features2 := { s.m_Features2 with pNext := some f.m_StructPtr } }
      else (.error .structTypeMismatch, s)
    else queryChainLoop rest s

/-- The member `GetPhysicalDeviceFeatures`; `vkGetPhysicalDeviceFeatures2`
is the feature-query collaborator, given the device handle, the `sType` and
`pNext` of `m_Features2` and the storage, and returning the storage as it
leaves it. -/
def GetPhysicalDeviceFeatures (s : DeviceInitHelp) (physicalDevice : VkPhysicalDevice)
    (vkGetPhysicalDeviceFeatures2 : VkPhysicalDevice → VkBaseInStructure → StructMemory →
      StructMemory) : Except Fatal Unit × DeviceInitHelp :=
  if physicalDevice = 0 then (.error .nullPhysicalDevice, s)
  else if s.m_PhysicalDeviceFeaturesQueried then (.error .getPhysicalDeviceFeaturesOnlyOnce, s)
  else if s.m_Features2.sType ≠ VK_STRUCTURE_TYPE_PHYSICAL_DEVICE_FEATURES_2 then
    (.error .features2TypeMismatch, s)
  else
    match queryChainLoop s.m_FeatureStructs
        { s with m_Features2 := { s.m_Features2 with pNext := none } } with
    | (.error e, s') => (.error e, s')
    | (.ok _, s') =>
      (.ok (),
        { s' with
          structs := vkGetPhysicalDeviceFeatures2 physicalDevice s'.m_Features2 s'.structs
          m_PhysicalDeviceFeaturesQueried := true })

/-- The chain-building loop of `PrepareCreation` over the remaining feature
structures, on the object state. -/
def chainLoop : List FeatureStruct → DeviceInitHelp → Except Fatal Unit × DeviceInitHelp
  | [], s => (.ok (), s)
  | f :: rest, s =>
    if f.m_Enabled then
      if (s.structs f.m_StructPtr).sType = f.m_sType then
        chainLoop rest
          { s with
            structs := setNext s.structs f.m_StructPtr s.m_Features2.pNext
            m_Features2 := { s.m_Features2 with pNext := some f.m_StructPtr } }
      else (.error .structTypeMismatch, s)
    else chainLoop rest s

/-- The member `PrepareCreation`. -/
def PrepareCreation (s : DeviceInitHelp) : Except Fatal Unit × DeviceInitHelp :=
  if s.m_ExtensionsEnumerated then
    if s.m_PhysicalDeviceFeaturesQueried then
      match s.toInitHelpBase.PrepareEnabledExtensionNames with
      | (.error e, b) => (.error e, { s with toInitHelpBase := b })
      | (.ok _, b) =>
        if s.m_Features2.sType ≠ VK_STRUCTURE_TYPE_PHYSICAL_DEVICE_FEATURES_2 then
          (.error .features2TypeMismatch, { s with toInitHelpBase := b })
        else
          match chainLoop b.m_FeatureStructs
              { s with toInitHelpBase := b, m_Features2 := { s.m_Features2 with pNext := none } } with
          | (.error e, s') => (.error e, s')
          | (.ok _, s') => (.ok (), { s' with m_CreationPrepared := true })
    else (.error .getPhysicalDeviceFeaturesFirst, s)
  else (.error .enumerateExtensionsFirst, s)

/-- The member `GetFeaturesChain`: the address of `m_Features2` is returned,
here as the `sType` and `pNext` found there. -/
def GetFeaturesChain (s : DeviceInitHelp) : Except Fatal VkBaseInStructure :=
  if s.m_CreationPrepared then .ok s.m_Features2
  else .error .prepareCreationFirst

end DeviceInitHelp

/-! ## Vocabulary of the statements and sample inputs -/

/-- The names a registry declares, in declaration order. -/
def EnabledItemVector.declaredNames (v : EnabledItemVector) : List String :=
  v.m_Items.map EnabledItem.m_Name

/-- A registry used to instantiate the theorems: `X` and `Z` are supported,
`Y` is not; `Z` is enabled. -/
def sampleRegistry : EnabledItemVector :=
  { m_Items :=
      [ { m_Name := "X", m_Supported := true, m_Enabled := false },
        { m_Name := "Y", m_Supported := false, m_Enabled := false },
        { m_Name := "Z", m_Supported := true, m_Enabled := true } ]
    m_EnabledItemNames := ["stale"] }

/-- A registry in which the unsupported item `Y` is enabled, which only a
direct write to `m_Items` produces. -/
def staleRegistry : EnabledItemVector :=
  { m_Items :=
      [ { m_Name := "X", m_Supported := true, m_Enabled := true },
        { m_Name := "Y", m_Supported := false, m_Enabled := true } ]
    m_EnabledItemNames := [] }

/-- A registry that declares the name `X` twice. -/
def twiceRegistry : EnabledItemVector :=
  { m_Items :=
      [ { m_Name := "X", m_Supported := true, m_Enabled := false },
        { m_Name := "X", m_Supported := false, m_Enabled := true } ]
    m_EnabledItemNames := [] }

/-- The state of a registry right after construction or `Reset`: no item is
supported or enabled. -/
def EnabledItemVector.AllClear (v : EnabledItemVector) : Prop :=
  ∀ it ∈ v.m_Items, it.m_Supported = false ∧ it.m_Enabled = false

/-- The lifecycle state `Fresh` of the outer-scope session: nothing
enumerated or prepared, no item supported or enabled. -/
def InstanceInitHelp.Fresh (s : InstanceInitHelp) : Prop :=
  s.m_ExtensionsEnumerated = false ∧ s.m_LayersEnumerated = false ∧
    s.m_CreationPrepared = false ∧ s.m_Extensions.AllClear ∧ s.m_Layers.AllClear

/-- The lifecycle state `Fresh` of the device-scope session. -/
def DeviceInitHelp.Fresh (s : DeviceInitHelp) : Prop :=
  s.m_ExtensionsEnumerated = false ∧ s.m_PhysicalDeviceFeaturesQueried = false ∧
    s.m_CreationPrepared = false ∧ s.m_Extensions.AllClear

/-- The item a fresh item becomes when discovery reports the names `L`. -/
def loadedItem (L : List String) (it : EnabledItem) : EnabledItem :=
  { m_Name := it.m_Name, m_Supported := decide (it.m_Name ∈ L),
    m_Enabled := decide (it.m_Name ∈ L) }

/-- The declarations used to instantiate the theorems on sessions. -/
def sampleDeclarations : Declarations :=
  { instanceExtensions := ["X", "Y", "Z"]
    instanceLayers := ["L1", "L2"]
    instanceFeatureStructs := [("R1", 11), ("R2", 12)]
    deviceExtensions := ["X", "Y", "Z"]
    deviceFeatureStructs := [("A", 21), ("B", 22), ("C", 23)] }

/-- A collaborator reply whose count query fails with
`VK_ERROR_OUT_OF_HOST_MEMORY = -1`. -/
def countFailure : EnumerateReply :=
  { countResult := -1, count := 0, dataResult := 0, names := [] }

/-- A collaborator reply whose data query fails with `VK_INCOMPLETE = 5`
after three entries were announced. -/
def dataFailure : EnumerateReply :=
  { countResult := 0, count := 3, dataResult := 5, names := ["X", "Y"] }

/-- The chain-building loop as the three copies in the header share it, on
the storage and the running head alone. -/
def linkLoop : List FeatureStruct → StructMemory → Option Nat →
    Except Fatal Unit × StructMemory × Option Nat
  | [], mem, head => (.ok (), mem, head)
  | f :: rest, mem, head =>
    if f.m_Enabled then
      if (mem f.m_StructPtr).sType = f.m_sType then
        linkLoop rest (setNext mem f.m_StructPtr head) (some f.m_StructPtr)
      else (.error .structTypeMismatch, mem, head)
    else linkLoop rest mem head

/-- The list `l` is what following `pNext` from `head` visits before it
reaches null. -/
def IsChain (mem : StructMemory) : Option Nat → List Nat → Prop
  | head, [] => head = none
  | head, p :: rest => head = some p ∧ IsChain mem (mem p).pNext rest

/-- The addresses of the enabled feature structures, in declaration order. -/
def enabledPtrs (fs : List FeatureStruct) : List Nat :=
  (fs.filter fun f => f.m_Enabled).map FeatureStruct.m_StructPtr

/-- The outer-scope session may run `PrepareCreation`: both discoveries were
completed and no unsupported item is enabled. -/
def InstanceInitHelp.Ready (s : InstanceInitHelp) : Prop :=
  s.m_LayersEnumerated = true ∧ s.m_ExtensionsEnumerated = true ∧
    (∀ it ∈ s.m_Extensions.m_Items, it.m_Enabled = true → it.m_Supported = true) ∧
    (∀ it ∈ s.m_Layers.m_Items, it.m_Enabled = true → it.m_Supported = true)

/-- The device-scope session may run `PrepareCreation`: extension discovery
and the feature query were completed, `m_Features2` carries its own tag and
no unsupported item is enabled. -/
def DeviceInitHelp.Ready (s : DeviceInitHelp) : Prop :=
  s.m_ExtensionsEnumerated = true ∧ s.m_PhysicalDeviceFeaturesQueried = true ∧
    s.m_Features2.sType = VK_STRUCTURE_TYPE_PHYSICAL_DEVICE_FEATURES_2 ∧
    (∀ it ∈ s.m_Extensions.m_Items, it.m_Enabled = true → it.m_Supported = true)

/-- The snapshot `PrepareEnabled` computes: the names of the enabled items
in declaration order. -/
def enabledNames (v : EnabledItemVector) : List String :=
  (v.m_Items.filter fun it => it.m_Enabled).map EnabledItem.m_Name

/-- An outer-scope session after both discoveries, with the two declared
records `R1`, `R2` enabled by default and every next-link of the storage
overwritten with the address `7`. -/
def sampleInstance : InstanceInitHelp :=
  { (((InstanceInitHelp.new sampleDeclarations).EnumerateExtensions
        (.success ["X", "Z"])).2.EnumerateLayers (.success ["L2"])).2 with
    structs := fun a => { declaredStorage sampleDeclarations.instanceFeatureStructs a with
      pNext := some 7 } }

/-- The feature-query collaborator, which leaves tags and next-links as they are. -/
def sampleFeatureQuery : VkPhysicalDevice → VkBaseInStructure → StructMemory → StructMemory :=
  fun _ _ mem => mem

/-- A device-scope session after extension discovery and the feature query,
in which the record `B`, the second of `A`, `B`, `C`, was disabled. -/
def sampleDevice : DeviceInitHelp :=
  { ((((DeviceInitHelp.new sampleDeclarations).EnumerateExtensions 1
        (.success ["X", "Z"])).2.GetPhysicalDeviceFeatures 1 sampleFeatureQuery).2) with
    toInitHelpBase :=
      (((((DeviceInitHelp.new sampleDeclarations).EnumerateExtensions 1
        (.success ["X", "Z"])).2.GetPhysicalDeviceFeatures 1
          sampleFeatureQuery).2).toInitHelpBase.EnableFeatureStructByName "B" false).2 }

/-- A call of a mutating member of the registry, or a discovery load (the
two nested loops of `LoadExtensions` / `LoadLayers` on its items). -/
inductive RegistryCall where
  | Reset
  | Enable (name : String) (enabled : Bool)
  | EnableAll (enabled : Bool)
  | PrepareEnabled
  | Load (props : List String)
deriving DecidableEq, Repr

/-- The outcome of a call with its returned value dropped. -/
def discard {α : Type} : Except Fatal α → Except Fatal Unit
  | .ok _ => .ok ()
  | .error e => .error e

/-- One call on a registry. -/
def EnabledItemVector.call (v : EnabledItemVector) :
    RegistryCall → Except Fatal Unit × EnabledItemVector
  | .Reset => (.ok (), v.Reset)
  | .Enable name enabled => (discard (v.Enable name enabled).1, (v.Enable name enabled).2)
  | .EnableAll enabled => (.ok (), v.EnableAll enabled)
  | .PrepareEnabled => v.PrepareEnabled
  | .Load props => (.ok (), { v with m_Items := loadNames props v.m_Items })

/-- A sequence of calls on a registry, which ends at the first failed
assertion. -/
def EnabledItemVector.run :
    EnabledItemVector → List RegistryCall → Except Fatal Unit × EnabledItemVector
  | v, [] => (.ok (), v)
  | v, c :: rest =>
    match v.call c with
    | (.ok _, v') => EnabledItemVector.run v' rest
    | (.error e, v') => (.error e, v')

/-- The invariant of the registry: no item is enabled while unsupported. -/
def EnabledItemVector.EnabledImpliesSupported (v : EnabledItemVector) : Prop :=
  ∀ it ∈ v.m_Items, it.m_Enabled = true → it.m_Supported = true

/-- A call of a public mutating member of `InstanceInitHelp`. -/
inductive InstanceCall where
  | Reset
  | EnumerateExtensions (vk : EnumerateReply)
  | EnumerateLayers (vk : EnumerateReply)
  | EnableExtension (extensionName : String) (enabled : Bool)
  | EnableAllExtensions (enabled : Bool)
  | EnableLayer (layerName : String) (enabled : Bool)
  | EnableAllLayers (enabled : Bool)
  | EnableFeatureStructByName (structName : String) (enabled : Bool)
  | EnableFeatureStructByType (sType : VkStructureType) (enabled : Bool)
  | EnableAllFeatureStructs (enabled : Bool)
  | PrepareCreation
deriving DecidableEq, Repr

/-- A member of the base class called on the outer-scope session. -/
def InstanceInitHelp.onBase {α : Type} (s : InstanceInitHelp)
    (r : Except Fatal α × InitHelpBase) : Except Fatal Unit × InstanceInitHelp :=
  (discard r.1, { s with toInitHelpBase := r.2 })

/-- One call on the outer-scope session. -/
def InstanceInitHelp.call (s : InstanceInitHelp) :
    InstanceCall → Except Fatal Unit × InstanceInitHelp
  | .Reset => (.ok (), s.Reset)
  | .EnumerateExtensions vk => (discard (s.EnumerateExtensions vk).1, (s.EnumerateExtensions vk).2)
  | .EnumerateLayers vk => (discard (s.EnumerateLayers vk).1, (s.EnumerateLayers vk).2)
  | .EnableExtension n e => s.onBase (s.toInitHelpBase.EnableExtension n e)
  | .EnableAllExtensions e => s.onBase (s.toInitHelpBase.EnableAllExtensions e)
  | .EnableLayer n e => (discard (s.EnableLayer n e).1, (s.EnableLayer n e).2)
  | .EnableAllLayers e => s.EnableAllLayers e
  | .EnableFeatureStructByName n e => s.onBase (s.toInitHelpBase.EnableFeatureStructByName n e)
  | .EnableFeatureStructByType t e => s.onBase (s.toInitHelpBase.EnableFeatureStructByType t e)
  | .EnableAllFeatureStructs e =>
    (.ok (), { s with toInitHelpBase := s.toInitHelpBase.EnableAllFeatureStructs e })
  | .PrepareCreation => s.PrepareCreation

/-- A sequence of calls on the outer-scope session, which ends at the first
failed assertion. -/
def InstanceInitHelp.run :
    InstanceInitHelp → List InstanceCall → Except Fatal Unit × InstanceInitHelp
  | s, [] => (.ok (), s)
  | s, c :: rest =>
    match s.call c with
    | (.ok _, s') => InstanceInitHelp.run s' rest
    | (.error e, s') => (.error e, s')

/-- What has happened to an outer-scope session since its construction or
its last `Reset`: whether an `EnumerateExtensions` returned `VK_SUCCESS`,
whether an `EnumerateLayers` returned `VK_SUCCESS`, whether a
`PrepareCreation` completed. -/
structure InstanceHistory where
  extensionsDiscovered : Bool
  layersDiscovered : Bool
  creationPrepared : Bool
deriving DecidableEq, Repr

/-- The history of a session on which nothing was called yet. -/
def InstanceHistory.initial : InstanceHistory :=
  { extensionsDiscovered := false, layersDiscovered := false, creationPrepared := false }

/-- The history after the call `c` was made in the state `s`, read off what
the call returned. -/
def InstanceInitHelp.record (s : InstanceInitHelp) (h : InstanceHistory) :
    InstanceCall → InstanceHistory
  | .Reset => InstanceHistory.initial
  | .EnumerateExtensions vk =>
    if (s.EnumerateExtensions vk).1 = .ok VK_SUCCESS then { h with extensionsDiscovered := true }
    else h
  | .EnumerateLayers vk =>
    if (s.EnumerateLayers vk).1 = .ok VK_SUCCESS then { h with layersDiscovered := true } else h
  | .PrepareCreation =>
    if (s.PrepareCreation).1 = .ok () then { h with creationPrepared := true } else h
  | _ => h

/-- The history along a sequence of calls. -/
def InstanceInitHelp.history :
    InstanceInitHelp → InstanceHistory → List InstanceCall → InstanceHistory
  | _, h, [] => h
  | s, h, c :: rest =>
    match s.call c with
    | (.ok _, s') => InstanceInitHelp.history s' (s.record h c) rest
    | (.error _, _) => s.record h c

/-- A call of a public mutating member of `DeviceInitHelp`. -/
inductive DeviceCall where
  | Reset
  | EnumerateExtensions (physicalDevice : VkPhysicalDevice) (vk : EnumerateReply)
  | GetPhysicalDeviceFeatures (physicalDevice : VkPhysicalDevice)
      (vkGetPhysicalDeviceFeatures2 : VkPhysicalDevice → VkBaseInStructure → StructMemory →
        StructMemory)
  | EnableExtension (extensionName : String) (enabled : Bool)
  | EnableAllExtensions (enabled : Bool)
  | EnableFeatureStructByName (structName : String) (enabled : Bool)
  | EnableFeatureStructByType (sType : VkStructureType) (enabled : Bool)
  | EnableAllFeatureStructs (enabled : Bool)
  | PrepareCreation

/-- A member of the base class called on the device-scope session. -/
def DeviceInitHelp.onBase {α : Type} (s : DeviceInitHelp)
    (r : Except Fatal α × InitHelpBase) : Except Fatal Unit × DeviceInitHelp :=
  (discard r.1, { s with toInitHelpBase := r.2 })

/-- One call on the device-scope session. -/
def DeviceInitHelp.call (s : DeviceInitHelp) :
    DeviceCall → Except Fatal Unit × DeviceInitHelp
  | .Reset => (.ok (), s.Reset)
  | .EnumerateExtensions dev vk =>
    (discard (s.EnumerateExtensions dev vk).1, (s.EnumerateExtensions dev vk).2)
  | .GetPhysicalDeviceFeatures dev q => s.GetPhysicalDeviceFeatures dev q
  | .EnableExtension n e => s.onBase (s.toInitHelpBase.EnableExtension n e)
  | .EnableAllExtensions e => s.onBase (s.toInitHelpBase.EnableAllExtensions e)
  | .EnableFeatureStructByName n e => s.onBase (s.toInitHelpBase.EnableFeatureStructByName n e)
  | .EnableFeatureStructByType t e => s.onBase (s.toInitHelpBase.EnableFeatureStructByType t e)
  | .EnableAllFeatureStructs e =>
    (.ok (), { s with toInitHelpBase := s.toInitHelpBase.EnableAllFeatureStructs e })
  | .PrepareCreation => s.PrepareCreation

/-- A sequence of calls on the device-scope session, which ends at the first
failed assertion. -/
def DeviceInitHelp.run :
    DeviceInitHelp → List DeviceCall → Except Fatal Unit × DeviceInitHelp
  | s, [] => (.ok (), s)
  | s, c :: rest =>
    match s.call c with
    | (.ok _, s') => DeviceInitHelp.run s' rest
    | (.error e, s') => (.error e, s')

/-- What has happened to a device-scope session since its construction or
its last `Reset`: whether an `EnumerateExtensions` returned `VK_SUCCESS`,
whether a `GetPhysicalDeviceFeatures` completed, whether a `PrepareCreation`
completed. -/
structure DeviceHistory where
  extensionsDiscovered : Bool
  featuresQueried : Bool
  creationPrepared : Bool
deriving DecidableEq, Repr

/-- The history of a session on which nothing was called yet. -/
def DeviceHistory.initial : DeviceHistory :=
  { extensionsDiscovered := false, featuresQueried := false, creationPrepared := false }

/-- The history after the call `c` was made in the state `s`, read off what
the call returned. -/
def DeviceInitHelp.record (s : DeviceInitHelp) (h : DeviceHistory) :
    DeviceCall → DeviceHistory
  | .Reset => DeviceHistory.initial
  | .EnumerateExtensions dev vk =>
    if (s.EnumerateExtensions dev vk).1 = .ok VK_SUCCESS then
      { h with extensionsDiscovered := true }
    else h
  | .GetPhysicalDeviceFeatures dev q =>
    if (s.GetPhysicalDeviceFeatures dev q).1 = .ok () then { h with featuresQueried := true }
    else h
  | .PrepareCreation =>
    if (s.PrepareCreation).1 = .ok () then { h with creationPrepared := true } else h
  | _ => h

/-- The history along a sequence of calls. -/
def DeviceInitHelp.history :
    DeviceInitHelp → DeviceHistory → List DeviceCall → DeviceHistory
  | _, h, [] => h
  | s, h, c :: rest =>
    match s.call c with
    | (.ok _, s') => DeviceInitHelp.history s' (s.record h c) rest
    | (.error _, _) => s.record h c

/-- What the declaration table fixes of a feature record: its name, its tag
and its storage block. -/
def FeatureStruct.declaration (f : FeatureStruct) : String × VkStructureType × Nat :=
  (f.m_Name, f.m_sType, f.m_StructPtr)

/-- The outer-scope session `s` is over the declarations `d`. -/
def InstanceInitHelp.DeclaredBy (s : InstanceInitHelp) (d : Declarations) : Prop :=
  s.m_Extensions.declaredNames = d.instanceExtensions ∧
    s.m_Layers.declaredNames = d.instanceLayers ∧
    s.m_FeatureStructs.map FeatureStruct.declaration =
      (declaredFeatureStructs d.instanceFeatureStructs).map FeatureStruct.declaration

/-- The device-scope session `s` is over the declarations `d`. -/
def DeviceInitHelp.DeclaredBy (s : DeviceInitHelp) (d : Declarations) : Prop :=
  s.m_Extensions.declaredNames = d.deviceExtensions ∧
    s.m_FeatureStructs.map FeatureStruct.declaration =
      (declaredFeatureStructs d.deviceFeatureStructs).map FeatureStruct.declaration

/-- The calls of the configuration phase of the outer-scope session:
`Enable` / `EnableAll` on extensions or layers, `EnableFeatureStruct`,
`EnableAllFeatureStructs`. -/
def InstanceCall.isConfiguration : InstanceCall → Bool
  | .EnableExtension _ _ => true
  | .EnableAllExtensions _ => true
  | .EnableLayer _ _ => true
  | .EnableAllLayers _ => true
  | .EnableFeatureStructByName _ _ => true
  | .EnableFeatureStructByType _ _ => true
  | .EnableAllFeatureStructs _ => true
  | _ => false

/-- The calls `Reset` and `PrepareCreation` of the outer-scope session. -/
def InstanceCall.isResetOrPrepare : InstanceCall → Bool
  | .Reset => true
  | .PrepareCreation => true
  | _ => false

/-- The calls of the outer-scope session that load discovery results or
reset: `Reset`, `EnumerateExtensions`, `EnumerateLayers`. -/
def InstanceCall.isLoadOrReset : InstanceCall → Bool
  | .Reset => true
  | .EnumerateExtensions _ => true
  | .EnumerateLayers _ => true
  | _ => false

/-- The calls of the configuration phase of the device-scope session. -/
def DeviceCall.isConfiguration : DeviceCall → Bool
  | .EnableExtension _ _ => true
  | .EnableAllExtensions _ => true
  | .EnableFeatureStructByName _ _ => true
  | .EnableFeatureStructByType _ _ => true
  | .EnableAllFeatureStructs _ => true
  | _ => false

/-- The calls `Reset` and `PrepareCreation` of the device-scope session. -/
def DeviceCall.isResetOrPrepare : DeviceCall → Bool
  | .Reset => true
  | .PrepareCreation => true
  | _ => false

/-- The calls of the device-scope session that load discovery results or
reset: `Reset`, `EnumerateExtensions`. -/
def DeviceCall.isLoadOrReset : DeviceCall → Bool
  | .Reset => true
  | .EnumerateExtensions _ _ => true
  | _ => false

/-- What a call leaves of a registry when it neither loads nor resets it:
the names, the supported flags and the snapshot. -/
def EnabledItemVector.ConfigFrame (v v' : EnabledItemVector) : Prop :=
  v'.declaredNames = v.declaredNames ∧
    v'.m_Items.map EnabledItem.m_Supported = v.m_Items.map EnabledItem.m_Supported ∧
    v'.m_EnabledItemNames = v.m_EnabledItemNames

/-- What a configuration call leaves of the base-class members: the two
flags, the registry up to its enabled flags, and the declarations of the
feature records. -/
def InitHelpBase.ConfigFrame (b b' : InitHelpBase) : Prop :=
  b'.m_ExtensionsEnumerated = b.m_ExtensionsEnumerated ∧
    b'.m_CreationPrepared = b.m_CreationPrepared ∧
    b.m_Extensions.ConfigFrame b'.m_Extensions ∧
    b'.m_FeatureStructs.map FeatureStruct.declaration =
      b.m_FeatureStructs.map FeatureStruct.declaration

/-- What a configuration call leaves of the outer-scope session. -/
def InstanceInitHelp.ConfigFrame (s s' : InstanceInitHelp) : Prop :=
  s.toInitHelpBase.ConfigFrame s'.toInitHelpBase ∧
    s'.m_LayersEnumerated = s.m_LayersEnumerated ∧
    s.m_Layers.ConfigFrame s'.m_Layers ∧
    s'.m_FeaturesChain = s.m_FeaturesChain ∧ s'.structs = s.structs

/-- What the finalized accessors of the outer-scope session read: the
creation-prepared flag, the two snapshots, the head of the chain and the
storage with its links. -/
def InstanceInitHelp.FinalizedFrame (s s' : InstanceInitHelp) : Prop :=
  s'.m_CreationPrepared = s.m_CreationPrepared ∧
    s'.m_Extensions.m_EnabledItemNames = s.m_Extensions.m_EnabledItemNames ∧
    s'.m_Layers.m_EnabledItemNames = s.m_Layers.m_EnabledItemNames ∧
    s'.m_FeaturesChain = s.m_FeaturesChain ∧ s'.structs = s.structs

/-- The two outer-scope sessions are over the same declarations. -/
def InstanceInitHelp.SameDeclarations (s s' : InstanceInitHelp) : Prop :=
  s'.m_Extensions.declaredNames = s.m_Extensions.declaredNames ∧
    s'.m_Layers.declaredNames = s.m_Layers.declaredNames ∧
    s'.m_FeatureStructs.map FeatureStruct.declaration =
      s.m_FeatureStructs.map FeatureStruct.declaration

/-- What a configuration call leaves of the device-scope session. -/
def DeviceInitHelp.ConfigFrame (s s' : DeviceInitHelp) : Prop :=
  s.toInitHelpBase.ConfigFrame s'.toInitHelpBase ∧
    s'.m_PhysicalDeviceFeaturesQueried = s.m_PhysicalDeviceFeaturesQueried ∧
    s'.m_Features2 = s.m_Features2 ∧ s'.structs = s.structs

/-- What the finalized accessors of the device-scope session read, with the
features-queried flag. -/
def DeviceInitHelp.FinalizedFrame (s s' : DeviceInitHelp) : Prop :=
  s'.m_CreationPrepared = s.m_CreationPrepared ∧
    s'.m_Extensions.m_EnabledItemNames = s.m_Extensions.m_EnabledItemNames ∧
    s'.m_PhysicalDeviceFeaturesQueried = s.m_PhysicalDeviceFeaturesQueried ∧
    s'.m_Features2 = s.m_Features2 ∧ s'.structs = s.structs

/-- The two device-scope sessions are over the same declarations. -/
def DeviceInitHelp.SameDeclarations (s s' : DeviceInitHelp) : Prop :=
  s'.m_Extensions.declaredNames = s.m_Extensions.declaredNames ∧
    s'.m_FeatureStructs.map FeatureStruct.declaration =
      s.m_FeatureStructs.map FeatureStruct.declaration

/-- The flags of the outer-scope session agree with its history: layers are
enumerated exactly when an `EnumerateLayers` returned `VK_SUCCESS`, creation
is prepared exactly when a `PrepareCreation` completed, and extensions are
enumerated only when an `EnumerateExtensions` returned `VK_SUCCESS`. -/
def InstanceInitHelp.Agrees (s : InstanceInitHelp) (h : InstanceHistory) : Prop :=
  s.m_LayersEnumerated = h.layersDiscovered ∧ s.m_CreationPrepared = h.creationPrepared ∧
    (s.m_ExtensionsEnumerated = true → h.extensionsDiscovered = true)

/-- The flags of the device-scope session agree with its history. -/
def DeviceInitHelp.Agrees (s : DeviceInitHelp) (h : DeviceHistory) : Prop :=
  s.m_PhysicalDeviceFeaturesQueried = h.featuresQueried ∧
    s.m_CreationPrepared = h.creationPrepared ∧
    (s.m_ExtensionsEnumerated = true → h.extensionsDiscovered = true)

/-- A sequence of calls that takes the outer-scope session through discovery,
configuration and `PrepareCreation`. -/
def sampleInstanceCalls : List InstanceCall :=
  [ .EnumerateExtensions (.success ["X", "Z"]), .EnumerateLayers (.success ["L2"]),
    .EnableExtension "X" false, .EnableFeatureStructByName "R2" false,
    .EnableAllFeatureStructs true, .PrepareCreation ]

/-- A sequence of calls that takes the device-scope session through
discovery, the feature query, configuration and `PrepareCreation`. -/
def sampleDeviceCalls : List DeviceCall :=
  [ .GetPhysicalDeviceFeatures 1 sampleFeatureQuery,
    .EnumerateExtensions 1 (.success ["X", "Z"]),
    .EnableFeatureStructByType 22 false, .PrepareCreation ]

/-- Some enabled record of `fs` has a storage block whose embedded tag
differs from the declared tag of the record. -/
def TagMismatch (fs : List FeatureStruct) (mem : StructMemory) : Prop :=
  ∃ f ∈ fs, f.m_Enabled = true ∧ (mem f.m_StructPtr).sType ≠ f.m_sType

/-- The sample outer-scope session after the tag `99` was written into the
storage block of `R2` (whose declared tag is `12`). -/
def mismatchedInstance : InstanceInitHelp :=
  { sampleInstance with
    structs := fun a => if a = 1 then { sType := 99, pNext := none } else sampleInstance.structs a }

/-- The same session with the record `R2` disabled. -/
def mismatchedDisabledInstance : InstanceInitHelp :=
  { mismatchedInstance with
    toInitHelpBase := (mismatchedInstance.toInitHelpBase.EnableFeatureStructByName "R2" false).2 }

/-- Declarations in which a feature structure is declared a second time
under the name of its alias: the two records have different names and the
same `sType`. -/
def aliasDeclarations : Declarations :=
  { instanceExtensions := []
    instanceLayers := []
    instanceFeatureStructs := []
    deviceExtensions := []
    deviceFeatureStructs := [("F", 7), ("FKHR", 7)] }

/-- The device-scope session over the alias declarations after the record
`FKHR` was disabled by name. -/
def aliasDevice : DeviceInitHelp :=
  ((DeviceInitHelp.new aliasDeclarations).call (.EnableFeatureStructByName "FKHR" false)).2

/-- A device-scope session before its feature query whose storage already
holds links: the sample device session after `Reset`. -/
def unqueriedDevice : DeviceInitHelp :=
  sampleDevice.Reset

/-- A device-scope session after its feature query with the records and the
storage of `unqueriedDevice`. -/
def queriedDevice : DeviceInitHelp :=
  (sampleDevice.call (.EnableAllFeatureStructs true)).2

/-- An outer-scope session that may run `PrepareCreation`, given the records
and the storage of `unqueriedDevice`. -/
def sameRecordsInstance : InstanceInitHelp :=
  { sampleInstance with
    toInitHelpBase :=
      { sampleInstance.toInitHelpBase with m_FeatureStructs := unqueriedDevice.m_FeatureStructs }
    structs := unqueriedDevice.structs }

/-- The search both `FindFeatureStruct` overloads perform, for a test `p` on
the records: the first index from `i` on whose record passes the test. -/
def findFirstFrom (p : FeatureStruct → Bool) : List FeatureStruct → Nat → Option Nat
  | [], _ => none
  | f :: rest, i => if p f then some i else findFirstFrom p rest (i + 1)

/-- The names the feature records declare, in declaration order. -/
def InitHelpBase.structNames (b : InitHelpBase) : List String :=
  b.m_FeatureStructs.map FeatureStruct.m_Name

/-- The tags the feature records declare, in declaration order. -/
def InitHelpBase.structTypes (b : InitHelpBase) : List VkStructureType :=
  b.m_FeatureStructs.map FeatureStruct.m_sType

/-! ## Lemmas on the registry -/

namespace EnabledItemVector

theorem findLoop_eq_none_iff (name : String) (l : List EnabledItem) (i : Nat) :
    findLoop name l i = none ↔ name ∉ l.map EnabledItem.m_Name := by
  induction l generalizing i with
  | nil => simp [findLoop]
  | cons it rest ih =>
    by_cases h : name = it.m_Name
    · simp [findLoop, h]
    · simp [findLoop, h, ih]

theorem findLoop_eq_some (name : String) (l : List EnabledItem) (i k : Nat)
    (h : findLoop name l i = some k) :
    ∃ j it, k = i + j ∧ l[j]? = some it ∧ it.m_Name = name ∧
      ∀ j', j' < j → ∀ jt, l[j']? = some jt → jt.m_Name ≠ name := by
  induction l generalizing i with
  | nil => simp [findLoop] at h
  | cons it rest ih =>
    by_cases hn : name = it.m_Name
    · refine ⟨0, it, ?_, by simp, hn.symm, ?_⟩
      · simpa [findLoop, hn] using h.symm
      · intro j' hj'; omega
    · simp only [findLoop, hn, if_false] at h
      obtain ⟨j, jt, hk, hj, hname, hfirst⟩ := ih (i + 1) h
      refine ⟨j + 1, jt, by omega, by simpa using hj, hname, ?_⟩
      intro j' hj' x hx
      cases j' with
      | zero =>
        simp at hx
        subst hx
        exact fun hh => hn hh.symm
      | succ j'' =>
        simp at hx
        exact hfirst j'' (by omega) x hx

theorem findLoop_congr (name : String) (l l' : List EnabledItem) (i : Nat)
    (h : l.map EnabledItem.m_Name = l'.map EnabledItem.m_Name) :
    findLoop name l i = findLoop name l' i := by
  induction l generalizing l' i with
  | nil =>
    cases l' with
    | nil => rfl
    | cons a t => simp at h
  | cons it rest ih =>
    cases l' with
    | nil => simp at h
    | cons a t =>
      simp only [List.map_cons, List.cons.injEq] at h
      simp only [findLoop, h.1]
      rw [ih t (i + 1) h.2]

/-- What `Find` returns for a declared name: the position of the first item
of that name, with the item found there. -/
theorem Find_of_declared (v : EnabledItemVector) (name : String)
    (h : name ∈ v.declaredNames) :
    ∃ i it, v.Find name = some i ∧ v.m_Items[i]? = some it ∧ v.itemAt i = it ∧
      it.m_Name = name ∧ ∀ j, j < i → ∀ jt, v.m_Items[j]? = some jt → jt.m_Name ≠ name := by
  cases hf : v.Find name with
  | none =>
    exact absurd h ((findLoop_eq_none_iff name v.m_Items 0).1 hf)
  | some k =>
    obtain ⟨j, it, hk, hj, hname, hfirst⟩ := findLoop_eq_some name v.m_Items 0 k hf
    have hkj : k = j := by omega
    subst hkj
    refine ⟨k, it, rfl, hj, ?_, hname, hfirst⟩
    simp [itemAt, List.getD, hj]

theorem Find_eq_none_iff (v : EnabledItemVector) (name : String) :
    v.Find name = none ↔ name ∉ v.declaredNames :=
  findLoop_eq_none_iff name v.m_Items 0

theorem map_name_set (l : List EnabledItem) (i : Nat) (it x : EnabledItem)
    (hi : l[i]? = some it) (hx : x.m_Name = it.m_Name) :
    (l.set i x).map EnabledItem.m_Name = l.map EnabledItem.m_Name := by
  apply List.ext_getElem?
  intro n
  by_cases hn : i = n
  · subst hn
    have hlt : i < l.length := by
      rcases Nat.lt_or_ge i l.length with h | h
      · exact h
      · simp [List.getElem?_eq_none h] at hi
    have hit : l[i] = it := by
      have := List.getElem?_eq_getElem hlt
      rw [this] at hi
      exact Option.some.inj hi
    simp [List.getElem?_map, hx, hlt, hit]
  · simp [List.getElem?_map, List.getElem?_set_ne hn]

theorem Find_set (v : EnabledItemVector) (name : String) (i : Nat) (it x : EnabledItem)
    (names : List String) (hi : v.m_Items[i]? = some it) (hx : x.m_Name = it.m_Name) :
    Find { m_Items := v.m_Items.set i x, m_EnabledItemNames := names } name = v.Find name :=
  findLoop_congr name _ _ 0 (map_name_set v.m_Items i it x hi hx)

theorem itemAt_set (v : EnabledItemVector) (i : Nat) (it x : EnabledItem)
    (names : List String) (hi : v.m_Items[i]? = some it) :
    itemAt { m_Items := v.m_Items.set i x, m_EnabledItemNames := names } i = x := by
  have hlt : i < v.m_Items.length := by
    rcases Nat.lt_or_ge i v.m_Items.length with h | h
    · exact h
    · simp [List.getElem?_eq_none h] at hi
  simp [itemAt, List.getD, hlt]

/-- The single-item rule of `Enable`, at the item `Find` returns. -/
theorem Enable_of_declared (v : EnabledItemVector) (name : String) (e : Bool)
    (h : name ∈ v.declaredNames) :
    ∃ i it, v.m_Items[i]? = some it ∧ it.m_Name = name ∧
      (∀ j, j < i → ∀ jt, v.m_Items[j]? = some jt → jt.m_Name ≠ name) ∧
      v.IsSupported name = .ok it.m_Supported ∧
      v.IsEnabled name = .ok it.m_Enabled ∧
      v.Enable name e =
        (.ok (e && it.m_Supported),
          { v with m_Items := v.m_Items.set i { it with m_Enabled := e && it.m_Supported } }) ∧
      (v.Enable name e).2.IsSupported name = .ok it.m_Supported ∧
      (v.Enable name e).2.IsEnabled name = .ok (e && it.m_Supported) := by
  obtain ⟨i, it, hf, hi, hat, hname, hfirst⟩ := Find_of_declared v name h
  have hE : v.Enable name e =
        (.ok (e && it.m_Supported),
          { v with m_Items := v.m_Items.set i { it with m_Enabled := e && it.m_Supported } }) := by
    cases e <;> cases hs : it.m_Supported <;> simp [Enable, hf, hat, hs, setEnabledAt]
  have hF : Find { m_Items := v.m_Items.set i { it with m_Enabled := e && it.m_Supported },
                   m_EnabledItemNames := v.m_EnabledItemNames } name = some i := by
    rw [Find_set v name i it { it with m_Enabled := e && it.m_Supported } _ hi rfl, hf]
  have hA := itemAt_set v i it { it with m_Enabled := e && it.m_Supported }
    v.m_EnabledItemNames hi
  refine ⟨i, it, hi, hname, hfirst, ?_, ?_, hE, ?_, ?_⟩
  · simp [IsSupported, hf, hat]
  · simp [IsEnabled, hf, hat]
  · rw [hE]; simp only [IsSupported, hF, hA]
  · rw [hE]; simp only [IsEnabled, hF, hA]

theorem Find_EnableAll (v : EnabledItemVector) (w : Bool) (name : String) :
    (v.EnableAll w).Find name = v.Find name := by
  apply findLoop_congr
  simp [EnableAll, List.map_map, Function.comp_def]

theorem getElem?_EnableAll (v : EnabledItemVector) (w : Bool) (i : Nat) (it : EnabledItem)
    (hi : v.m_Items[i]? = some it) :
    (v.EnableAll w).m_Items[i]? = some { it with m_Enabled := w && it.m_Supported } := by
  simp [EnableAll, List.getElem?_map, hi]

theorem itemAt_of_getElem? (v : EnabledItemVector) (i : Nat) (it : EnabledItem)
    (hi : v.m_Items[i]? = some it) : v.itemAt i = it := by
  simp [itemAt, List.getD, hi]

/-- The queries after `EnableAll`, at a declared name. -/
theorem queries_EnableAll (v : EnabledItemVector) (w : Bool) (name : String)
    (h : name ∈ v.declaredNames) :
    ∃ sup : Bool, v.IsSupported name = .ok sup ∧
      (v.EnableAll w).IsSupported name = .ok sup ∧
      (v.EnableAll w).IsEnabled name = .ok (w && sup) := by
  obtain ⟨i, it, hf, hi, hat, _, _⟩ := Find_of_declared v name h
  have hat2 := itemAt_of_getElem? _ i _ (getElem?_EnableAll v w i it hi)
  refine ⟨it.m_Supported, ?_, ?_, ?_⟩
  · simp [IsSupported, hf, hat]
  · simp [IsSupported, Find_EnableAll, hf, hat2]
  · simp [IsEnabled, Find_EnableAll, hf, hat2]

end EnabledItemVector

/-! ## The claims on the registry -/

open EnabledItemVector

/-- C1: for every registry and every declared name, `Enable(name, true)`
returns true if and only if `IsSupported(name)` was true immediately before
the call, and immediately after the call `IsEnabled(name)` equals the
returned value, whatever the enabled flag of the item was before. -/
theorem C1_enable_true_iff_supported (v : EnabledItemVector) (name : String)
    (h : name ∈ v.declaredNames) :
    ∃ ret sup : Bool,
      (v.Enable name true).1 = .ok ret ∧ v.IsSupported name = .ok sup ∧
      (ret = true ↔ sup = true) ∧
      (v.Enable name true).2.IsEnabled name = .ok ret := by
  obtain ⟨i, it, _, _, _, hS, _, hE, _, hA⟩ := Enable_of_declared v name true h
  refine ⟨it.m_Supported, it.m_Supported, ?_, hS, Iff.rfl, ?_⟩
  · rw [hE]; simp
  · simpa using hA

/-- C1 at the sample registry: `Enable("X", true)` returns true and leaves
`X` enabled, `X` being supported and disabled before. -/
theorem C1_enable_true_iff_supported_witness :
    (sampleRegistry.Enable "X" true).1 = .ok true ∧
      sampleRegistry.IsSupported "X" = .ok true ∧
      (sampleRegistry.Enable "X" true).2.IsEnabled "X" = .ok true := by
  obtain ⟨ret, sup, h1, h2, h3, h4⟩ :=
    C1_enable_true_iff_supported sampleRegistry "X" (by decide)
  have hs : sampleRegistry.IsSupported "X" = .ok true := by decide
  have hsup : sup = true := by
    rw [hs] at h2
    exact (Except.ok.inj h2).symm
  have hret : ret = true := h3.2 hsup
  subst hret
  exact ⟨h1, hs, h4⟩

/-- C6: for every registry and every declared name, `Enable(name, false)`
returns false and leaves `IsEnabled(name)` false, and `Enable(name, true)` on
an item that is not supported also returns false and leaves `IsEnabled(name)`
false (also when the item was enabled before); neither call raises a fatal
error. -/
theorem C6_enable_false_or_unsupported (v : EnabledItemVector) (name : String)
    (h : name ∈ v.declaredNames) :
    ((v.Enable name false).1 = .ok false ∧
      (v.Enable name false).2.IsEnabled name = .ok false) ∧
    (v.IsSupported name = .ok false →
      (v.Enable name true).1 = .ok false ∧
      (v.Enable name true).2.IsEnabled name = .ok false) := by
  refine ⟨?_, ?_⟩
  · obtain ⟨i, it, _, _, _, _, _, hE, _, hA⟩ := Enable_of_declared v name false h
    refine ⟨?_, ?_⟩
    · rw [hE]; simp
    · simpa using hA
  · intro hsup
    obtain ⟨i, it, _, _, _, hS, _, hE, _, hA⟩ := Enable_of_declared v name true h
    rw [hS] at hsup
    have hs : it.m_Supported = false := Except.ok.inj hsup
    refine ⟨?_, ?_⟩
    · rw [hE]; simp [hs]
    · simpa [hs] using hA

/-- C6 at a registry whose unsupported item `Y` has its enabled flag set:
`Enable("Y", true)` returns false and clears the flag, and
`Enable("X", false)` returns false and clears the flag of `X`. -/
theorem C6_enable_false_or_unsupported_witness :
    ((staleRegistry.Enable "X" false).1 = .ok false ∧
      (staleRegistry.Enable "X" false).2.IsEnabled "X" = .ok false) ∧
    (staleRegistry.IsEnabled "Y" = .ok true ∧
      (staleRegistry.Enable "Y" true).1 = .ok false ∧
      (staleRegistry.Enable "Y" true).2.IsEnabled "Y" = .ok false) :=
  ⟨(C6_enable_false_or_unsupported staleRegistry "X" (by decide)).1,
   by decide,
   (C6_enable_false_or_unsupported staleRegistry "Y" (by decide)).2 (by decide)⟩

/-- C7: for every registry and every boolean `w`, after `EnableAll(w)` every
item has `enabled = (w AND supported)` with its name and supported flag
unchanged; so for every declared name `x`, `IsSupported(x)` is what it was,
`IsEnabled(x) = IsSupported(x)` after `EnableAll(true)` and `IsEnabled(x)` is
false after `EnableAll(false)`. -/
theorem C7_enableAll (v : EnabledItemVector) (w : Bool) :
    (v.EnableAll w).m_Items.length = v.m_Items.length ∧
    (v.EnableAll w).m_EnabledItemNames = v.m_EnabledItemNames ∧
    (∀ (i : Nat) (it : EnabledItem), v.m_Items[i]? = some it →
      ∃ it' : EnabledItem, (v.EnableAll w).m_Items[i]? = some it' ∧ it'.m_Name = it.m_Name ∧
        it'.m_Supported = it.m_Supported ∧ it'.m_Enabled = (w && it.m_Supported)) ∧
    (∀ x, x ∈ v.declaredNames →
      (v.EnableAll w).IsSupported x = v.IsSupported x ∧
      (v.EnableAll true).IsEnabled x = (v.EnableAll true).IsSupported x ∧
      (v.EnableAll false).IsEnabled x = .ok false) := by
  refine ⟨by simp [EnableAll], rfl, ?_, ?_⟩
  · intro i it hi
    exact ⟨_, getElem?_EnableAll v w i it hi, rfl, rfl, rfl⟩
  · intro x hx
    obtain ⟨sup, h1, h2, _⟩ := queries_EnableAll v w x hx
    obtain ⟨sup', h1', h2', h3'⟩ := queries_EnableAll v true x hx
    obtain ⟨sup'', _, _, h3''⟩ := queries_EnableAll v false x hx
    refine ⟨by rw [h1, h2], ?_, ?_⟩
    · rw [h2', h3']; simp
    · rw [h3'']; simp

/-- C7 at the sample registry: after `EnableAll(true)` the supported item `X`
is enabled and the unsupported item `Y` is not. -/
theorem C7_enableAll_witness :
    (sampleRegistry.EnableAll true).IsEnabled "X" = .ok true ∧
    (sampleRegistry.EnableAll true).IsEnabled "Y" = .ok false ∧
    (sampleRegistry.EnableAll false).IsEnabled "Z" = .ok false := by
  have hX := (C7_enableAll sampleRegistry true).2.2.2 "X" (by decide)
  have hY := (C7_enableAll sampleRegistry true).2.2.2 "Y" (by decide)
  have hZ := (C7_enableAll sampleRegistry true).2.2.2 "Z" (by decide)
  refine ⟨?_, ?_, hZ.2.2⟩
  · rw [hX.2.1, hX.1]; decide
  · rw [hY.2.1, hY.1]; decide

/-- C10: for every registry and every name, `IsSupported(name)`,
`IsEnabled(name)` and `Enable(name, e)` fail with the unknown-item assertion
if and only if no declared item has exactly that name; a failing `Enable`
leaves the registry as it was (the queries are `const`); and for a declared
name they read, and `Enable` updates, the first item with that name, no
other item being touched. -/
theorem C10_unknown_item (v : EnabledItemVector) (name : String) :
    (v.IsSupported name = .error .queryUnknownItem ↔ name ∉ v.declaredNames) ∧
    (v.IsEnabled name = .error .queryUnknownItem ↔ name ∉ v.declaredNames) ∧
    (∀ e, (v.Enable name e).1 = .error .enableUnknownItem ↔ name ∉ v.declaredNames) ∧
    (∀ e, name ∉ v.declaredNames → (v.Enable name e).2 = v) ∧
    (name ∈ v.declaredNames →
      ∃ i it, v.m_Items[i]? = some it ∧ it.m_Name = name ∧
        (∀ j, j < i → ∀ jt, v.m_Items[j]? = some jt → jt.m_Name ≠ name) ∧
        v.IsSupported name = .ok it.m_Supported ∧
        v.IsEnabled name = .ok it.m_Enabled ∧
        ∀ e, v.Enable name e =
          (.ok (e && it.m_Supported),
            { v with
              m_Items := v.m_Items.set i { it with m_Enabled := e && it.m_Supported } })) := by
  have hnone : name ∉ v.declaredNames → v.Find name = none :=
    (Find_eq_none_iff v name).2
  have hsome : name ∈ v.declaredNames → ∃ i, v.Find name = some i := by
    intro h
    obtain ⟨i, _, hf, _⟩ := Find_of_declared v name h
    exact ⟨i, hf⟩
  refine ⟨?_, ?_, ?_, ?_, ?_⟩
  · constructor
    · intro h hd
      obtain ⟨i, hf⟩ := hsome hd
      simp [IsSupported, hf] at h
    · intro h
      simp [IsSupported, hnone h]
  · constructor
    · intro h hd
      obtain ⟨i, hf⟩ := hsome hd
      simp [IsEnabled, hf] at h
    · intro h
      simp [IsEnabled, hnone h]
  · intro e
    constructor
    · intro h hd
      obtain ⟨i, it, _, _, _, _, _, hE, _, _⟩ := Enable_of_declared v name e hd
      rw [hE] at h
      simp at h
    · intro h
      simp [Enable, hnone h]
  · intro e h
    simp [Enable, hnone h]
  · intro hd
    obtain ⟨i, it, hi, hname, hfirst, hS, hEn, _, _, _⟩ := Enable_of_declared v name true hd
    refine ⟨i, it, hi, hname, hfirst, hS, hEn, ?_⟩
    intro e
    obtain ⟨i', it', hi', _, hfirst', _, _, hE, _, _⟩ := Enable_of_declared v name e hd
    have hii : i' = i := by
      rcases Nat.lt_trichotomy i' i with hlt | heq | hgt
      · exact absurd (by assumption) (hfirst i' hlt it' hi')
      · exact heq
      · exact absurd hname (hfirst' i hgt it hi)
    subst hii
    have hit : it' = it := by
      rw [hi] at hi'
      exact (Option.some.inj hi').symm
    subst hit
    exact hE

/-- C10 at concrete registries: the undeclared name `W` fails all three
operations and leaves the registry as it was, and in a registry that
declares `X` twice the operations read and write the first `X` only. -/
theorem C10_unknown_item_witness :
    (sampleRegistry.IsSupported "W" = .error .queryUnknownItem ∧
      (sampleRegistry.Enable "W" true).1 = .error .enableUnknownItem ∧
      (sampleRegistry.Enable "W" true).2 = sampleRegistry) ∧
    (twiceRegistry.IsSupported "X" = .ok true ∧
      (twiceRegistry.Enable "X" true).2.m_Items =
        [ { m_Name := "X", m_Supported := true, m_Enabled := true },
          { m_Name := "X", m_Supported := false, m_Enabled := true } ]) := by
  have hW := C10_unknown_item sampleRegistry "W"
  refine ⟨⟨hW.1.2 (by decide), (hW.2.2.1 true).2 (by decide), hW.2.2.2.1 true (by decide)⟩,
    by decide, by decide⟩

/-- The loop of `PrepareEnabled` completes exactly when every enabled item
it meets is supported. -/
theorem prepareLoop_ok_iff (l : List EnabledItem) (names : List String) :
    (prepareLoop l names).1 = .ok () ↔
      ∀ it ∈ l, it.m_Enabled = true → it.m_Supported = true := by
  induction l generalizing names with
  | nil => simp [prepareLoop]
  | cons it rest ih =>
    cases he : it.m_Enabled <;> cases hs : it.m_Supported <;>
      simp [prepareLoop, he, hs, ih]

/-- When it completes, the loop of `PrepareEnabled` has pushed the names of
the enabled items, in order, after the names it started with. -/
theorem prepareLoop_names (l : List EnabledItem) (names : List String)
    (h : (prepareLoop l names).1 = .ok ()) :
    (prepareLoop l names).2 =
      names ++ (l.filter fun it => it.m_Enabled).map EnabledItem.m_Name := by
  induction l generalizing names with
  | nil => simp [prepareLoop]
  | cons it rest ih =>
    cases he : it.m_Enabled <;> cases hs : it.m_Supported <;>
      simp [prepareLoop, he, hs] at h ⊢
    · exact ih names h
    · exact ih names h
    · rw [ih _ h]; simp

/-- C4: for every registry whose declared names are pairwise distinct,
`PrepareEnabled` completes exactly when every enabled item is supported (its
internal assertion), and after it the snapshot `m_EnabledItemNames` is
exactly the subsequence of the declared names whose item has `enabled = true`,
in declaration order, whatever the snapshot held before; it contains no name
twice, a name is in it exactly when `IsEnabled` is true for it, and the items
are unchanged. -/
theorem C4_prepareEnabled_snapshot (v : EnabledItemVector) (hd : v.declaredNames.Nodup) :
    ((v.PrepareEnabled).1 = .ok () ↔
      ∀ it ∈ v.m_Items, it.m_Enabled = true → it.m_Supported = true) ∧
    ((v.PrepareEnabled).1 = .ok () →
      (v.PrepareEnabled).2.m_Items = v.m_Items ∧
      (v.PrepareEnabled).2.m_EnabledItemNames =
        (v.m_Items.filter fun it => it.m_Enabled).map EnabledItem.m_Name ∧
      List.Sublist (v.PrepareEnabled).2.m_EnabledItemNames v.declaredNames ∧
      (v.PrepareEnabled).2.m_EnabledItemNames.Nodup ∧
      ∀ n, n ∈ (v.PrepareEnabled).2.m_EnabledItemNames ↔ v.IsEnabled n = .ok true) := by
  refine ⟨prepareLoop_ok_iff v.m_Items [], ?_⟩
  intro hok
  have hnames : (v.PrepareEnabled).2.m_EnabledItemNames =
      (v.m_Items.filter fun it => it.m_Enabled).map EnabledItem.m_Name := by
    have := prepareLoop_names v.m_Items [] hok
    simpa [PrepareEnabled] using this
  have hsub : List.Sublist
      ((v.m_Items.filter fun it => it.m_Enabled).map EnabledItem.m_Name) v.declaredNames :=
    (List.filter_sublist v.m_Items).map EnabledItem.m_Name
  refine ⟨rfl, hnames, ?_, ?_, ?_⟩
  · rw [hnames]; exact hsub
  · rw [hnames]; exact hsub.nodup hd
  · intro n
    rw [hnames]
    constructor
    · intro hn
      obtain ⟨it, hit, hname⟩ := List.mem_map.1 hn
      obtain ⟨hmem, hen⟩ := List.mem_filter.1 hit
      have hdecl : n ∈ v.declaredNames := List.mem_map.2 ⟨it, hmem, hname⟩
      obtain ⟨i, it', hf, hi, hat, hname', _⟩ := Find_of_declared v n hdecl
      have heq : it' = it :=
        List.inj_on_of_nodup_map hd (List.getElem?_mem hi) hmem (hname'.trans hname.symm)
      subst heq
      simp [IsEnabled, hf, hat, hen]
    · intro hn
      by_cases hdecl : n ∈ v.declaredNames
      · obtain ⟨i, it, hf, hi, hat, hname, _⟩ := Find_of_declared v n hdecl
        simp only [IsEnabled, hf, hat] at hn
        have hen : it.m_Enabled = true := Except.ok.inj hn
        exact List.mem_map.2 ⟨it, List.mem_filter.2 ⟨List.getElem?_mem hi, hen⟩, hname⟩
      · have := (Find_eq_none_iff v n).2 hdecl
        simp [IsEnabled, this] at hn

/-- C4 at the sample registry, whose snapshot holds a stale name and whose
only enabled item is `Z`: `PrepareEnabled` completes and the snapshot becomes
the single name `Z`. -/
theorem C4_prepareEnabled_snapshot_witness :
    (sampleRegistry.PrepareEnabled).1 = .ok () ∧
      (sampleRegistry.PrepareEnabled).2.m_EnabledItemNames = ["Z"] := by
  have h := C4_prepareEnabled_snapshot sampleRegistry (by decide)
  have hok : (sampleRegistry.PrepareEnabled).1 = .ok () := h.1.2 (by decide)
  refine ⟨hok, ?_⟩
  rw [(h.2 hok).2.1]
  decide

/-! ## Discovery -/

theorem AllClear_declaredItems (names : List String) :
    EnabledItemVector.AllClear { m_Items := declaredItems names, m_EnabledItemNames := [] } := by
  intro it hit
  simp only [declaredItems, List.mem_map] at hit
  obtain ⟨n, _, rfl⟩ := hit
  exact ⟨rfl, rfl⟩

theorem AllClear_Reset (v : EnabledItemVector) : v.Reset.AllClear := by
  intro it hit
  simp only [EnabledItemVector.Reset, List.mem_map] at hit
  obtain ⟨x, _, rfl⟩ := hit
  exact ⟨rfl, rfl⟩

/-- A freshly constructed outer-scope session is `Fresh`. -/
theorem Instance_Fresh_new (d : Declarations) : (InstanceInitHelp.new d).Fresh :=
  ⟨rfl, rfl, rfl, AllClear_declaredItems _, AllClear_declaredItems _⟩

/-- An outer-scope session is `Fresh` after `Reset`. -/
theorem Instance_Fresh_Reset (s : InstanceInitHelp) : s.Reset.Fresh :=
  ⟨rfl, rfl, rfl, AllClear_Reset _, AllClear_Reset _⟩

/-- A freshly constructed device-scope session is `Fresh`. -/
theorem Device_Fresh_new (d : Declarations) : (DeviceInitHelp.new d).Fresh :=
  ⟨rfl, rfl, rfl, AllClear_declaredItems _⟩

/-- A device-scope session is `Fresh` after `Reset`. -/
theorem Device_Fresh_Reset (s : DeviceInitHelp) : s.Reset.Fresh :=
  ⟨rfl, rfl, rfl, AllClear_Reset _⟩

/-- The two nested loading loops as one pass over the items: an item whose
name is among the reported names becomes supported and enabled, the others
are left as they are. -/
theorem loadNames_eq_map (props : List String) (items : List EnabledItem) :
    loadNames props items =
      items.map fun it =>
        if it.m_Name ∈ props then { it with m_Supported := true, m_Enabled := true } else it := by
  induction props generalizing items with
  | nil => simp [loadNames]
  | cons p rest ih =>
    have hstep : loadNames (p :: rest) items = loadNames rest (markLoaded p items) := rfl
    rw [hstep, ih, markLoaded, List.map_map]
    apply List.map_congr_left
    intro it _
    by_cases hp : p = it.m_Name
    · subst hp
      by_cases hr : it.m_Name ∈ rest <;> simp [hr]
    · have hp' : ¬ it.m_Name = p := fun h => hp h.symm
      by_cases hr : it.m_Name ∈ rest <;> simp [hp, hp', hr]

/-- Loading the names `L` into a registry with no item supported or enabled. -/
theorem loadNames_of_allClear (L : List String) (v : EnabledItemVector) (hv : v.AllClear) :
    loadNames L v.m_Items = v.m_Items.map (loadedItem L) := by
  rw [loadNames_eq_map]
  apply List.map_congr_left
  intro it hit
  obtain ⟨h1, h2⟩ := hv it hit
  cases it with
  | mk n sup en =>
    simp only at h1 h2
    subst h1 h2
    by_cases hr : n ∈ L <;> simp [loadedItem, hr]

/-- Names that are not declared do not affect what is loaded. -/
theorem loadNames_filter_declared (L : List String) (items : List EnabledItem) :
    loadNames (L.filter fun n => decide (n ∈ items.map EnabledItem.m_Name)) items =
      loadNames L items := by
  rw [loadNames_eq_map, loadNames_eq_map]
  apply List.map_congr_left
  intro it hit
  have hd : it.m_Name ∈ items.map EnabledItem.m_Name := List.mem_map.2 ⟨it, hit, rfl⟩
  by_cases hr : it.m_Name ∈ L
  · have hf : it.m_Name ∈ L.filter fun n => decide (n ∈ items.map EnabledItem.m_Name) :=
      List.mem_filter.2 ⟨hr, decide_eq_true hd⟩
    rw [if_pos hf, if_pos hr]
  · have hf : it.m_Name ∉ L.filter fun n => decide (n ∈ items.map EnabledItem.m_Name) :=
      fun h => hr (List.mem_filter.1 h).1
    rw [if_neg hf, if_neg hr]

/-- The outer-scope `EnumerateExtensions` when the collaborator reports the
names `L` with success and extensions were not enumerated before. -/
theorem Instance_EnumerateExtensions_success (s : InstanceInitHelp) (L : List String)
    (h : s.m_ExtensionsEnumerated = false) :
    (s.EnumerateExtensions (.success L)).1 = .ok VK_SUCCESS ∧
    (s.EnumerateExtensions (.success L)).2.m_Extensions =
      { s.m_Extensions with m_Items := loadNames L s.m_Extensions.m_Items } ∧
    (s.EnumerateExtensions (.success L)).2.m_ExtensionsEnumerated = !L.isEmpty := by
  cases L with
  | nil =>
    simp [InstanceInitHelp.EnumerateExtensions, EnumerateReply.success, h, loadNames]
  | cons a t =>
    simp [InstanceInitHelp.EnumerateExtensions, EnumerateReply.success,
      InitHelpBase.LoadExtensions, h]

/-- The device-scope `EnumerateExtensions` when the collaborator reports the
names `L` with success and extensions were not enumerated before. -/
theorem Device_EnumerateExtensions_success (s : DeviceInitHelp)
    (physicalDevice : VkPhysicalDevice) (L : List String)
    (hdev : physicalDevice ≠ 0) (h : s.m_ExtensionsEnumerated = false) :
    (s.EnumerateExtensions physicalDevice (.success L)).1 = .ok VK_SUCCESS ∧
    (s.EnumerateExtensions physicalDevice (.success L)).2.m_Extensions =
      { s.m_Extensions with m_Items := loadNames L s.m_Extensions.m_Items } ∧
    (s.EnumerateExtensions physicalDevice (.success L)).2.m_ExtensionsEnumerated =
      !L.isEmpty := by
  cases L with
  | nil =>
    simp [DeviceInitHelp.EnumerateExtensions, EnumerateReply.success, h, hdev, loadNames]
  | cons a t =>
    simp [DeviceInitHelp.EnumerateExtensions, EnumerateReply.success,
      InitHelpBase.LoadExtensions, h, hdev]

/-- The member `EnumerateLayers` when the collaborator reports the names `L`
with success and layers were not enumerated before. -/
theorem Instance_EnumerateLayers_success (s : InstanceInitHelp) (L : List String)
    (h : s.m_LayersEnumerated = false) :
    (s.EnumerateLayers (.success L)).1 = .ok VK_SUCCESS ∧
    (s.EnumerateLayers (.success L)).2.m_Layers =
      { s.m_Layers with m_Items := loadNames L s.m_Layers.m_Items } ∧
    (s.EnumerateLayers (.success L)).2.m_LayersEnumerated = true := by
  cases L with
  | nil =>
    simp [InstanceInitHelp.EnumerateLayers, EnumerateReply.success, h, loadNames]
  | cons a t =>
    simp [InstanceInitHelp.EnumerateLayers, EnumerateReply.success,
      InstanceInitHelp.LoadLayers, h]

/-- A further `EnumerateLayers` fails at its entry assertion, whatever the
collaborator would report. -/
theorem Instance_EnumerateLayers_again (s : InstanceInitHelp) (vk : EnumerateReply)
    (h : s.m_LayersEnumerated = true) :
    s.EnumerateLayers vk = (.error .enumerateLayersOnlyOnce, s) := by
  simp [InstanceInitHelp.EnumerateLayers, h]

/-- A further outer-scope `EnumerateExtensions` to which the collaborator
reports the names `L` with success: the only-once assertion fires inside
`LoadExtensions`, which an empty report does not reach. -/
theorem Instance_EnumerateExtensions_again (s : InstanceInitHelp) (L : List String)
    (h : s.m_ExtensionsEnumerated = true) :
    s.EnumerateExtensions (.success L) =
      if L.isEmpty then (.ok VK_SUCCESS, s) else (.error .enumerateExtensionsOnlyOnce, s) := by
  cases L with
  | nil => simp [InstanceInitHelp.EnumerateExtensions, EnumerateReply.success]
  | cons a t =>
    simp [InstanceInitHelp.EnumerateExtensions, EnumerateReply.success,
      InitHelpBase.LoadExtensions, h]

/-- A further device-scope `EnumerateExtensions` to which the collaborator
reports the names `L` with success. -/
theorem Device_EnumerateExtensions_again (s : DeviceInitHelp)
    (physicalDevice : VkPhysicalDevice) (L : List String)
    (hdev : physicalDevice ≠ 0) (h : s.m_ExtensionsEnumerated = true) :
    s.EnumerateExtensions physicalDevice (.success L) =
      if L.isEmpty then (.ok VK_SUCCESS, s) else (.error .enumerateExtensionsOnlyOnce, s) := by
  cases L with
  | nil => simp [DeviceInitHelp.EnumerateExtensions, EnumerateReply.success, hdev]
  | cons a t =>
    simp [DeviceInitHelp.EnumerateExtensions, EnumerateReply.success,
      InitHelpBase.LoadExtensions, h, hdev]

/-- The queries on a registry whose items were loaded from the names `L`. -/
theorem queries_loaded (v : EnabledItemVector) (L names : List String) (x : String)
    (hx : x ∈ v.declaredNames) :
    IsSupported { m_Items := v.m_Items.map (loadedItem L), m_EnabledItemNames := names } x =
        .ok (decide (x ∈ L)) ∧
      IsEnabled { m_Items := v.m_Items.map (loadedItem L), m_EnabledItemNames := names } x =
        .ok (decide (x ∈ L)) := by
  have hx' : x ∈ declaredNames
      { m_Items := v.m_Items.map (loadedItem L), m_EnabledItemNames := names } := by
    simpa [declaredNames, List.map_map, Function.comp_def, loadedItem] using hx
  obtain ⟨i, it, hf, hi, hat, hname, _⟩ := Find_of_declared _ x hx'
  obtain ⟨it0, _, h0⟩ := List.mem_map.1 (List.getElem?_mem hi)
  subst h0
  have hn : it0.m_Name = x := hname
  constructor
  · simp [IsSupported, hf, hat, loadedItem, hn]
  · simp [IsEnabled, hf, hat, loadedItem, hn]

/-- C2: for every session that is `Fresh` (freshly constructed or reset),
after a discovery in which the collaborator reports the list `L` with
success, every declared item has `supported = enabled = (its name occurs in
L)`, for the extensions of both variants and for the layers; `IsSupported`
and `IsEnabled` answer accordingly for every declared name; and the names
of `L` that are not declared change nothing in the registry. -/
theorem C2_discovery_marks_reported (s : InstanceInitHelp) (t : DeviceInitHelp)
    (physicalDevice : VkPhysicalDevice) (L : List String)
    (hs : s.Fresh) (ht : t.Fresh) (hdev : physicalDevice ≠ 0) :
    ((s.EnumerateExtensions (.success L)).1 = .ok VK_SUCCESS ∧
      (s.EnumerateExtensions (.success L)).2.m_Extensions =
        { s.m_Extensions with m_Items := s.m_Extensions.m_Items.map (loadedItem L) } ∧
      (∀ x, x ∈ s.m_Extensions.declaredNames →
        (s.EnumerateExtensions (.success L)).2.m_Extensions.IsSupported x =
            .ok (decide (x ∈ L)) ∧
          (s.EnumerateExtensions (.success L)).2.m_Extensions.IsEnabled x =
            .ok (decide (x ∈ L))) ∧
      (s.EnumerateExtensions
          (.success (L.filter fun n => decide (n ∈ s.m_Extensions.declaredNames)))).2.m_Extensions =
        (s.EnumerateExtensions (.success L)).2.m_Extensions) ∧
    ((s.EnumerateLayers (.success L)).1 = .ok VK_SUCCESS ∧
      (s.EnumerateLayers (.success L)).2.m_Layers =
        { s.m_Layers with m_Items := s.m_Layers.m_Items.map (loadedItem L) } ∧
      (∀ x, x ∈ s.m_Layers.declaredNames →
        (s.EnumerateLayers (.success L)).2.m_Layers.IsSupported x = .ok (decide (x ∈ L)) ∧
          (s.EnumerateLayers (.success L)).2.m_Layers.IsEnabled x = .ok (decide (x ∈ L))) ∧
      (s.EnumerateLayers
          (.success (L.filter fun n => decide (n ∈ s.m_Layers.declaredNames)))).2.m_Layers =
        (s.EnumerateLayers (.success L)).2.m_Layers) ∧
    ((t.EnumerateExtensions physicalDevice (.success L)).1 = .ok VK_SUCCESS ∧
      (t.EnumerateExtensions physicalDevice (.success L)).2.m_Extensions =
        { t.m_Extensions with m_Items := t.m_Extensions.m_Items.map (loadedItem L) } ∧
      (∀ x, x ∈ t.m_Extensions.declaredNames →
        (t.EnumerateExtensions physicalDevice (.success L)).2.m_Extensions.IsSupported x =
            .ok (decide (x ∈ L)) ∧
          (t.EnumerateExtensions physicalDevice (.success L)).2.m_Extensions.IsEnabled x =
            .ok (decide (x ∈ L))) ∧
      (t.EnumerateExtensions physicalDevice
          (.success (L.filter fun n => decide (n ∈ t.m_Extensions.declaredNames)))).2.m_Extensions =
        (t.EnumerateExtensions physicalDevice (.success L)).2.m_Extensions) := by
  obtain ⟨hse, hsl, _, hsce, hscl⟩ := hs
  obtain ⟨hte, _, _, htce⟩ := ht
  refine ⟨?_, ?_, ?_⟩
  · obtain ⟨h1, h2, _⟩ := Instance_EnumerateExtensions_success s L hse
    obtain ⟨_, h2', _⟩ := Instance_EnumerateExtensions_success s
      (L.filter fun n => decide (n ∈ s.m_Extensions.declaredNames)) hse
    have h3 : (s.EnumerateExtensions (.success L)).2.m_Extensions =
        { s.m_Extensions with m_Items := s.m_Extensions.m_Items.map (loadedItem L) } := by
      rw [h2, loadNames_of_allClear L _ hsce]
    refine ⟨h1, h3, ?_, ?_⟩
    · intro x hx
      rw [h3]
      exact queries_loaded s.m_Extensions L _ x hx
    · rw [h2, h2']
      exact congrArg (fun l => ({ s.m_Extensions with m_Items := l } : EnabledItemVector))
        (loadNames_filter_declared L s.m_Extensions.m_Items)
  · obtain ⟨h1, h2, _⟩ := Instance_EnumerateLayers_success s L hsl
    obtain ⟨_, h2', _⟩ := Instance_EnumerateLayers_success s
      (L.filter fun n => decide (n ∈ s.m_Layers.declaredNames)) hsl
    have h3 : (s.EnumerateLayers (.success L)).2.m_Layers =
        { s.m_Layers with m_Items := s.m_Layers.m_Items.map (loadedItem L) } := by
      rw [h2, loadNames_of_allClear L _ hscl]
    refine ⟨h1, h3, ?_, ?_⟩
    · intro x hx
      rw [h3]
      exact queries_loaded s.m_Layers L _ x hx
    · rw [h2, h2']
      exact congrArg (fun l => ({ s.m_Layers with m_Items := l } : EnabledItemVector))
        (loadNames_filter_declared L s.m_Layers.m_Items)
  · obtain ⟨h1, h2, _⟩ := Device_EnumerateExtensions_success t physicalDevice L hdev hte
    obtain ⟨_, h2', _⟩ := Device_EnumerateExtensions_success t physicalDevice
      (L.filter fun n => decide (n ∈ t.m_Extensions.declaredNames)) hdev hte
    have h3 : (t.EnumerateExtensions physicalDevice (.success L)).2.m_Extensions =
        { t.m_Extensions with m_Items := t.m_Extensions.m_Items.map (loadedItem L) } := by
      rw [h2, loadNames_of_allClear L _ htce]
    refine ⟨h1, h3, ?_, ?_⟩
    · intro x hx
      rw [h3]
      exact queries_loaded t.m_Extensions L _ x hx
    · rw [h2, h2']
      exact congrArg (fun l => ({ t.m_Extensions with m_Items := l } : EnabledItemVector))
        (loadNames_filter_declared L t.m_Extensions.m_Items)

/-- C2 on the scenario of the specification: the names `X`, `Y`, `Z` are
declared and discovery reports `X`, the undeclared `W`, and `Z`, to a session
that was used and reset and to a freshly constructed device session; `X` and
`Z` end supported and enabled, `Y` neither. -/
theorem C2_discovery_marks_reported_witness :
    ((((InstanceInitHelp.new sampleDeclarations).EnumerateExtensions
          (.success ["Y"])).2.Reset.EnumerateExtensions
        (.success ["X", "W", "Z"])).2.m_Extensions.m_Items =
      [ { m_Name := "X", m_Supported := true, m_Enabled := true },
        { m_Name := "Y", m_Supported := false, m_Enabled := false },
        { m_Name := "Z", m_Supported := true, m_Enabled := true } ]) ∧
    (((DeviceInitHelp.new sampleDeclarations).EnumerateExtensions 1
        (.success ["X", "W", "Z"])).2.m_Extensions.IsSupported "Y" = .ok false) := by
  have h := C2_discovery_marks_reported
    ((InstanceInitHelp.new sampleDeclarations).EnumerateExtensions (.success ["Y"])).2.Reset
    (DeviceInitHelp.new sampleDeclarations) 1 ["X", "W", "Z"]
    (Instance_Fresh_Reset _) (Device_Fresh_new _) (by decide)
  refine ⟨?_, ?_⟩
  · rw [h.1.2.1]; decide
  · exact (h.2.2.2.2.1 "Y" (by decide)).1

/-- C3: evaluated where the claim fails. When the collaborator reports
success and no extension at all, `EnumerateExtensions` of either variant
returns `VK_SUCCESS` and leaves `m_ExtensionsEnumerated` false, so
`IsExtensionSupported`, `IsExtensionEnabled`, `EnableExtension` and
`PrepareEnabledExtensionNames` still fail with "You should call
EnumerateExtensions first"; `EnumerateLayers` on the same reply does set
its flag. -/
theorem C3_empty_discovery_leaves_flag_clear :
    (((InstanceInitHelp.new sampleDeclarations).EnumerateExtensions (.success [])).1 =
        .ok VK_SUCCESS ∧
      ((InstanceInitHelp.new sampleDeclarations).EnumerateExtensions
        (.success [])).2.m_ExtensionsEnumerated = false ∧
      ((InstanceInitHelp.new sampleDeclarations).EnumerateExtensions
        (.success [])).2.IsExtensionSupported "X" = .error .enumerateExtensionsFirst ∧
      ((InstanceInitHelp.new sampleDeclarations).EnumerateExtensions
        (.success [])).2.IsExtensionEnabled "X" = .error .enumerateExtensionsFirst ∧
      (((InstanceInitHelp.new sampleDeclarations).EnumerateExtensions
        (.success [])).2.EnableExtension "X" true).1 = .error .enumerateExtensionsFirst ∧
      (((InstanceInitHelp.new sampleDeclarations).EnumerateExtensions
        (.success [])).2.PrepareEnabledExtensionNames).1 = .error .enumerateExtensionsFirst) ∧
    (((DeviceInitHelp.new sampleDeclarations).EnumerateExtensions 1 (.success [])).1 =
        .ok VK_SUCCESS ∧
      ((DeviceInitHelp.new sampleDeclarations).EnumerateExtensions 1
        (.success [])).2.m_ExtensionsEnumerated = false ∧
      ((DeviceInitHelp.new sampleDeclarations).EnumerateExtensions 1
        (.success [])).2.IsExtensionSupported "X" = .error .enumerateExtensionsFirst) ∧
    (((InstanceInitHelp.new sampleDeclarations).EnumerateLayers (.success [])).1 =
        .ok VK_SUCCESS ∧
      ((InstanceInitHelp.new sampleDeclarations).EnumerateLayers
        (.success [])).2.m_LayersEnumerated = true) := by
  decide

/-- C8: evaluated where the claim fails. After `EnumerateExtensions` has
completed with success on the list `X`, a second call to which the
collaborator reports no extension returns `VK_SUCCESS` without any assertion
firing; and when the first call reported no extension, a second call
reporting `X` also returns `VK_SUCCESS`. The same holds in the device
variant. A second `EnumerateLayers` fails with "You should call
EnumerateLayers only once" in both situations. -/
theorem C8_second_enumeration_not_fatal :
    ((((InstanceInitHelp.new sampleDeclarations).EnumerateExtensions
          (.success ["X"])).1 = .ok VK_SUCCESS ∧
        (((InstanceInitHelp.new sampleDeclarations).EnumerateExtensions
          (.success ["X"])).2.EnumerateExtensions (.success [])).1 = .ok VK_SUCCESS) ∧
      (((InstanceInitHelp.new sampleDeclarations).EnumerateExtensions
          (.success [])).1 = .ok VK_SUCCESS ∧
        (((InstanceInitHelp.new sampleDeclarations).EnumerateExtensions
          (.success [])).2.EnumerateExtensions (.success ["X"])).1 = .ok VK_SUCCESS)) ∧
    ((((DeviceInitHelp.new sampleDeclarations).EnumerateExtensions 1
          (.success ["X"])).2.EnumerateExtensions 1 (.success [])).1 = .ok VK_SUCCESS ∧
      (((DeviceInitHelp.new sampleDeclarations).EnumerateExtensions 1
          (.success [])).2.EnumerateExtensions 1 (.success ["X"])).1 = .ok VK_SUCCESS) ∧
    ((((InstanceInitHelp.new sampleDeclarations).EnumerateLayers
          (.success ["L1"])).2.EnumerateLayers (.success [])).1 =
        .error .enumerateLayersOnlyOnce ∧
      (((InstanceInitHelp.new sampleDeclarations).EnumerateLayers
          (.success [])).2.EnumerateLayers (.success ["L1"])).1 =
        .error .enumerateLayersOnlyOnce) := by
  decide

/-- C9: for every session state, when the collaborator is asked and reports
a status other than `VK_SUCCESS`, on the count query or on the data query,
the discovery operation returns exactly that status and the session is
exactly as before. The collaborator is asked when the entry assertions of
the operation hold: `EnumerateLayers` was not completed before, and the
device handle is not null. -/
theorem C9_discovery_failure_propagates (s : InstanceInitHelp) (t : DeviceInitHelp)
    (physicalDevice : VkPhysicalDevice) (vk : EnumerateReply) :
    (vk.countResult ≠ VK_SUCCESS →
      s.EnumerateExtensions vk = (.ok vk.countResult, s) ∧
      (s.m_LayersEnumerated = false → s.EnumerateLayers vk = (.ok vk.countResult, s)) ∧
      (physicalDevice ≠ 0 →
        t.EnumerateExtensions physicalDevice vk = (.ok vk.countResult, t))) ∧
    (vk.countResult = VK_SUCCESS → vk.count ≠ 0 → vk.dataResult ≠ VK_SUCCESS →
      s.EnumerateExtensions vk = (.ok vk.dataResult, s) ∧
      (s.m_LayersEnumerated = false → s.EnumerateLayers vk = (.ok vk.dataResult, s)) ∧
      (physicalDevice ≠ 0 →
        t.EnumerateExtensions physicalDevice vk = (.ok vk.dataResult, t))) := by
  refine ⟨?_, ?_⟩
  · intro hc
    refine ⟨?_, ?_, ?_⟩
    · simp [InstanceInitHelp.EnumerateExtensions, hc]
    · intro hl
      simp [InstanceInitHelp.EnumerateLayers, hc, hl]
    · intro hdev
      simp [DeviceInitHelp.EnumerateExtensions, hc, hdev]
  · intro hc hn hd
    refine ⟨?_, ?_, ?_⟩
    · simp [InstanceInitHelp.EnumerateExtensions, hc, hn, hd]
    · intro hl
      simp [InstanceInitHelp.EnumerateLayers, hc, hn, hd, hl]
    · intro hdev
      simp [DeviceInitHelp.EnumerateExtensions, hc, hn, hd, hdev]

/-- C9 at a freshly constructed session of each variant: a failing count
query and a failing data query are both returned as they are, and the
extensions stay not enumerated. -/
theorem C9_discovery_failure_propagates_witness :
    ((InstanceInitHelp.new sampleDeclarations).EnumerateExtensions countFailure).1 = .ok (-1) ∧
    ((InstanceInitHelp.new sampleDeclarations).EnumerateLayers dataFailure).1 = .ok 5 ∧
    ((DeviceInitHelp.new sampleDeclarations).EnumerateExtensions 1 dataFailure).1 = .ok 5 ∧
    ((DeviceInitHelp.new sampleDeclarations).EnumerateExtensions 1
      dataFailure).2.m_ExtensionsEnumerated = false := by
  have h1 := (C9_discovery_failure_propagates (InstanceInitHelp.new sampleDeclarations)
    (DeviceInitHelp.new sampleDeclarations) 1 countFailure).1 (by decide)
  have h2 := (C9_discovery_failure_propagates (InstanceInitHelp.new sampleDeclarations)
    (DeviceInitHelp.new sampleDeclarations) 1 dataFailure).2 (by decide) (by decide) (by decide)
  refine ⟨?_, ?_, ?_, ?_⟩
  · rw [h1.1]; rfl
  · rw [h2.2.1 rfl]; rfl
  · rw [h2.2.2 (by decide)]; rfl
  · rw [h2.2.2 (by decide)]; rfl

/-! ## The feature chain -/

theorem traverse_of_isChain (mem : StructMemory) (head : Option Nat) (l : List Nat)
    (fuel : Nat) (h : IsChain mem head l) (hfuel : l.length ≤ fuel) :
    traverse mem fuel head = some l := by
  induction l generalizing head fuel with
  | nil =>
    have : head = none := h
    subst this
    cases fuel <;> rfl
  | cons p rest ih =>
    obtain ⟨hh, hrest⟩ := h
    subst hh
    cases fuel with
    | zero => simp at hfuel
    | succ n =>
      have := ih (mem p).pNext n hrest (by simpa using hfuel)
      simp [traverse, this]

theorem isChain_setNext (mem : StructMemory) (head : Option Nat) (l : List Nat)
    (p : Nat) (x : Option Nat) (hp : p ∉ l) (h : IsChain mem head l) :
    IsChain (setNext mem p x) head l := by
  induction l generalizing head with
  | nil => exact h
  | cons q rest ih =>
    obtain ⟨hh, hrest⟩ := h
    have hq : q ≠ p := fun e => hp (by simp [e])
    have hr : p ∉ rest := fun e => hp (by simp [e])
    refine ⟨hh, ?_⟩
    have : (setNext mem p x q).pNext = (mem q).pNext := by simp [setNext, hq]
    rw [this]
    exact ih _ hr hrest

/-- The loop invariant of the chain-building loop: started on a chain `acc`
none of whose blocks belongs to a remaining record, with the remaining
records at pairwise distinct blocks and every enabled one carrying its tag,
the loop completes and leaves the chain of the enabled records, last
declared first, in front of `acc`. -/
theorem linkLoop_chain (fs : List FeatureStruct) (mem : StructMemory) (head : Option Nat)
    (acc : List Nat)
    (hnodup : (fs.map FeatureStruct.m_StructPtr).Nodup)
    (hdisj : ∀ f ∈ fs, f.m_StructPtr ∉ acc)
    (htag : ∀ f ∈ fs, f.m_Enabled = true → (mem f.m_StructPtr).sType = f.m_sType)
    (hchain : IsChain mem head acc) :
    (linkLoop fs mem head).1 = .ok () ∧
      IsChain (linkLoop fs mem head).2.1 (linkLoop fs mem head).2.2
        ((enabledPtrs fs).reverse ++ acc) := by
  induction fs generalizing mem head acc with
  | nil => exact ⟨rfl, by simpa [linkLoop, enabledPtrs] using hchain⟩
  | cons f rest ih =>
    have hnodup' : (rest.map FeatureStruct.m_StructPtr).Nodup := by
      simp only [List.map_cons, List.nodup_cons] at hnodup
      exact hnodup.2
    have hfresh : ∀ g ∈ rest, g.m_StructPtr ≠ f.m_StructPtr := by
      intro g hg e
      simp only [List.map_cons, List.nodup_cons] at hnodup
      exact hnodup.1 (List.mem_map.2 ⟨g, hg, e⟩)
    cases he : f.m_Enabled with
    | false =>
      have := ih mem head acc hnodup'
        (fun g hg => hdisj g (List.mem_cons_of_mem _ hg))
        (fun g hg => htag g (List.mem_cons_of_mem _ hg)) hchain
      simpa [linkLoop, he, enabledPtrs] using this
    | true =>
      have ht : (mem f.m_StructPtr).sType = f.m_sType :=
        htag f (List.mem_cons_self _ _) he
      have hc1 : IsChain (setNext mem f.m_StructPtr head) (some f.m_StructPtr)
          (f.m_StructPtr :: acc) := by
        refine ⟨rfl, ?_⟩
        have : (setNext mem f.m_StructPtr head f.m_StructPtr).pNext = head := by
          simp [setNext]
        rw [this]
        exact isChain_setNext mem head acc _ _ (hdisj f (List.mem_cons_self _ _)) hchain
      have := ih (setNext mem f.m_StructPtr head) (some f.m_StructPtr) (f.m_StructPtr :: acc)
        hnodup'
        (fun g hg hmem => by
          rcases List.mem_cons.1 hmem with e | e
          · exact hfresh g hg e
          · exact hdisj g (List.mem_cons_of_mem _ hg) e)
        (fun g hg hge => by
          have := htag g (List.mem_cons_of_mem _ hg) hge
          simpa [setNext, hfresh g hg] using this)
        hc1
      simpa [linkLoop, he, ht, enabledPtrs] using this

/-- The loop of the outer-scope `PrepareCreation` is the shared loop on
`structs` and `m_FeaturesChain`. -/
theorem Instance_chainLoop_eq (fs : List FeatureStruct) (s : InstanceInitHelp) :
    InstanceInitHelp.chainLoop fs s =
      ((linkLoop fs s.structs s.m_FeaturesChain).1,
        { s with
          structs := (linkLoop fs s.structs s.m_FeaturesChain).2.1
          m_FeaturesChain := (linkLoop fs s.structs s.m_FeaturesChain).2.2 }) := by
  induction fs generalizing s with
  | nil => rfl
  | cons f rest ih =>
    by_cases he : f.m_Enabled = true
    · by_cases ht : (s.structs f.m_StructPtr).sType = f.m_sType
      · simp [InstanceInitHelp.chainLoop, linkLoop, he, ht, ih]
      · simp [InstanceInitHelp.chainLoop, linkLoop, he, ht]
    · simp [InstanceInitHelp.chainLoop, linkLoop, he, ih]

/-- The loop of the device-scope `PrepareCreation` is the shared loop on
`structs` and `m_Features2.pNext`. -/
theorem Device_chainLoop_eq (fs : List FeatureStruct) (s : DeviceInitHelp) :
    DeviceInitHelp.chainLoop fs s =
      ((linkLoop fs s.structs s.m_Features2.pNext).1,
        { s with
          structs := (linkLoop fs s.structs s.m_Features2.pNext).2.1
          m_Features2 :=
            { s.m_Features2 with pNext := (linkLoop fs s.structs s.m_Features2.pNext).2.2 } }) := by
  induction fs generalizing s with
  | nil => rfl
  | cons f rest ih =>
    by_cases he : f.m_Enabled = true
    · by_cases ht : (s.structs f.m_StructPtr).sType = f.m_sType
      · simp [DeviceInitHelp.chainLoop, linkLoop, he, ht, ih]
      · simp [DeviceInitHelp.chainLoop, linkLoop, he, ht]
    · simp [DeviceInitHelp.chainLoop, linkLoop, he, ih]

/-- The member `PrepareEnabled` on a registry with no unsupported item
enabled. -/
theorem PrepareEnabled_ok (v : EnabledItemVector)
    (h : ∀ it ∈ v.m_Items, it.m_Enabled = true → it.m_Supported = true) :
    v.PrepareEnabled = (.ok (), { v with m_EnabledItemNames := enabledNames v }) := by
  have h1 := (prepareLoop_ok_iff v.m_Items []).2 h
  have h2 := prepareLoop_names v.m_Items [] h1
  show ((prepareLoop v.m_Items []).1, _) = _
  rw [h1, h2]
  simp [enabledNames]

/-- The outer-scope `PrepareCreation` when it may run and every enabled
record carries its tag. -/
theorem Instance_PrepareCreation_ok (s : InstanceInitHelp) (hr : s.Ready)
    (hlink : (linkLoop s.m_FeatureStructs s.structs none).1 = .ok ()) :
    s.PrepareCreation =
      (.ok (),
        { s with
          m_CreationPrepared := true
          m_Extensions := { s.m_Extensions with m_EnabledItemNames := enabledNames s.m_Extensions }
          m_Layers := { s.m_Layers with m_EnabledItemNames := enabledNames s.m_Layers }
          structs := (linkLoop s.m_FeatureStructs s.structs none).2.1
          m_FeaturesChain := (linkLoop s.m_FeatureStructs s.structs none).2.2 }) := by
  obtain ⟨hl, he, hie, hil⟩ := hr
  simp only [InstanceInitHelp.PrepareCreation, hl, if_true,
    InitHelpBase.PrepareEnabledExtensionNames, he, PrepareEnabled_ok _ hie,
    PrepareEnabled_ok _ hil, Instance_chainLoop_eq, hlink]

/-- The device-scope `PrepareCreation` when it may run and every enabled
record carries its tag. -/
theorem Device_PrepareCreation_ok (s : DeviceInitHelp) (hr : s.Ready)
    (hlink : (linkLoop s.m_FeatureStructs s.structs none).1 = .ok ()) :
    s.PrepareCreation =
      (.ok (),
        { s with
          m_CreationPrepared := true
          m_Extensions := { s.m_Extensions with m_EnabledItemNames := enabledNames s.m_Extensions }
          structs := (linkLoop s.m_FeatureStructs s.structs none).2.1
          m_Features2 :=
            { s.m_Features2 with pNext := (linkLoop s.m_FeatureStructs s.structs none).2.2 } }) := by
  obtain ⟨he, hq, hf, hie⟩ := hr
  simp only [DeviceInitHelp.PrepareCreation, he, hq, if_true,
    InitHelpBase.PrepareEnabledExtensionNames, PrepareEnabled_ok _ hie,
    Device_chainLoop_eq, hlink, hf, ne_eq, not_true_eq_false, if_false]

/-- The blocks of the enabled records, when all blocks are pairwise
distinct: none twice, and none of a disabled record. -/
theorem enabledPtrs_distinct (fs : List FeatureStruct)
    (hnodup : (fs.map FeatureStruct.m_StructPtr).Nodup) :
    (enabledPtrs fs).reverse.Nodup ∧
      ∀ f ∈ fs, f.m_Enabled = false → f.m_StructPtr ∉ (enabledPtrs fs).reverse := by
  refine ⟨?_, ?_⟩
  · rw [List.nodup_reverse]
    exact ((List.filter_sublist fs).map FeatureStruct.m_StructPtr).nodup hnodup
  · intro f hf hdis hmem
    rw [List.mem_reverse] at hmem
    obtain ⟨g, hg, hgp⟩ := List.mem_map.1 hmem
    obtain ⟨hgmem, hgen⟩ := List.mem_filter.1 hg
    have : g = f := List.inj_on_of_nodup_map hnodup hgmem hf hgp
    subst this
    simp [hdis] at hgen

/-- C5: for every list of feature records with pairwise distinct storage
blocks in which every enabled record carries its declared tag, and whatever
the next-links of the blocks held before, `PrepareCreation` of either variant
(run on a session that may run it) completes, and the chain it builds,
followed from its head through the next-links until null, visits exactly the
blocks of the enabled records, each once, in the reverse of declaration
order; the block of a disabled record is not among them. -/
theorem C5_chain_is_reverse_of_enabled (s : InstanceInitHelp) (t : DeviceInitHelp)
    (hs : s.Ready) (ht : t.Ready)
    (hsptr : (s.m_FeatureStructs.map FeatureStruct.m_StructPtr).Nodup)
    (htptr : (t.m_FeatureStructs.map FeatureStruct.m_StructPtr).Nodup)
    (hstag : ∀ f ∈ s.m_FeatureStructs, f.m_Enabled = true →
      (s.structs f.m_StructPtr).sType = f.m_sType)
    (httag : ∀ f ∈ t.m_FeatureStructs, f.m_Enabled = true →
      (t.structs f.m_StructPtr).sType = f.m_sType) :
    ((s.PrepareCreation).1 = .ok () ∧
      (∀ fuel, s.m_FeatureStructs.length ≤ fuel →
        traverse (s.PrepareCreation).2.structs fuel (s.PrepareCreation).2.m_FeaturesChain =
          some (enabledPtrs s.m_FeatureStructs).reverse) ∧
      (enabledPtrs s.m_FeatureStructs).reverse.Nodup ∧
      (∀ f ∈ s.m_FeatureStructs, f.m_Enabled = false →
        f.m_StructPtr ∉ (enabledPtrs s.m_FeatureStructs).reverse)) ∧
    ((t.PrepareCreation).1 = .ok () ∧
      (∀ fuel, t.m_FeatureStructs.length ≤ fuel →
        traverse (t.PrepareCreation).2.structs fuel (t.PrepareCreation).2.m_Features2.pNext =
          some (enabledPtrs t.m_FeatureStructs).reverse) ∧
      (enabledPtrs t.m_FeatureStructs).reverse.Nodup ∧
      (∀ f ∈ t.m_FeatureStructs, f.m_Enabled = false →
        f.m_StructPtr ∉ (enabledPtrs t.m_FeatureStructs).reverse)) := by
  have hlen : ∀ fs : List FeatureStruct, (enabledPtrs fs).reverse.length ≤ fs.length := by
    intro fs
    simp only [enabledPtrs, List.length_reverse, List.length_map]
    exact List.length_filter_le _ _
  refine ⟨?_, ?_⟩
  · obtain ⟨hok, hchain⟩ := linkLoop_chain s.m_FeatureStructs s.structs none [] hsptr
      (fun _ _ => List.not_mem_nil _) hstag rfl
    rw [List.append_nil] at hchain
    have hE := Instance_PrepareCreation_ok s hs hok
    refine ⟨by rw [hE], ?_, (enabledPtrs_distinct _ hsptr).1, (enabledPtrs_distinct _ hsptr).2⟩
    intro fuel hfuel
    rw [hE]
    exact traverse_of_isChain _ _ _ fuel hchain (Nat.le_trans (hlen _) hfuel)
  · obtain ⟨hok, hchain⟩ := linkLoop_chain t.m_FeatureStructs t.structs none [] htptr
      (fun _ _ => List.not_mem_nil _) httag rfl
    rw [List.append_nil] at hchain
    have hE := Device_PrepareCreation_ok t ht hok
    refine ⟨by rw [hE], ?_, (enabledPtrs_distinct _ htptr).1, (enabledPtrs_distinct _ htptr).2⟩
    intro fuel hfuel
    rw [hE]
    exact traverse_of_isChain _ _ _ fuel hchain (Nat.le_trans (hlen _) hfuel)

/-- C5 on two sessions: the outer-scope session with the default-enabled
records `R1`, `R2` gets head `R2`, whose next is `R1`, whose next is null
(the links held the address `7` before); the device-scope session with
`A`, `C` enabled and `B` disabled gets the traversal `C`, `A`. -/
theorem C5_chain_is_reverse_of_enabled_witness :
    ((sampleInstance.PrepareCreation).1 = .ok () ∧
      traverse (sampleInstance.PrepareCreation).2.structs 2
        (sampleInstance.PrepareCreation).2.m_FeaturesChain = some [1, 0] ∧
      (sampleInstance.PrepareCreation).2.m_FeaturesChain = some 1 ∧
      ((sampleInstance.PrepareCreation).2.structs 1).pNext = some 0 ∧
      ((sampleInstance.PrepareCreation).2.structs 0).pNext = none) ∧
    ((sampleDevice.PrepareCreation).1 = .ok () ∧
      traverse (sampleDevice.PrepareCreation).2.structs 3
        (sampleDevice.PrepareCreation).2.m_Features2.pNext = some [2, 0]) := by
  have h := C5_chain_is_reverse_of_enabled sampleInstance sampleDevice
    ⟨rfl, rfl, by decide, by decide⟩ ⟨rfl, rfl, rfl, by decide⟩
    (by decide) (by decide) (by decide) (by decide)
  refine ⟨⟨h.1.1, ?_, by decide, by decide, by decide⟩, h.2.1, ?_⟩
  · rw [h.1.2.1 2 (by decide)]; decide
  · rw [h.2.2.1 3 (by decide)]; decide

/-! ## Frame and invariant of the registry -/

/-- What `Enable` leaves at each position: the item `Find` returned gets
`enabled = (e AND supported)`, every other item is as it was. -/
theorem Enable_getElem? (v : EnabledItemVector) (name : String) (e : Bool) (i : Nat)
    (it : EnabledItem) (hi : v.m_Items[i]? = some it) :
    (v.Enable name e).2.m_Items[i]? =
      some (if v.Find name = some i then { it with m_Enabled := e && it.m_Supported } else it) := by
  have hlt : i < v.m_Items.length := by
    rcases Nat.lt_or_ge i v.m_Items.length with h | h
    · exact h
    · simp [List.getElem?_eq_none h] at hi
  cases hf : v.Find name with
  | none => simp [Enable, hf, hi]
  | some k =>
    by_cases hk : k = i
    · subst hk
      have hat := itemAt_of_getElem? v k it hi
      cases e <;> cases hs : it.m_Supported <;>
        simp [Enable, hf, hat, hs, setEnabledAt, hlt]
    · have hki : ¬ (some k = some i) := fun h => hk (Option.some.inj h)
      cases e <;> cases hs : (v.itemAt k).m_Supported <;>
        simp [Enable, hf, hs, setEnabledAt, List.getElem?_set_ne hk, hi, hk]

theorem Enable_length (v : EnabledItemVector) (name : String) (e : Bool) :
    (v.Enable name e).2.m_Items.length = v.m_Items.length := by
  cases hf : v.Find name with
  | none => simp [Enable, hf]
  | some k =>
    cases e <;> cases hs : (v.itemAt k).m_Supported <;> simp [Enable, hf, hs, setEnabledAt]

theorem Enable_snapshot (v : EnabledItemVector) (name : String) (e : Bool) :
    (v.Enable name e).2.m_EnabledItemNames = v.m_EnabledItemNames := by
  cases hf : v.Find name with
  | none => simp [Enable, hf]
  | some k =>
    cases e <;> cases hs : (v.itemAt k).m_Supported <;> simp [Enable, hf, hs, setEnabledAt]

/-- A projection of the items that does not look at the enabled flag is
the same before and after `Enable`. -/
theorem Enable_map {β : Type} (f : EnabledItem → β)
    (hf : ∀ (it : EnabledItem) (b : Bool), f { it with m_Enabled := b } = f it)
    (v : EnabledItemVector) (name : String) (e : Bool) :
    (v.Enable name e).2.m_Items.map f = v.m_Items.map f := by
  apply List.ext_getElem?
  intro i
  rw [List.getElem?_map, List.getElem?_map]
  cases hi : v.m_Items[i]? with
  | none =>
    have hlen : v.m_Items.length ≤ i := by
      rcases Nat.lt_or_ge i v.m_Items.length with h | h
      · simp [List.getElem?_eq_getElem h] at hi
      · exact h
    have : (v.Enable name e).2.m_Items[i]? = none :=
      List.getElem?_eq_none (by rw [Enable_length]; exact hlen)
    rw [this]
  | some it =>
    rw [Enable_getElem? v name e i it hi]
    by_cases hc : v.Find name = some i <;> simp [hc, hf]

theorem Enable_declaredNames (v : EnabledItemVector) (name : String) (e : Bool) :
    (v.Enable name e).2.declaredNames = v.declaredNames :=
  Enable_map EnabledItem.m_Name (fun _ _ => rfl) v name e

theorem Enable_supported (v : EnabledItemVector) (name : String) (e : Bool) :
    (v.Enable name e).2.m_Items.map EnabledItem.m_Supported =
      v.m_Items.map EnabledItem.m_Supported :=
  Enable_map EnabledItem.m_Supported (fun _ _ => rfl) v name e

theorem EnabledImpliesSupported_declared (names : List String) :
    EnabledImpliesSupported { m_Items := declaredItems names, m_EnabledItemNames := [] } := by
  intro it hit hen
  have := (AllClear_declaredItems names it hit).2
  rw [this] at hen
  exact absurd hen (by decide)

theorem EnabledImpliesSupported_Reset (v : EnabledItemVector) :
    v.Reset.EnabledImpliesSupported := by
  intro it hit hen
  have := (AllClear_Reset v it hit).2
  rw [this] at hen
  exact absurd hen (by decide)

theorem EnabledImpliesSupported_Enable (v : EnabledItemVector) (name : String) (e : Bool)
    (h : v.EnabledImpliesSupported) : (v.Enable name e).2.EnabledImpliesSupported := by
  intro it' hit' hen
  obtain ⟨i, hi'⟩ := List.mem_iff_getElem?.1 hit'
  have hlt : i < v.m_Items.length := by
    rcases Nat.lt_or_ge i v.m_Items.length with hh | hh
    · exact hh
    · have : (v.Enable name e).2.m_Items[i]? = none :=
        List.getElem?_eq_none (by rw [Enable_length]; exact hh)
      rw [this] at hi'
      exact absurd hi' (by simp)
  have hi : v.m_Items[i]? = some v.m_Items[i] := List.getElem?_eq_getElem hlt
  have hget := Enable_getElem? v name e i _ hi
  rw [hi'] at hget
  have heq := Option.some.inj hget
  by_cases hc : v.Find name = some i
  · rw [if_pos hc] at heq
    subst heq
    simp only [Bool.and_eq_true] at hen
    exact hen.2
  · rw [if_neg hc] at heq
    subst heq
    exact h _ (List.getElem?_mem hi) hen

theorem EnabledImpliesSupported_EnableAll (v : EnabledItemVector) (w : Bool) :
    (v.EnableAll w).EnabledImpliesSupported := by
  intro it hit hen
  simp only [EnableAll, List.mem_map] at hit
  obtain ⟨x, _, rfl⟩ := hit
  simp only [Bool.and_eq_true] at hen
  exact hen.2

theorem EnabledImpliesSupported_loadNames (v : EnabledItemVector) (props : List String)
    (h : v.EnabledImpliesSupported) :
    EnabledImpliesSupported { v with m_Items := loadNames props v.m_Items } := by
  intro it hit hen
  simp only [loadNames_eq_map, List.mem_map] at hit
  obtain ⟨x, hx, rfl⟩ := hit
  by_cases hc : x.m_Name ∈ props
  · simp [hc]
  · simp only [hc, if_false] at hen ⊢
    exact h x hx hen

theorem EnabledImpliesSupported_call (v : EnabledItemVector) (c : RegistryCall)
    (h : v.EnabledImpliesSupported) : (v.call c).2.EnabledImpliesSupported := by
  cases c with
  | Reset => exact EnabledImpliesSupported_Reset v
  | Enable name enabled => exact EnabledImpliesSupported_Enable v name enabled h
  | EnableAll enabled => exact EnabledImpliesSupported_EnableAll v enabled
  | PrepareEnabled => exact h
  | Load props => exact EnabledImpliesSupported_loadNames v props h

/-- A call on a registry that satisfies the invariant never fails the
assertion inside `PrepareEnabled`. -/
theorem call_ne_enabledItemNotSupported (v : EnabledItemVector) (c : RegistryCall)
    (h : v.EnabledImpliesSupported) : (v.call c).1 ≠ .error .enabledItemNotSupported := by
  cases c with
  | Reset => simp [EnabledItemVector.call]
  | Enable name enabled =>
    cases hf : v.Find name with
    | none => simp [EnabledItemVector.call, Enable, hf, discard]
    | some k =>
      cases enabled <;> cases hs : (v.itemAt k).m_Supported <;>
        simp [EnabledItemVector.call, Enable, hf, hs, discard]
  | EnableAll enabled => simp [EnabledItemVector.call]
  | PrepareEnabled =>
    simp [EnabledItemVector.call, PrepareEnabled_ok v h]
  | Load props => simp [EnabledItemVector.call]

theorem EnabledImpliesSupported_run (calls : List RegistryCall) (v : EnabledItemVector)
    (h : v.EnabledImpliesSupported) :
    (v.run calls).2.EnabledImpliesSupported ∧
      (v.run calls).1 ≠ .error .enabledItemNotSupported := by
  induction calls generalizing v with
  | nil => exact ⟨h, by simp [EnabledItemVector.run]⟩
  | cons c rest ih =>
    have hc := EnabledImpliesSupported_call v c h
    have hne := call_ne_enabledItemNotSupported v c h
    cases hr : v.call c with
    | mk r v' =>
      rw [hr] at hc hne
      cases r with
      | ok u => simpa [EnabledItemVector.run, hr] using ih v' hc
      | error e => exact ⟨by simpa [EnabledItemVector.run, hr] using hc,
          by simpa [EnabledItemVector.run, hr] using hne⟩

/-- In a registry with pairwise distinct names, `Find` returns a position
exactly for the name of the item at that position. -/
theorem Find_eq_some_iff_of_nodup (v : EnabledItemVector) (hd : v.declaredNames.Nodup)
    (name : String) (i : Nat) (it : EnabledItem) (hi : v.m_Items[i]? = some it) :
    v.Find name = some i ↔ it.m_Name = name := by
  constructor
  · intro hf
    obtain ⟨j, it', hk, hj, hname, _⟩ := findLoop_eq_some name v.m_Items 0 i hf
    have hij : i = j := by omega
    subst hij
    rw [hi] at hj
    rw [Option.some.inj hj]
    exact hname
  · intro hname
    have hdecl : name ∈ v.declaredNames := List.mem_map.2 ⟨it, List.getElem?_mem hi, hname⟩
    obtain ⟨i', it', hf, hi', _, hname', _⟩ := Find_of_declared v name hdecl
    have hlt : i' < v.declaredNames.length := by
      rcases Nat.lt_or_ge i' v.m_Items.length with h | h
      · simpa [declaredNames] using h
      · simp [List.getElem?_eq_none h] at hi'
    have heq : v.declaredNames[i']? = v.declaredNames[i]? := by
      simp [declaredNames, List.getElem?_map, hi, hi', hname, hname']
    rw [hf, List.getElem?_inj hlt hd heq]

/-- C17: the predicate "every item with `enabled = true` also has
`supported = true`" holds in the freshly constructed registry and is
preserved by `Reset`, `Enable`, `EnableAll`, `PrepareEnabled` and by the
loading done in `LoadExtensions` and `LoadLayers`; so in every state reached
from the fresh registry through any sequence of these operations it holds,
and the assertion inside `PrepareEnabled` does not fail there. -/
theorem C17_enabled_implies_supported :
    (∀ names : List String,
      EnabledImpliesSupported { m_Items := declaredItems names, m_EnabledItemNames := [] }) ∧
    (∀ v : EnabledItemVector, v.EnabledImpliesSupported →
      v.Reset.EnabledImpliesSupported ∧
      (∀ name e, (v.Enable name e).2.EnabledImpliesSupported) ∧
      (∀ w, (v.EnableAll w).EnabledImpliesSupported) ∧
      ((v.PrepareEnabled).1 = .ok () ∧ (v.PrepareEnabled).2.EnabledImpliesSupported) ∧
      (∀ (s : InitHelpBase) (props : List String), s.m_Extensions = v →
        (s.LoadExtensions props).2.m_Extensions.EnabledImpliesSupported) ∧
      (∀ (s : InstanceInitHelp) (props : List String), s.m_Layers = v →
        (s.LoadLayers props).m_Layers.EnabledImpliesSupported)) ∧
    (∀ (names : List String) (calls : List RegistryCall),
      (EnabledItemVector.run { m_Items := declaredItems names, m_EnabledItemNames := [] }
        calls).2.EnabledImpliesSupported ∧
      (EnabledItemVector.run { m_Items := declaredItems names, m_EnabledItemNames := [] }
        calls).1 ≠ .error .enabledItemNotSupported ∧
      ((EnabledItemVector.run { m_Items := declaredItems names, m_EnabledItemNames := [] }
        calls).2.PrepareEnabled).1 = .ok ()) := by
  refine ⟨EnabledImpliesSupported_declared, ?_, ?_⟩
  · intro v h
    refine ⟨EnabledImpliesSupported_Reset v,
      fun name e => EnabledImpliesSupported_Enable v name e h,
      fun w => EnabledImpliesSupported_EnableAll v w,
      ⟨by rw [PrepareEnabled_ok v h], h⟩, ?_, ?_⟩
    · intro s props hs
      subst hs
      by_cases hflag : s.m_ExtensionsEnumerated = true
      · simpa [InitHelpBase.LoadExtensions, hflag] using h
      · simpa [InitHelpBase.LoadExtensions, hflag] using
          EnabledImpliesSupported_loadNames s.m_Extensions props h
    · intro s props hs
      subst hs
      exact EnabledImpliesSupported_loadNames s.m_Layers props h
  · intro names calls
    obtain ⟨h1, h2⟩ := EnabledImpliesSupported_run calls _
      (EnabledImpliesSupported_declared names)
    exact ⟨h1, h2, by rw [PrepareEnabled_ok _ h1]⟩

/-- C17 on a sequence of calls from the fresh registry over `X`, `Y`, `Z`:
loading `X` and `Z`, asking to enable the unsupported `Y`, disabling `X`,
enabling all, and preparing: the run completes and ends with `X` and `Z`
supported and enabled and `Y` neither. -/
theorem C17_enabled_implies_supported_witness :
    (EnabledItemVector.run
        { m_Items := declaredItems ["X", "Y", "Z"], m_EnabledItemNames := [] }
        [.Load ["X", "Z"], .Enable "Y" true, .Enable "X" false, .EnableAll true,
          .PrepareEnabled]).2.EnabledImpliesSupported ∧
      (EnabledItemVector.run
        { m_Items := declaredItems ["X", "Y", "Z"], m_EnabledItemNames := [] }
        [.Load ["X", "Z"], .Enable "Y" true, .Enable "X" false, .EnableAll true,
          .PrepareEnabled]).2.m_Items =
        [ { m_Name := "X", m_Supported := true, m_Enabled := true },
          { m_Name := "Y", m_Supported := false, m_Enabled := false },
          { m_Name := "Z", m_Supported := true, m_Enabled := true } ] :=
  ⟨(C17_enabled_implies_supported.2.2 ["X", "Y", "Z"]
      [.Load ["X", "Z"], .Enable "Y" true, .Enable "X" false, .EnableAll true,
        .PrepareEnabled]).1,
    by decide⟩

/-- Calling `Enable(name, w)` once for each name of `ns`, all declared, on a
registry with pairwise distinct names: no call fails, and the items whose
name is in `ns` get `enabled = (w AND supported)` while the others and the
snapshot stay as they were. -/
theorem run_Enable_names (w : Bool) (ns : List String) (v : EnabledItemVector)
    (hd : v.declaredNames.Nodup) (hsub : ∀ n ∈ ns, n ∈ v.declaredNames) :
    (v.run (ns.map fun n => RegistryCall.Enable n w)).1 = .ok () ∧
    (v.run (ns.map fun n => RegistryCall.Enable n w)).2.m_Items.length = v.m_Items.length ∧
    (v.run (ns.map fun n => RegistryCall.Enable n w)).2.m_EnabledItemNames =
      v.m_EnabledItemNames ∧
    ∀ (i : Nat) (it : EnabledItem), v.m_Items[i]? = some it →
      (v.run (ns.map fun n => RegistryCall.Enable n w)).2.m_Items[i]? =
        some (if it.m_Name ∈ ns then { it with m_Enabled := w && it.m_Supported } else it) := by
  induction ns generalizing v with
  | nil =>
    refine ⟨rfl, rfl, rfl, ?_⟩
    intro i it hi
    simpa [EnabledItemVector.run] using hi
  | cons n rest ih =>
    have hn : n ∈ v.declaredNames := hsub n (List.mem_cons_self _ _)
    obtain ⟨k, kt, _, _, _, _, _, hE, _, _⟩ := Enable_of_declared v n w hn
    have hcall : v.call (.Enable n w) = (.ok (), (v.Enable n w).2) := by
      simp [EnabledItemVector.call, hE, discard]
    have hrun : v.run ((n :: rest).map fun n => RegistryCall.Enable n w) =
        (v.Enable n w).2.run (rest.map fun n => RegistryCall.Enable n w) := by
      simp [EnabledItemVector.run, hcall]
    have hd1 : (v.Enable n w).2.declaredNames.Nodup := by
      rw [Enable_declaredNames]; exact hd
    have hsub1 : ∀ m ∈ rest, m ∈ (v.Enable n w).2.declaredNames := by
      intro m hm
      rw [Enable_declaredNames]
      exact hsub m (List.mem_cons_of_mem _ hm)
    obtain ⟨h1, h2, h3, h4⟩ := ih (v.Enable n w).2 hd1 hsub1
    rw [hrun]
    refine ⟨h1, by rw [h2, Enable_length], by rw [h3, Enable_snapshot], ?_⟩
    intro i it hi
    rw [h4 i _ (Enable_getElem? v n w i it hi)]
    have hiff := Find_eq_some_iff_of_nodup v hd n i it hi
    by_cases hname : it.m_Name = n
    · have hf : v.Find n = some i := hiff.2 hname
      by_cases hr : it.m_Name ∈ rest <;> simp [hf, hr, hname]
    · have hf : ¬ v.Find n = some i := fun h => hname (hiff.1 h)
      by_cases hr : it.m_Name ∈ rest <;> simp [hf, hr, hname]

/-- C18: `EnableAll` is the bulk variant of the single-item rule: for every
registry whose declared names are pairwise distinct and every boolean `w`,
calling `Enable(name, w)` once for each declared name in declaration order
fails at no call and ends in exactly the registry state of `EnableAll(w)`. -/
theorem C18_enableAll_is_enable_each (v : EnabledItemVector) (w : Bool)
    (hd : v.declaredNames.Nodup) :
    v.run (v.declaredNames.map fun n => RegistryCall.Enable n w) = (.ok (), v.EnableAll w) := by
  obtain ⟨h1, h2, h3, h4⟩ := run_Enable_names w v.declaredNames v hd (fun _ h => h)
  have hitems : (v.run (v.declaredNames.map fun n => RegistryCall.Enable n w)).2.m_Items =
      (v.EnableAll w).m_Items := by
    apply List.ext_getElem?
    intro i
    cases hi : v.m_Items[i]? with
    | none =>
      have hlen : v.m_Items.length ≤ i := by
        rcases Nat.lt_or_ge i v.m_Items.length with h | h
        · simp [List.getElem?_eq_getElem h] at hi
        · exact h
      rw [List.getElem?_eq_none (by rw [h2]; exact hlen),
        List.getElem?_eq_none (by simpa [EnableAll] using hlen)]
    | some it =>
      have hmem : it.m_Name ∈ v.declaredNames :=
        List.mem_map.2 ⟨it, List.getElem?_mem hi, rfl⟩
      rw [h4 i it hi, getElem?_EnableAll v w i it hi, if_pos hmem]
  cases hr : v.run (v.declaredNames.map fun n => RegistryCall.Enable n w) with
  | mk r v' =>
    rw [hr] at h1 h3 hitems
    cases v' with
    | mk items names =>
      simp only at h1 h3 hitems
      subst h1 h3 hitems
      rfl

/-- C18 at the sample registry (`X`, `Z` supported, `Y` not): enabling the
three names one by one ends where `EnableAll(true)` does. -/
theorem C18_enableAll_is_enable_each_witness :
    sampleRegistry.run [.Enable "X" true, .Enable "Y" true, .Enable "Z" true] =
      (.ok (), sampleRegistry.EnableAll true) :=
  C18_enableAll_is_enable_each sampleRegistry true (by decide)

theorem EnableAll_declaredNames (v : EnabledItemVector) (w : Bool) :
    (v.EnableAll w).declaredNames = v.declaredNames := by
  simp [EnableAll, declaredNames, List.map_map, Function.comp_def]

theorem EnableAll_supported (v : EnabledItemVector) (w : Bool) :
    (v.EnableAll w).m_Items.map EnabledItem.m_Supported =
      v.m_Items.map EnabledItem.m_Supported := by
  simp [EnableAll, List.map_map, Function.comp_def]

theorem Reset_declaredNames (v : EnabledItemVector) : v.Reset.declaredNames = v.declaredNames := by
  simp [EnabledItemVector.Reset, declaredNames, List.map_map, Function.comp_def]

theorem loadNames_names (props : List String) (items : List EnabledItem) :
    (loadNames props items).map EnabledItem.m_Name = items.map EnabledItem.m_Name := by
  rw [loadNames_eq_map, List.map_map]
  apply List.map_congr_left
  intro it _
  by_cases h : it.m_Name ∈ props <;> simp [h]

/-- Replacing an element by one with the same image leaves the mapped list
as it was. -/
theorem map_set_of_eq {α β : Type} (f : α → β) (l : List α) (i : Nat) (x : α)
    (h : ∀ a, l[i]? = some a → f x = f a) : (l.set i x).map f = l.map f := by
  apply List.ext_getElem?
  intro n
  by_cases hn : i = n
  · subst hn
    rcases Nat.lt_or_ge i l.length with hlt | hge
    · have hi : l[i]? = some l[i] := List.getElem?_eq_getElem hlt
      simp [List.getElem?_map, hlt, h _ hi]
    · simp [List.getElem?_map, List.getElem?_eq_none hge, hge]
  · simp [List.getElem?_map, List.getElem?_set_ne hn]

theorem setFeatureStructEnabledAt_declaration (s : InitHelpBase) (i : Nat) (b : Bool) :
    (s.setFeatureStructEnabledAt i b).m_FeatureStructs.map FeatureStruct.declaration =
      s.m_FeatureStructs.map FeatureStruct.declaration := by
  apply map_set_of_eq
  intro a ha
  simp [InitHelpBase.featureStructAt, List.getD, ha, FeatureStruct.declaration]

theorem discard_eq_ok {α : Type} (r : Except Fatal α) :
    discard r = .ok () ↔ ∃ a, r = .ok a := by
  cases r <;> simp [discard]

/-! ## What each member changes -/

/-- What the outer-scope `PrepareCreation` changes, completed or not: the two
snapshots, the storage and the head of the chain, and, when it completes,
the creation-prepared flag; it completes only after both discoveries. -/
theorem Instance_PrepareCreation_shape (s : InstanceInitHelp) :
    ∃ (en ln : List String) (mem : StructMemory) (head : Option Nat),
      (s.PrepareCreation).2 =
        { s with
          m_CreationPrepared :=
            if (s.PrepareCreation).1 = .ok () then true else s.m_CreationPrepared
          m_Extensions := { s.m_Extensions with m_EnabledItemNames := en }
          m_Layers := { s.m_Layers with m_EnabledItemNames := ln }
          structs := mem
          m_FeaturesChain := head } ∧
      ((s.PrepareCreation).1 = .ok () →
        s.m_LayersEnumerated = true ∧ s.m_ExtensionsEnumerated = true) := by
  by_cases hl : s.m_LayersEnumerated = true
  · by_cases he : s.m_ExtensionsEnumerated = true
    · cases hre : (prepareLoop s.m_Extensions.m_Items []).1 with
      | error e =>
        refine ⟨(prepareLoop s.m_Extensions.m_Items []).2, s.m_Layers.m_EnabledItemNames,
          s.structs, s.m_FeaturesChain, ?_, ?_⟩
        · simp [InstanceInitHelp.PrepareCreation, hl, he,
            InitHelpBase.PrepareEnabledExtensionNames, PrepareEnabled, hre]
        · simp [InstanceInitHelp.PrepareCreation, hl, he,
            InitHelpBase.PrepareEnabledExtensionNames, PrepareEnabled, hre]
      | ok u =>
        cases hrl : (prepareLoop s.m_Layers.m_Items []).1 with
        | error e =>
          refine ⟨(prepareLoop s.m_Extensions.m_Items []).2,
            (prepareLoop s.m_Layers.m_Items []).2, s.structs, s.m_FeaturesChain, ?_, ?_⟩
          · simp [InstanceInitHelp.PrepareCreation, hl, he,
              InitHelpBase.PrepareEnabledExtensionNames, PrepareEnabled, hre, hrl]
          · simp [InstanceInitHelp.PrepareCreation, hl, he,
              InitHelpBase.PrepareEnabledExtensionNames, PrepareEnabled, hre, hrl]
        | ok u' =>
          cases hlk : (linkLoop s.m_FeatureStructs s.structs none).1 with
          | error e =>
            refine ⟨(prepareLoop s.m_Extensions.m_Items []).2,
              (prepareLoop s.m_Layers.m_Items []).2,
              (linkLoop s.m_FeatureStructs s.structs none).2.1,
              (linkLoop s.m_FeatureStructs s.structs none).2.2, ?_, ?_⟩
            · simp [InstanceInitHelp.PrepareCreation, hl, he,
                InitHelpBase.PrepareEnabledExtensionNames, PrepareEnabled, hre, hrl,
                Instance_chainLoop_eq, hlk]
            · simp [InstanceInitHelp.PrepareCreation, hl, he,
                InitHelpBase.PrepareEnabledExtensionNames, PrepareEnabled, hre, hrl,
                Instance_chainLoop_eq, hlk]
          | ok u'' =>
            refine ⟨(prepareLoop s.m_Extensions.m_Items []).2,
              (prepareLoop s.m_Layers.m_Items []).2,
              (linkLoop s.m_FeatureStructs s.structs none).2.1,
              (linkLoop s.m_FeatureStructs s.structs none).2.2, ?_, ?_⟩
            · simp [InstanceInitHelp.PrepareCreation, hl, he,
                InitHelpBase.PrepareEnabledExtensionNames, PrepareEnabled, hre, hrl,
                Instance_chainLoop_eq, hlk]
            · simp [InstanceInitHelp.PrepareCreation, hl, he,
                InitHelpBase.PrepareEnabledExtensionNames, PrepareEnabled, hre, hrl,
                Instance_chainLoop_eq, hlk]
    · have hEq : s.PrepareCreation = (.error .enumerateExtensionsFirst, s) := by
        rcases s with ⟨b, le, la, ch, st⟩
        simp_all [InstanceInitHelp.PrepareCreation, InitHelpBase.PrepareEnabledExtensionNames]
      rw [hEq]
      exact ⟨s.m_Extensions.m_EnabledItemNames, s.m_Layers.m_EnabledItemNames, s.structs,
        s.m_FeaturesChain, rfl, fun h => absurd h (by simp)⟩
  · have hEq : s.PrepareCreation = (.error .enumerateLayersFirst, s) := by
      simp [InstanceInitHelp.PrepareCreation, hl]
    rw [hEq]
    exact ⟨s.m_Extensions.m_EnabledItemNames, s.m_Layers.m_EnabledItemNames, s.structs,
      s.m_FeaturesChain, rfl, fun h => absurd h (by simp)⟩

/-- The loop of `GetPhysicalDeviceFeatures` is the shared loop on `structs`
and `m_Features2.pNext`. -/
theorem Device_queryChainLoop_eq (fs : List FeatureStruct) (s : DeviceInitHelp) :
    DeviceInitHelp.queryChainLoop fs s =
      ((linkLoop fs s.structs s.m_Features2.pNext).1,
        { s with
          structs := (linkLoop fs s.structs s.m_Features2.pNext).2.1
          m_Features2 :=
            { s.m_Features2 with pNext := (linkLoop fs s.structs s.m_Features2.pNext).2.2 } }) := by
  induction fs generalizing s with
  | nil => rfl
  | cons f rest ih =>
    by_cases he : f.m_Enabled = true
    · by_cases ht : (s.structs f.m_StructPtr).sType = f.m_sType
      · simp [DeviceInitHelp.queryChainLoop, linkLoop, he, ht, ih]
      · simp [DeviceInitHelp.queryChainLoop, linkLoop, he, ht]
    · simp [DeviceInitHelp.queryChainLoop, linkLoop, he, ih]

/-- What the device-scope `PrepareCreation` changes, completed or not: the
snapshot, the storage and `m_Features2.pNext`, and, when it completes, the
creation-prepared flag; it completes only after extension discovery and the
feature query. -/
theorem Device_PrepareCreation_shape (s : DeviceInitHelp) :
    ∃ (en : List String) (mem : StructMemory) (head : Option Nat),
      (s.PrepareCreation).2 =
        { s with
          m_CreationPrepared :=
            if (s.PrepareCreation).1 = .ok () then true else s.m_CreationPrepared
          m_Extensions := { s.m_Extensions with m_EnabledItemNames := en }
          structs := mem
          m_Features2 := { s.m_Features2 with pNext := head } } ∧
      ((s.PrepareCreation).1 = .ok () →
        s.m_ExtensionsEnumerated = true ∧ s.m_PhysicalDeviceFeaturesQueried = true) := by
  by_cases he : s.m_ExtensionsEnumerated = true
  · by_cases hq : s.m_PhysicalDeviceFeaturesQueried = true
    · cases hre : (prepareLoop s.m_Extensions.m_Items []).1 with
      | error e =>
        refine ⟨(prepareLoop s.m_Extensions.m_Items []).2, s.structs, s.m_Features2.pNext,
          ?_, ?_⟩
        · simp [DeviceInitHelp.PrepareCreation, he, hq,
            InitHelpBase.PrepareEnabledExtensionNames, PrepareEnabled, hre]
        · simp [DeviceInitHelp.PrepareCreation, he, hq,
            InitHelpBase.PrepareEnabledExtensionNames, PrepareEnabled, hre]
      | ok u =>
        by_cases hf : s.m_Features2.sType = VK_STRUCTURE_TYPE_PHYSICAL_DEVICE_FEATURES_2
        · cases hlk : (linkLoop s.m_FeatureStructs s.structs none).1 with
          | error e =>
            refine ⟨(prepareLoop s.m_Extensions.m_Items []).2,
              (linkLoop s.m_FeatureStructs s.structs none).2.1,
              (linkLoop s.m_FeatureStructs s.structs none).2.2, ?_, ?_⟩
            · simp [DeviceInitHelp.PrepareCreation, he, hq,
                InitHelpBase.PrepareEnabledExtensionNames, PrepareEnabled, hre, hf,
                Device_chainLoop_eq, hlk]
            · simp [DeviceInitHelp.PrepareCreation, he, hq,
                InitHelpBase.PrepareEnabledExtensionNames, PrepareEnabled, hre, hf,
                Device_chainLoop_eq, hlk]
          | ok u' =>
            refine ⟨(prepareLoop s.m_Extensions.m_Items []).2,
              (linkLoop s.m_FeatureStructs s.structs none).2.1,
              (linkLoop s.m_FeatureStructs s.structs none).2.2, ?_, ?_⟩
            · simp [DeviceInitHelp.PrepareCreation, he, hq,
                InitHelpBase.PrepareEnabledExtensionNames, PrepareEnabled, hre, hf,
                Device_chainLoop_eq, hlk]
            · simp [DeviceInitHelp.PrepareCreation, he, hq,
                InitHelpBase.PrepareEnabledExtensionNames, PrepareEnabled, hre, hf,
                Device_chainLoop_eq, hlk]
        · refine ⟨(prepareLoop s.m_Extensions.m_Items []).2, s.structs, s.m_Features2.pNext,
            ?_, ?_⟩
          · simp [DeviceInitHelp.PrepareCreation, he, hq,
              InitHelpBase.PrepareEnabledExtensionNames, PrepareEnabled, hre, hf]
          · simp [DeviceInitHelp.PrepareCreation, he, hq,
              InitHelpBase.PrepareEnabledExtensionNames, PrepareEnabled, hre, hf]
    · have hEq : s.PrepareCreation = (.error .getPhysicalDeviceFeaturesFirst, s) := by
        rcases s with ⟨b, q, f2, st⟩
        simp_all [DeviceInitHelp.PrepareCreation]
      rw [hEq]
      exact ⟨s.m_Extensions.m_EnabledItemNames, s.structs, s.m_Features2.pNext, rfl,
        fun h => absurd h (by simp)⟩
  · have hEq : s.PrepareCreation = (.error .enumerateExtensionsFirst, s) := by
      simp [DeviceInitHelp.PrepareCreation, he]
    rw [hEq]
    exact ⟨s.m_Extensions.m_EnabledItemNames, s.structs, s.m_Features2.pNext, rfl,
      fun h => absurd h (by simp)⟩

/-- What `LoadExtensions` does: nothing when its assertion fails, otherwise
it loads the names and sets the enumerated flag. -/
theorem LoadExtensions_shape (b : InitHelpBase) (props : List String) :
    (b.m_ExtensionsEnumerated = true ∧
        b.LoadExtensions props = (.error .enumerateExtensionsOnlyOnce, b)) ∨
      (b.m_ExtensionsEnumerated = false ∧
        b.LoadExtensions props =
          (.ok (),
            { b with
              m_ExtensionsEnumerated := true
              m_Extensions :=
                { b.m_Extensions with m_Items := loadNames props b.m_Extensions.m_Items } })) := by
  by_cases h : b.m_ExtensionsEnumerated = true
  · exact Or.inl ⟨h, by simp [InitHelpBase.LoadExtensions, h]⟩
  · have h' : b.m_ExtensionsEnumerated = false := by simpa using h
    exact Or.inr ⟨h', by simp [InitHelpBase.LoadExtensions, h']⟩

/-- What the outer-scope `EnumerateExtensions` changes: nothing, or, when
extensions were not enumerated and it returns `VK_SUCCESS`, it loads the
reported names and sets the enumerated flag. -/
theorem Instance_EnumerateExtensions_shape (s : InstanceInitHelp) (vk : EnumerateReply) :
    (s.EnumerateExtensions vk).2 = s ∨
      (s.m_ExtensionsEnumerated = false ∧ (s.EnumerateExtensions vk).1 = .ok VK_SUCCESS ∧
        (s.EnumerateExtensions vk).2 =
          { s with
            m_ExtensionsEnumerated := true
            m_Extensions :=
              { s.m_Extensions with m_Items := loadNames vk.names s.m_Extensions.m_Items } }) := by
  by_cases hc : vk.countResult = VK_SUCCESS
  · by_cases hn : vk.count = 0
    · exact Or.inl (by simp [InstanceInitHelp.EnumerateExtensions, hc, hn])
    · by_cases hd : vk.dataResult = VK_SUCCESS
      · rcases LoadExtensions_shape s.toInitHelpBase vk.names with ⟨_, hL⟩ | ⟨hflag, hL⟩
        · exact Or.inl (by simp [InstanceInitHelp.EnumerateExtensions, hc, hn, hd, hL])
        · exact Or.inr ⟨hflag, by simp [InstanceInitHelp.EnumerateExtensions, hc, hn, hd, hL],
            by simp [InstanceInitHelp.EnumerateExtensions, hc, hn, hd, hL]⟩
      · exact Or.inl (by simp [InstanceInitHelp.EnumerateExtensions, hc, hn, hd])
  · exact Or.inl (by simp [InstanceInitHelp.EnumerateExtensions, hc])

/-- What the device-scope `EnumerateExtensions` changes. -/
theorem Device_EnumerateExtensions_shape (s : DeviceInitHelp) (dev : VkPhysicalDevice)
    (vk : EnumerateReply) :
    (s.EnumerateExtensions dev vk).2 = s ∨
      (s.m_ExtensionsEnumerated = false ∧ (s.EnumerateExtensions dev vk).1 = .ok VK_SUCCESS ∧
        (s.EnumerateExtensions dev vk).2 =
          { s with
            m_ExtensionsEnumerated := true
            m_Extensions :=
              { s.m_Extensions with m_Items := loadNames vk.names s.m_Extensions.m_Items } }) := by
  by_cases hdev : dev = 0
  · exact Or.inl (by simp [DeviceInitHelp.EnumerateExtensions, hdev])
  by_cases hc : vk.countResult = VK_SUCCESS
  · by_cases hn : vk.count = 0
    · exact Or.inl (by simp [DeviceInitHelp.EnumerateExtensions, hdev, hc, hn])
    · by_cases hd : vk.dataResult = VK_SUCCESS
      · rcases LoadExtensions_shape s.toInitHelpBase vk.names with ⟨_, hL⟩ | ⟨hflag, hL⟩
        · exact Or.inl (by simp [DeviceInitHelp.EnumerateExtensions, hdev, hc, hn, hd, hL])
        · exact Or.inr ⟨hflag,
            by simp [DeviceInitHelp.EnumerateExtensions, hdev, hc, hn, hd, hL],
            by simp [DeviceInitHelp.EnumerateExtensions, hdev, hc, hn, hd, hL]⟩
      · exact Or.inl (by simp [DeviceInitHelp.EnumerateExtensions, hdev, hc, hn, hd])
  · exact Or.inl (by simp [DeviceInitHelp.EnumerateExtensions, hdev, hc])

/-- What `EnumerateLayers` changes: nothing when it does not return
`VK_SUCCESS`; otherwise layers were not enumerated before, some names are
loaded (none when the count is zero) and the enumerated flag is set. -/
theorem Instance_EnumerateLayers_shape (s : InstanceInitHelp) (vk : EnumerateReply) :
    ((s.EnumerateLayers vk).1 ≠ .ok VK_SUCCESS ∧ (s.EnumerateLayers vk).2 = s) ∨
      (s.m_LayersEnumerated = false ∧ (s.EnumerateLayers vk).1 = .ok VK_SUCCESS ∧
        ∃ props : List String,
          (s.EnumerateLayers vk).2 =
            { s with
              m_LayersEnumerated := true
              m_Layers := { s.m_Layers with m_Items := loadNames props s.m_Layers.m_Items } }) := by
  by_cases hl : s.m_LayersEnumerated = true
  · exact Or.inl (by simp [InstanceInitHelp.EnumerateLayers, hl])
  have hl' : s.m_LayersEnumerated = false := by simpa using hl
  by_cases hc : vk.countResult = VK_SUCCESS
  · by_cases hn : vk.count = 0
    · exact Or.inr ⟨hl', by simp [InstanceInitHelp.EnumerateLayers, hl', hc, hn],
        [], by simp [InstanceInitHelp.EnumerateLayers, hl', hc, hn, loadNames]⟩
    · by_cases hd : vk.dataResult = VK_SUCCESS
      · exact Or.inr ⟨hl', by simp [InstanceInitHelp.EnumerateLayers, hl', hc, hn, hd],
          vk.names,
          by simp [InstanceInitHelp.EnumerateLayers, hl', hc, hn, hd,
            InstanceInitHelp.LoadLayers]⟩
      · exact Or.inl (by simp [InstanceInitHelp.EnumerateLayers, hl', hc, hn, hd])
  · exact Or.inl (by simp [InstanceInitHelp.EnumerateLayers, hl', hc])

/-- What `GetPhysicalDeviceFeatures` changes, completed or not: the storage
and `m_Features2.pNext`, and, when it completes, the features-queried flag;
it completes only when the features were not queried before. -/
theorem Device_GetPhysicalDeviceFeatures_shape (s : DeviceInitHelp) (dev : VkPhysicalDevice)
    (q : VkPhysicalDevice → VkBaseInStructure → StructMemory → StructMemory) :
    (s.m_PhysicalDeviceFeaturesQueried = true →
      (s.GetPhysicalDeviceFeatures dev q).1 ≠ .ok () ∧
        (s.GetPhysicalDeviceFeatures dev q).2 = s) ∧
    ∃ (mem : StructMemory) (head : Option Nat),
      (s.GetPhysicalDeviceFeatures dev q).2 =
        { s with
          m_PhysicalDeviceFeaturesQueried :=
            if (s.GetPhysicalDeviceFeatures dev q).1 = .ok () then true
            else s.m_PhysicalDeviceFeaturesQueried
          structs := mem
          m_Features2 := { s.m_Features2 with pNext := head } } := by
  by_cases hdev : dev = 0
  · have hEq : s.GetPhysicalDeviceFeatures dev q = (.error .nullPhysicalDevice, s) := by
      simp [DeviceInitHelp.GetPhysicalDeviceFeatures, hdev]
    rw [hEq]
    exact ⟨fun _ => ⟨by simp, rfl⟩, s.structs, s.m_Features2.pNext, rfl⟩
  by_cases hq : s.m_PhysicalDeviceFeaturesQueried = true
  · have hEq : s.GetPhysicalDeviceFeatures dev q =
        (.error .getPhysicalDeviceFeaturesOnlyOnce, s) := by
      simp [DeviceInitHelp.GetPhysicalDeviceFeatures, hdev, hq]
    rw [hEq]
    exact ⟨fun _ => ⟨by simp, rfl⟩, s.structs, s.m_Features2.pNext, rfl⟩
  refine ⟨fun h => absurd h hq, ?_⟩
  by_cases hf : s.m_Features2.sType = VK_STRUCTURE_TYPE_PHYSICAL_DEVICE_FEATURES_2
  · cases hlk : (linkLoop s.m_FeatureStructs s.structs none).1 with
    | error e =>
      refine ⟨(linkLoop s.m_FeatureStructs s.structs none).2.1,
        (linkLoop s.m_FeatureStructs s.structs none).2.2, ?_⟩
      simp [DeviceInitHelp.GetPhysicalDeviceFeatures, hdev, hq, hf, Device_queryChainLoop_eq,
        hlk]
    | ok u =>
      refine ⟨q dev { s.m_Features2 with
            pNext := (linkLoop s.m_FeatureStructs s.structs none).2.2 }
          (linkLoop s.m_FeatureStructs s.structs none).2.1,
        (linkLoop s.m_FeatureStructs s.structs none).2.2, ?_⟩
      simp [DeviceInitHelp.GetPhysicalDeviceFeatures, hdev, hq, hf, Device_queryChainLoop_eq,
        hlk]
  · have hEq : s.GetPhysicalDeviceFeatures dev q = (.error .features2TypeMismatch, s) := by
      rcases s with ⟨b, qd, f2, st⟩
      simp_all [DeviceInitHelp.GetPhysicalDeviceFeatures]
    rw [hEq]
    exact ⟨s.structs, s.m_Features2.pNext, rfl⟩

theorem ConfigFrame_refl (v : EnabledItemVector) : v.ConfigFrame v := ⟨rfl, rfl, rfl⟩

theorem ConfigFrame_Enable (v : EnabledItemVector) (name : String) (e : Bool) :
    v.ConfigFrame (v.Enable name e).2 :=
  ⟨Enable_declaredNames v name e, Enable_supported v name e, Enable_snapshot v name e⟩

theorem ConfigFrame_EnableAll (v : EnabledItemVector) (w : Bool) :
    v.ConfigFrame (v.EnableAll w) :=
  ⟨EnableAll_declaredNames v w, EnableAll_supported v w, rfl⟩

theorem Base_ConfigFrame_EnableExtension (b : InitHelpBase) (n : String) (e : Bool) :
    b.ConfigFrame (b.EnableExtension n e).2 := by
  by_cases h : b.m_ExtensionsEnumerated = true
  · simpa [InitHelpBase.EnableExtension, h, InitHelpBase.ConfigFrame] using
      ConfigFrame_Enable b.m_Extensions n e
  · simpa [InitHelpBase.EnableExtension, h, InitHelpBase.ConfigFrame] using
      ConfigFrame_refl b.m_Extensions

theorem Base_ConfigFrame_EnableAllExtensions (b : InitHelpBase) (e : Bool) :
    b.ConfigFrame (b.EnableAllExtensions e).2 := by
  by_cases h : b.m_ExtensionsEnumerated = true
  · simpa [InitHelpBase.EnableAllExtensions, h, InitHelpBase.ConfigFrame] using
      ConfigFrame_EnableAll b.m_Extensions e
  · simpa [InitHelpBase.EnableAllExtensions, h, InitHelpBase.ConfigFrame] using
      ConfigFrame_refl b.m_Extensions

theorem Base_ConfigFrame_setFeatureStructEnabledAt (b : InitHelpBase) (i : Nat) (e : Bool) :
    b.ConfigFrame (b.setFeatureStructEnabledAt i e) :=
  ⟨rfl, rfl, ConfigFrame_refl _, setFeatureStructEnabledAt_declaration b i e⟩

theorem Base_ConfigFrame_refl (b : InitHelpBase) : b.ConfigFrame b :=
  ⟨rfl, rfl, ConfigFrame_refl _, rfl⟩

theorem Base_ConfigFrame_EnableFeatureStructByName (b : InitHelpBase) (n : String) (e : Bool) :
    b.ConfigFrame (b.EnableFeatureStructByName n e).2 := by
  cases h : b.FindFeatureStructByName n with
  | none => simpa [InitHelpBase.EnableFeatureStructByName, h] using Base_ConfigFrame_refl b
  | some i =>
    simpa [InitHelpBase.EnableFeatureStructByName, h] using
      Base_ConfigFrame_setFeatureStructEnabledAt b i e

theorem Base_ConfigFrame_EnableFeatureStructByType (b : InitHelpBase) (t : VkStructureType)
    (e : Bool) : b.ConfigFrame (b.EnableFeatureStructByType t e).2 := by
  cases h : b.FindFeatureStructByType t with
  | none => simpa [InitHelpBase.EnableFeatureStructByType, h] using Base_ConfigFrame_refl b
  | some i =>
    simpa [InitHelpBase.EnableFeatureStructByType, h] using
      Base_ConfigFrame_setFeatureStructEnabledAt b i e

theorem Base_ConfigFrame_EnableAllFeatureStructs (b : InitHelpBase) (e : Bool) :
    b.ConfigFrame (b.EnableAllFeatureStructs e) := by
  refine ⟨rfl, rfl, ConfigFrame_refl _, ?_⟩
  simp [InitHelpBase.EnableAllFeatureStructs, List.map_map, Function.comp_def,
    FeatureStruct.declaration]

/-- Every configuration call of the outer-scope session, failed or not,
leaves everything but enabled flags as it was. -/
theorem Instance_call_configFrame (s : InstanceInitHelp) (c : InstanceCall)
    (hc : c.isConfiguration = true) : s.ConfigFrame (s.call c).2 := by
  cases c with
  | EnableExtension n e =>
    exact ⟨Base_ConfigFrame_EnableExtension _ n e, rfl, ConfigFrame_refl _, rfl, rfl⟩
  | EnableAllExtensions e =>
    exact ⟨Base_ConfigFrame_EnableAllExtensions _ e, rfl, ConfigFrame_refl _, rfl, rfl⟩
  | EnableLayer n e =>
    by_cases h : s.m_LayersEnumerated = true
    · have hs : (s.call (.EnableLayer n e)).2 =
          { s with m_Layers := (s.m_Layers.Enable n e).2 } := by
        simp [InstanceInitHelp.call, InstanceInitHelp.EnableLayer, h]
      rw [hs]
      exact ⟨Base_ConfigFrame_refl _, rfl, ConfigFrame_Enable s.m_Layers n e, rfl, rfl⟩
    · have hs : (s.call (.EnableLayer n e)).2 = s := by
        simp [InstanceInitHelp.call, InstanceInitHelp.EnableLayer, h]
      rw [hs]
      exact ⟨Base_ConfigFrame_refl _, rfl, ConfigFrame_refl _, rfl, rfl⟩
  | EnableAllLayers e =>
    by_cases h : s.m_LayersEnumerated = true
    · have hs : (s.call (.EnableAllLayers e)).2 =
          { s with m_Layers := s.m_Layers.EnableAll e } := by
        simp [InstanceInitHelp.call, InstanceInitHelp.EnableAllLayers, h]
      rw [hs]
      exact ⟨Base_ConfigFrame_refl _, rfl, ConfigFrame_EnableAll s.m_Layers e, rfl, rfl⟩
    · have hs : (s.call (.EnableAllLayers e)).2 = s := by
        simp [InstanceInitHelp.call, InstanceInitHelp.EnableAllLayers, h]
      rw [hs]
      exact ⟨Base_ConfigFrame_refl _, rfl, ConfigFrame_refl _, rfl, rfl⟩
  | EnableFeatureStructByName n e =>
    exact ⟨Base_ConfigFrame_EnableFeatureStructByName _ n e, rfl, ConfigFrame_refl _, rfl, rfl⟩
  | EnableFeatureStructByType t e =>
    exact ⟨Base_ConfigFrame_EnableFeatureStructByType _ t e, rfl, ConfigFrame_refl _, rfl, rfl⟩
  | EnableAllFeatureStructs e =>
    exact ⟨Base_ConfigFrame_EnableAllFeatureStructs _ e, rfl, ConfigFrame_refl _, rfl, rfl⟩
  | Reset => simp [InstanceCall.isConfiguration] at hc
  | EnumerateExtensions vk => simp [InstanceCall.isConfiguration] at hc
  | EnumerateLayers vk => simp [InstanceCall.isConfiguration] at hc
  | PrepareCreation => simp [InstanceCall.isConfiguration] at hc

/-- Every configuration call of the device-scope session, failed or not,
leaves everything but enabled flags as it was. -/
theorem Device_call_configFrame (s : DeviceInitHelp) (c : DeviceCall)
    (hc : c.isConfiguration = true) : s.ConfigFrame (s.call c).2 := by
  cases c with
  | EnableExtension n e => exact ⟨Base_ConfigFrame_EnableExtension _ n e, rfl, rfl, rfl⟩
  | EnableAllExtensions e => exact ⟨Base_ConfigFrame_EnableAllExtensions _ e, rfl, rfl, rfl⟩
  | EnableFeatureStructByName n e =>
    exact ⟨Base_ConfigFrame_EnableFeatureStructByName _ n e, rfl, rfl, rfl⟩
  | EnableFeatureStructByType t e =>
    exact ⟨Base_ConfigFrame_EnableFeatureStructByType _ t e, rfl, rfl, rfl⟩
  | EnableAllFeatureStructs e =>
    exact ⟨Base_ConfigFrame_EnableAllFeatureStructs _ e, rfl, rfl, rfl⟩
  | Reset => simp [DeviceCall.isConfiguration] at hc
  | EnumerateExtensions dev vk => simp [DeviceCall.isConfiguration] at hc
  | GetPhysicalDeviceFeatures dev q => simp [DeviceCall.isConfiguration] at hc
  | PrepareCreation => simp [DeviceCall.isConfiguration] at hc

/-- A call of the outer-scope session other than `Reset` and
`PrepareCreation`, failed or not, leaves what the finalized accessors read. -/
theorem Instance_call_finalizedFrame (s : InstanceInitHelp) (c : InstanceCall)
    (hc : c.isResetOrPrepare = false) : s.FinalizedFrame (s.call c).2 := by
  by_cases hcfg : c.isConfiguration = true
  · obtain ⟨⟨_, h2, ⟨_, _, h3⟩, _⟩, _, ⟨_, _, h5⟩, h6, h7⟩ := Instance_call_configFrame s c hcfg
    exact ⟨h2, h3, h5, h6, h7⟩
  · cases c with
    | EnumerateExtensions vk =>
      rcases Instance_EnumerateExtensions_shape s vk with h | ⟨_, _, h⟩
      · simp only [InstanceInitHelp.call]; rw [h]; exact ⟨rfl, rfl, rfl, rfl, rfl⟩
      · simp only [InstanceInitHelp.call]; rw [h]; exact ⟨rfl, rfl, rfl, rfl, rfl⟩
    | EnumerateLayers vk =>
      rcases Instance_EnumerateLayers_shape s vk with ⟨_, h⟩ | ⟨_, _, props, h⟩
      · simp only [InstanceInitHelp.call]; rw [h]; exact ⟨rfl, rfl, rfl, rfl, rfl⟩
      · simp only [InstanceInitHelp.call]; rw [h]; exact ⟨rfl, rfl, rfl, rfl, rfl⟩
    | Reset => simp [InstanceCall.isResetOrPrepare] at hc
    | PrepareCreation => simp [InstanceCall.isResetOrPrepare] at hc
    | EnableExtension n e => simp [InstanceCall.isConfiguration] at hcfg
    | EnableAllExtensions e => simp [InstanceCall.isConfiguration] at hcfg
    | EnableLayer n e => simp [InstanceCall.isConfiguration] at hcfg
    | EnableAllLayers e => simp [InstanceCall.isConfiguration] at hcfg
    | EnableFeatureStructByName n e => simp [InstanceCall.isConfiguration] at hcfg
    | EnableFeatureStructByType t e => simp [InstanceCall.isConfiguration] at hcfg
    | EnableAllFeatureStructs e => simp [InstanceCall.isConfiguration] at hcfg

/-- No call of the outer-scope session, failed or not, changes the declared
names or the declarations of the feature records. -/
theorem Instance_call_sameDeclarations (s : InstanceInitHelp) (c : InstanceCall) :
    s.SameDeclarations (s.call c).2 := by
  by_cases hcfg : c.isConfiguration = true
  · obtain ⟨⟨_, _, ⟨h1, _, _⟩, h2⟩, _, ⟨h3, _, _⟩, _, _⟩ := Instance_call_configFrame s c hcfg
    exact ⟨h1, h3, h2⟩
  · cases c with
    | Reset =>
      refine ⟨Reset_declaredNames _, Reset_declaredNames _, ?_⟩
      simp [InstanceInitHelp.call, InstanceInitHelp.Reset, InitHelpBase.Reset, List.map_map,
        Function.comp_def, FeatureStruct.declaration]
    | EnumerateExtensions vk =>
      rcases Instance_EnumerateExtensions_shape s vk with h | ⟨_, _, h⟩
      · simp only [InstanceInitHelp.call]; rw [h]; exact ⟨rfl, rfl, rfl⟩
      · simp only [InstanceInitHelp.call]; rw [h]
        exact ⟨loadNames_names _ _, rfl, rfl⟩
    | EnumerateLayers vk =>
      rcases Instance_EnumerateLayers_shape s vk with ⟨_, h⟩ | ⟨_, _, props, h⟩
      · simp only [InstanceInitHelp.call]; rw [h]; exact ⟨rfl, rfl, rfl⟩
      · simp only [InstanceInitHelp.call]; rw [h]
        exact ⟨rfl, loadNames_names _ _, rfl⟩
    | PrepareCreation =>
      obtain ⟨en, ln, mem, head, h, _⟩ := Instance_PrepareCreation_shape s
      simp only [InstanceInitHelp.call]; rw [h]; exact ⟨rfl, rfl, rfl⟩
    | EnableExtension n e => simp [InstanceCall.isConfiguration] at hcfg
    | EnableAllExtensions e => simp [InstanceCall.isConfiguration] at hcfg
    | EnableLayer n e => simp [InstanceCall.isConfiguration] at hcfg
    | EnableAllLayers e => simp [InstanceCall.isConfiguration] at hcfg
    | EnableFeatureStructByName n e => simp [InstanceCall.isConfiguration] at hcfg
    | EnableFeatureStructByType t e => simp [InstanceCall.isConfiguration] at hcfg
    | EnableAllFeatureStructs e => simp [InstanceCall.isConfiguration] at hcfg

/-- A call of the outer-scope session other than `Reset`,
`EnumerateExtensions` and `EnumerateLayers`, failed or not, leaves every
supported flag of both registries as it was. -/
theorem Instance_call_supported (s : InstanceInitHelp) (c : InstanceCall)
    (hc : c.isLoadOrReset = false) :
    (s.call c).2.m_Extensions.m_Items.map EnabledItem.m_Supported =
        s.m_Extensions.m_Items.map EnabledItem.m_Supported ∧
      (s.call c).2.m_Layers.m_Items.map EnabledItem.m_Supported =
        s.m_Layers.m_Items.map EnabledItem.m_Supported := by
  by_cases hcfg : c.isConfiguration = true
  · obtain ⟨⟨_, _, ⟨_, h1, _⟩, _⟩, _, ⟨_, h2, _⟩, _, _⟩ := Instance_call_configFrame s c hcfg
    exact ⟨h1, h2⟩
  · cases c with
    | PrepareCreation =>
      obtain ⟨en, ln, mem, head, h, _⟩ := Instance_PrepareCreation_shape s
      simp only [InstanceInitHelp.call]; rw [h]; exact ⟨rfl, rfl⟩
    | Reset => simp [InstanceCall.isLoadOrReset] at hc
    | EnumerateExtensions vk => simp [InstanceCall.isLoadOrReset] at hc
    | EnumerateLayers vk => simp [InstanceCall.isLoadOrReset] at hc
    | EnableExtension n e => simp [InstanceCall.isConfiguration] at hcfg
    | EnableAllExtensions e => simp [InstanceCall.isConfiguration] at hcfg
    | EnableLayer n e => simp [InstanceCall.isConfiguration] at hcfg
    | EnableAllLayers e => simp [InstanceCall.isConfiguration] at hcfg
    | EnableFeatureStructByName n e => simp [InstanceCall.isConfiguration] at hcfg
    | EnableFeatureStructByType t e => simp [InstanceCall.isConfiguration] at hcfg
    | EnableAllFeatureStructs e => simp [InstanceCall.isConfiguration] at hcfg

/-- A call of the device-scope session other than `Reset` and
`PrepareCreation`, failed or not, made after the features were queried,
leaves what the finalized accessors read. -/
theorem Device_call_finalizedFrame (s : DeviceInitHelp) (c : DeviceCall)
    (hc : c.isResetOrPrepare = false) (hq : s.m_PhysicalDeviceFeaturesQueried = true) :
    s.FinalizedFrame (s.call c).2 := by
  by_cases hcfg : c.isConfiguration = true
  · obtain ⟨⟨_, h2, ⟨_, _, h3⟩, _⟩, h4, h5, h6⟩ := Device_call_configFrame s c hcfg
    exact ⟨h2, h3, h4, h5, h6⟩
  · cases c with
    | EnumerateExtensions dev vk =>
      rcases Device_EnumerateExtensions_shape s dev vk with h | ⟨_, _, h⟩
      · simp only [DeviceInitHelp.call]; rw [h]; exact ⟨rfl, rfl, rfl, rfl, rfl⟩
      · simp only [DeviceInitHelp.call]; rw [h]; exact ⟨rfl, rfl, rfl, rfl, rfl⟩
    | GetPhysicalDeviceFeatures dev q =>
      have h := ((Device_GetPhysicalDeviceFeatures_shape s dev q).1 hq).2
      simp only [DeviceInitHelp.call]; rw [h]; exact ⟨rfl, rfl, rfl, rfl, rfl⟩
    | Reset => simp [DeviceCall.isResetOrPrepare] at hc
    | PrepareCreation => simp [DeviceCall.isResetOrPrepare] at hc
    | EnableExtension n e => simp [DeviceCall.isConfiguration] at hcfg
    | EnableAllExtensions e => simp [DeviceCall.isConfiguration] at hcfg
    | EnableFeatureStructByName n e => simp [DeviceCall.isConfiguration] at hcfg
    | EnableFeatureStructByType t e => simp [DeviceCall.isConfiguration] at hcfg
    | EnableAllFeatureStructs e => simp [DeviceCall.isConfiguration] at hcfg

/-- No call of the device-scope session, failed or not, changes the declared
names or the declarations of the feature records. -/
theorem Device_call_sameDeclarations (s : DeviceInitHelp) (c : DeviceCall) :
    s.SameDeclarations (s.call c).2 := by
  by_cases hcfg : c.isConfiguration = true
  · obtain ⟨⟨_, _, ⟨h1, _, _⟩, h2⟩, _, _, _⟩ := Device_call_configFrame s c hcfg
    exact ⟨h1, h2⟩
  · cases c with
    | Reset =>
      refine ⟨Reset_declaredNames _, ?_⟩
      simp [DeviceInitHelp.call, DeviceInitHelp.Reset, InitHelpBase.Reset, List.map_map,
        Function.comp_def, FeatureStruct.declaration]
    | EnumerateExtensions dev vk =>
      rcases Device_EnumerateExtensions_shape s dev vk with h | ⟨_, _, h⟩
      · simp only [DeviceInitHelp.call]; rw [h]; exact ⟨rfl, rfl⟩
      · simp only [DeviceInitHelp.call]; rw [h]
        exact ⟨loadNames_names _ _, rfl⟩
    | GetPhysicalDeviceFeatures dev q =>
      obtain ⟨_, mem, head, h⟩ := Device_GetPhysicalDeviceFeatures_shape s dev q
      simp only [DeviceInitHelp.call]; rw [h]; exact ⟨rfl, rfl⟩
    | PrepareCreation =>
      obtain ⟨en, mem, head, h, _⟩ := Device_PrepareCreation_shape s
      simp only [DeviceInitHelp.call]; rw [h]; exact ⟨rfl, rfl⟩
    | EnableExtension n e => simp [DeviceCall.isConfiguration] at hcfg
    | EnableAllExtensions e => simp [DeviceCall.isConfiguration] at hcfg
    | EnableFeatureStructByName n e => simp [DeviceCall.isConfiguration] at hcfg
    | EnableFeatureStructByType t e => simp [DeviceCall.isConfiguration] at hcfg
    | EnableAllFeatureStructs e => simp [DeviceCall.isConfiguration] at hcfg

/-- A call of the device-scope session other than `Reset` and
`EnumerateExtensions`, failed or not, leaves every supported flag as it was. -/
theorem Device_call_supported (s : DeviceInitHelp) (c : DeviceCall)
    (hc : c.isLoadOrReset = false) :
    (s.call c).2.m_Extensions.m_Items.map EnabledItem.m_Supported =
      s.m_Extensions.m_Items.map EnabledItem.m_Supported := by
  by_cases hcfg : c.isConfiguration = true
  · obtain ⟨⟨_, _, ⟨_, h1, _⟩, _⟩, _, _, _⟩ := Device_call_configFrame s c hcfg
    exact h1
  · cases c with
    | GetPhysicalDeviceFeatures dev q =>
      obtain ⟨_, mem, head, h⟩ := Device_GetPhysicalDeviceFeatures_shape s dev q
      simp only [DeviceInitHelp.call]; rw [h]
    | PrepareCreation =>
      obtain ⟨en, mem, head, h, _⟩ := Device_PrepareCreation_shape s
      simp only [DeviceInitHelp.call]; rw [h]
    | Reset => simp [DeviceCall.isLoadOrReset] at hc
    | EnumerateExtensions dev vk => simp [DeviceCall.isLoadOrReset] at hc
    | EnableExtension n e => simp [DeviceCall.isConfiguration] at hcfg
    | EnableAllExtensions e => simp [DeviceCall.isConfiguration] at hcfg
    | EnableFeatureStructByName n e => simp [DeviceCall.isConfiguration] at hcfg
    | EnableFeatureStructByType t e => simp [DeviceCall.isConfiguration] at hcfg
    | EnableAllFeatureStructs e => simp [DeviceCall.isConfiguration] at hcfg

/-- C20: configuration never changes support. `Enable(name, e)` changes at
most the enabled flag of the single item `Find` returns for `name`, which is
the first item with that name, and leaves every other item, every name,
every supported flag and the cached snapshot as they were; `EnableAll` and
`PrepareEnabled` leave every name and supported flag, in the same order; and
among the calls on a registry and on a session of either variant, only
discovery loading and `Reset` change a supported flag. -/
theorem C20_configuration_keeps_support (v : EnabledItemVector) (s : InstanceInitHelp)
    (t : DeviceInitHelp) :
    (∀ name e,
      (v.Enable name e).2.m_EnabledItemNames = v.m_EnabledItemNames ∧
      (v.Enable name e).2.m_Items.length = v.m_Items.length ∧
      ∀ (i : Nat) (it : EnabledItem), v.m_Items[i]? = some it →
        ∃ it' : EnabledItem, (v.Enable name e).2.m_Items[i]? = some it' ∧
          it'.m_Name = it.m_Name ∧ it'.m_Supported = it.m_Supported ∧
          (v.Find name ≠ some i → it' = it)) ∧
    (∀ name i, v.Find name = some i →
      (∃ it : EnabledItem, v.m_Items[i]? = some it ∧ it.m_Name = name) ∧
      ∀ j, j < i → ∀ jt : EnabledItem, v.m_Items[j]? = some jt → jt.m_Name ≠ name) ∧
    (∀ w,
      (v.EnableAll w).m_Items.map EnabledItem.m_Name = v.m_Items.map EnabledItem.m_Name ∧
      (v.EnableAll w).m_Items.map EnabledItem.m_Supported =
        v.m_Items.map EnabledItem.m_Supported) ∧
    (v.PrepareEnabled).2.m_Items = v.m_Items ∧
    (∀ c : RegistryCall, c ≠ .Reset → (∀ props, c ≠ .Load props) →
      (v.call c).2.m_Items.map EnabledItem.m_Supported =
        v.m_Items.map EnabledItem.m_Supported) ∧
    (∀ c : InstanceCall, c.isLoadOrReset = false →
      (s.call c).2.m_Extensions.m_Items.map EnabledItem.m_Supported =
          s.m_Extensions.m_Items.map EnabledItem.m_Supported ∧
        (s.call c).2.m_Layers.m_Items.map EnabledItem.m_Supported =
          s.m_Layers.m_Items.map EnabledItem.m_Supported) ∧
    (∀ c : DeviceCall, c.isLoadOrReset = false →
      (t.call c).2.m_Extensions.m_Items.map EnabledItem.m_Supported =
        t.m_Extensions.m_Items.map EnabledItem.m_Supported) := by
  refine ⟨?_, ?_, ?_, rfl, ?_, Instance_call_supported s, Device_call_supported t⟩
  · intro name e
    refine ⟨Enable_snapshot v name e, Enable_length v name e, ?_⟩
    intro i it hi
    refine ⟨_, Enable_getElem? v name e i it hi, ?_, ?_, ?_⟩
    · by_cases hc : v.Find name = some i <;> simp [hc]
    · by_cases hc : v.Find name = some i <;> simp [hc]
    · intro hc
      simp [hc]
  · intro name i hf
    obtain ⟨j, it, hk, hj, hname, hfirst⟩ := findLoop_eq_some name v.m_Items 0 i hf
    have hij : i = j := by omega
    subst hij
    exact ⟨⟨it, hj, hname⟩, hfirst⟩
  · intro w
    exact ⟨EnableAll_declaredNames v w, EnableAll_supported v w⟩
  · intro c hr hl
    cases c with
    | Reset => exact absurd rfl hr
    | Enable name enabled => exact Enable_supported v name enabled
    | EnableAll enabled => exact EnableAll_supported v enabled
    | PrepareEnabled => rfl
    | Load props => exact absurd rfl (hl props)

/-- C20 at the sample registry and the sample sessions: `Enable("Z", false)`
clears the enabled flag of `Z` and nothing else, keeping the stale snapshot,
and `PrepareCreation` of either variant changes no supported flag. -/
theorem C20_configuration_keeps_support_witness :
    (sampleRegistry.Enable "Z" false).2.m_Items =
        [ { m_Name := "X", m_Supported := true, m_Enabled := false },
          { m_Name := "Y", m_Supported := false, m_Enabled := false },
          { m_Name := "Z", m_Supported := true, m_Enabled := false } ] ∧
      (sampleRegistry.Enable "Z" false).2.m_EnabledItemNames = ["stale"] ∧
      (sampleInstance.call .PrepareCreation).2.m_Extensions.m_Items.map
          EnabledItem.m_Supported = [true, false, true] ∧
      (sampleDevice.call .PrepareCreation).2.m_Extensions.m_Items.map
          EnabledItem.m_Supported = [true, false, true] := by
  have h := C20_configuration_keeps_support sampleRegistry sampleInstance sampleDevice
  refine ⟨by decide, ?_, ?_, ?_⟩
  · rw [(h.1 "Z" false).1]; rfl
  · rw [(h.2.2.2.2.2.1 .PrepareCreation rfl).1]; decide
  · rw [h.2.2.2.2.2.2 .PrepareCreation rfl]; decide

/-! ## Sequences of calls -/

theorem record_of_isConfiguration (s : InstanceInitHelp) (h : InstanceHistory)
    (c : InstanceCall) (hc : c.isConfiguration = true) : s.record h c = h := by
  cases c <;> first | rfl | simp [InstanceCall.isConfiguration] at hc

/-- Every call of the outer-scope session keeps the flags in agreement with
the history. -/
theorem Instance_call_agrees (s : InstanceInitHelp) (h : InstanceHistory) (c : InstanceCall)
    (hinv : s.Agrees h) : (s.call c).2.Agrees (s.record h c) := by
  obtain ⟨hl, hp, he⟩ := hinv
  by_cases hcfg : c.isConfiguration = true
  · obtain ⟨⟨h1, h2, _, _⟩, h3, _, _, _⟩ := Instance_call_configFrame s c hcfg
    rw [record_of_isConfiguration s h c hcfg]
    exact ⟨by rw [h3, hl], by rw [h2, hp], fun hh => he (by rw [← h1]; exact hh)⟩
  · cases c with
    | Reset => exact ⟨rfl, rfl, fun hh => absurd hh (by simp [InstanceInitHelp.call,
        InstanceInitHelp.Reset, InitHelpBase.Reset])⟩
    | EnumerateExtensions vk =>
      rcases Instance_EnumerateExtensions_shape s vk with h1 | ⟨_, hok, h1⟩
      · simp only [InstanceInitHelp.call, InstanceInitHelp.record]
        rw [h1]
        split
        · exact ⟨hl, hp, fun _ => rfl⟩
        · exact ⟨hl, hp, he⟩
      · simp only [InstanceInitHelp.call, InstanceInitHelp.record]
        rw [h1, if_pos hok]
        exact ⟨hl, hp, fun _ => rfl⟩
    | EnumerateLayers vk =>
      rcases Instance_EnumerateLayers_shape s vk with ⟨hne, h1⟩ | ⟨_, hok, props, h1⟩
      · simp only [InstanceInitHelp.call, InstanceInitHelp.record]
        rw [h1, if_neg hne]
        exact ⟨hl, hp, he⟩
      · simp only [InstanceInitHelp.call, InstanceInitHelp.record]
        rw [h1, if_pos hok]
        exact ⟨rfl, hp, he⟩
    | PrepareCreation =>
      obtain ⟨en, ln, mem, head, h1, _⟩ := Instance_PrepareCreation_shape s
      simp only [InstanceInitHelp.call, InstanceInitHelp.record]
      rw [h1]
      split
      · exact ⟨hl, rfl, he⟩
      · exact ⟨hl, hp, he⟩
    | EnableExtension n e => simp [InstanceCall.isConfiguration] at hcfg
    | EnableAllExtensions e => simp [InstanceCall.isConfiguration] at hcfg
    | EnableLayer n e => simp [InstanceCall.isConfiguration] at hcfg
    | EnableAllLayers e => simp [InstanceCall.isConfiguration] at hcfg
    | EnableFeatureStructByName n e => simp [InstanceCall.isConfiguration] at hcfg
    | EnableFeatureStructByType t e => simp [InstanceCall.isConfiguration] at hcfg
    | EnableAllFeatureStructs e => simp [InstanceCall.isConfiguration] at hcfg

/-- Along every sequence of calls on the outer-scope session the flags stay
in agreement with the history. -/
theorem Instance_run_agrees (calls : List InstanceCall) (s : InstanceInitHelp)
    (h : InstanceHistory) (hinv : s.Agrees h) :
    (s.run calls).2.Agrees (s.history h calls) := by
  induction calls generalizing s h with
  | nil => exact hinv
  | cons c rest ih =>
    have hc := Instance_call_agrees s h c hinv
    cases hr : s.call c with
    | mk r s' =>
      rw [hr] at hc
      cases r with
      | ok u => simpa [InstanceInitHelp.run, InstanceInitHelp.history, hr] using ih s' _ hc
      | error e => simpa [InstanceInitHelp.run, InstanceInitHelp.history, hr] using hc

theorem Instance_run_sameDeclarations (calls : List InstanceCall) (s : InstanceInitHelp) :
    s.SameDeclarations (s.run calls).2 := by
  induction calls generalizing s with
  | nil => exact ⟨rfl, rfl, rfl⟩
  | cons c rest ih =>
    have hc := Instance_call_sameDeclarations s c
    cases hr : s.call c with
    | mk r s' =>
      rw [hr] at hc
      obtain ⟨h1, h2, h3⟩ := hc
      cases r with
      | ok u =>
        obtain ⟨g1, g2, g3⟩ := ih s'
        simp only [InstanceInitHelp.run, hr]
        exact ⟨g1.trans h1, g2.trans h2, g3.trans h3⟩
      | error e =>
        simp only [InstanceInitHelp.run, hr]
        exact ⟨h1, h2, h3⟩

/-- A sequence of calls on the outer-scope session without `Reset` and
`PrepareCreation` leaves what the finalized accessors read. -/
theorem Instance_run_finalizedFrame (calls : List InstanceCall) (s : InstanceInitHelp)
    (hcalls : ∀ c ∈ calls, c.isResetOrPrepare = false) : s.FinalizedFrame (s.run calls).2 := by
  induction calls generalizing s with
  | nil => exact ⟨rfl, rfl, rfl, rfl, rfl⟩
  | cons c rest ih =>
    have hc := Instance_call_finalizedFrame s c (hcalls c (List.mem_cons_self _ _))
    cases hr : s.call c with
    | mk r s' =>
      rw [hr] at hc
      obtain ⟨h1, h2, h3, h4, h5⟩ := hc
      cases r with
      | ok u =>
        obtain ⟨g1, g2, g3, g4, g5⟩ := ih s' (fun x hx => hcalls x (List.mem_cons_of_mem _ hx))
        simp only [InstanceInitHelp.run, hr]
        exact ⟨g1.trans h1, g2.trans h2, g3.trans h3, g4.trans h4, g5.trans h5⟩
      | error e =>
        simp only [InstanceInitHelp.run, hr]
        exact ⟨h1, h2, h3, h4, h5⟩

theorem Device_record_of_isConfiguration (s : DeviceInitHelp) (h : DeviceHistory)
    (c : DeviceCall) (hc : c.isConfiguration = true) : s.record h c = h := by
  cases c <;> first | rfl | simp [DeviceCall.isConfiguration] at hc

/-- Every call of the device-scope session keeps the flags in agreement with
the history. -/
theorem Device_call_agrees (s : DeviceInitHelp) (h : DeviceHistory) (c : DeviceCall)
    (hinv : s.Agrees h) : (s.call c).2.Agrees (s.record h c) := by
  obtain ⟨hq, hp, he⟩ := hinv
  by_cases hcfg : c.isConfiguration = true
  · obtain ⟨⟨h1, h2, _, _⟩, h3, _, _⟩ := Device_call_configFrame s c hcfg
    rw [Device_record_of_isConfiguration s h c hcfg]
    exact ⟨by rw [h3, hq], by rw [h2, hp], fun hh => he (by rw [← h1]; exact hh)⟩
  · cases c with
    | Reset => exact ⟨rfl, rfl, fun hh => absurd hh (by simp [DeviceInitHelp.call,
        DeviceInitHelp.Reset, InitHelpBase.Reset])⟩
    | EnumerateExtensions dev vk =>
      rcases Device_EnumerateExtensions_shape s dev vk with h1 | ⟨_, hok, h1⟩
      · simp only [DeviceInitHelp.call, DeviceInitHelp.record]
        rw [h1]
        split
        · exact ⟨hq, hp, fun _ => rfl⟩
        · exact ⟨hq, hp, he⟩
      · simp only [DeviceInitHelp.call, DeviceInitHelp.record]
        rw [h1, if_pos hok]
        exact ⟨hq, hp, fun _ => rfl⟩
    | GetPhysicalDeviceFeatures dev q =>
      obtain ⟨hagain, mem, head, h1⟩ := Device_GetPhysicalDeviceFeatures_shape s dev q
      simp only [DeviceInitHelp.call, DeviceInitHelp.record]
      rw [h1]
      split
      · exact ⟨rfl, hp, he⟩
      · exact ⟨hq, hp, he⟩
    | PrepareCreation =>
      obtain ⟨en, mem, head, h1, _⟩ := Device_PrepareCreation_shape s
      simp only [DeviceInitHelp.call, DeviceInitHelp.record]
      rw [h1]
      split
      · exact ⟨hq, rfl, he⟩
      · exact ⟨hq, hp, he⟩
    | EnableExtension n e => simp [DeviceCall.isConfiguration] at hcfg
    | EnableAllExtensions e => simp [DeviceCall.isConfiguration] at hcfg
    | EnableFeatureStructByName n e => simp [DeviceCall.isConfiguration] at hcfg
    | EnableFeatureStructByType t e => simp [DeviceCall.isConfiguration] at hcfg
    | EnableAllFeatureStructs e => simp [DeviceCall.isConfiguration] at hcfg

/-- Along every sequence of calls on the device-scope session the flags stay
in agreement with the history. -/
theorem Device_run_agrees (calls : List DeviceCall) (s : DeviceInitHelp)
    (h : DeviceHistory) (hinv : s.Agrees h) :
    (s.run calls).2.Agrees (s.history h calls) := by
  induction calls generalizing s h with
  | nil => exact hinv
  | cons c rest ih =>
    have hc := Device_call_agrees s h c hinv
    cases hr : s.call c with
    | mk r s' =>
      rw [hr] at hc
      cases r with
      | ok u => simpa [DeviceInitHelp.run, DeviceInitHelp.history, hr] using ih s' _ hc
      | error e => simpa [DeviceInitHelp.run, DeviceInitHelp.history, hr] using hc

theorem Device_run_sameDeclarations (calls : List DeviceCall) (s : DeviceInitHelp) :
    s.SameDeclarations (s.run calls).2 := by
  induction calls generalizing s with
  | nil => exact ⟨rfl, rfl⟩
  | cons c rest ih =>
    have hc := Device_call_sameDeclarations s c
    cases hr : s.call c with
    | mk r s' =>
      rw [hr] at hc
      obtain ⟨h1, h2⟩ := hc
      cases r with
      | ok u =>
        obtain ⟨g1, g2⟩ := ih s'
        simp only [DeviceInitHelp.run, hr]
        exact ⟨g1.trans h1, g2.trans h2⟩
      | error e =>
        simp only [DeviceInitHelp.run, hr]
        exact ⟨h1, h2⟩

/-- A sequence of calls on the device-scope session without `Reset` and
`PrepareCreation`, made after the features were queried, leaves what the
finalized accessors read. -/
theorem Device_run_finalizedFrame (calls : List DeviceCall) (s : DeviceInitHelp)
    (hcalls : ∀ c ∈ calls, c.isResetOrPrepare = false)
    (hq : s.m_PhysicalDeviceFeaturesQueried = true) : s.FinalizedFrame (s.run calls).2 := by
  induction calls generalizing s with
  | nil => exact ⟨rfl, rfl, rfl, rfl, rfl⟩
  | cons c rest ih =>
    have hc := Device_call_finalizedFrame s c (hcalls c (List.mem_cons_self _ _)) hq
    cases hr : s.call c with
    | mk r s' =>
      rw [hr] at hc
      obtain ⟨h1, h2, h3, h4, h5⟩ := hc
      cases r with
      | ok u =>
        obtain ⟨g1, g2, g3, g4, g5⟩ := ih s' (fun x hx => hcalls x (List.mem_cons_of_mem _ hx))
          (by rw [h3, hq])
        simp only [DeviceInitHelp.run, hr]
        exact ⟨g1.trans h1, g2.trans h2, g3.trans h3, g4.trans h4, g5.trans h5⟩
      | error e =>
        simp only [DeviceInitHelp.run, hr]
        exact ⟨h1, h2, h3, h4, h5⟩

/-! ## Reset -/

theorem declaredItems_names (names : List String) :
    (declaredItems names).map EnabledItem.m_Name = names := by
  simp [declaredItems, List.map_map, Function.comp_def]

/-- A registry after `Reset` is the freshly constructed registry over its
names. -/
theorem Reset_eq_declared (v : EnabledItemVector) :
    v.Reset = { m_Items := declaredItems v.declaredNames, m_EnabledItemNames := [] } := by
  simp [EnabledItemVector.Reset, declaredItems, declaredNames, List.map_map, Function.comp_def]

theorem Reset_Reset (v : EnabledItemVector) : v.Reset.Reset = v.Reset := by
  simp [EnabledItemVector.Reset, List.map_map, Function.comp_def]

/-- The feature records after `Reset` are the freshly constructed records
over their declarations. -/
theorem enableAll_eq_declared (fs : List FeatureStruct) (decls : List (String × VkStructureType))
    (h : fs.map FeatureStruct.declaration =
      (declaredFeatureStructs decls).map FeatureStruct.declaration) :
    (fs.map fun f => { f with m_Enabled := true }) = declaredFeatureStructs decls := by
  have hmk : ∀ l : List FeatureStruct,
      (l.map FeatureStruct.declaration).map
          (fun p => FeatureStruct.mk p.1 (p.2).1 (p.2).2 true) =
        l.map fun f => { f with m_Enabled := true } := by
    intro l
    simp [List.map_map, Function.comp_def, FeatureStruct.declaration]
  rw [← hmk fs, h, hmk]
  simp [declaredFeatureStructs, List.map_map, Function.comp_def]

theorem Base_Reset_Reset (b : InitHelpBase) : b.Reset.Reset = b.Reset := by
  simp [InitHelpBase.Reset, Reset_Reset, List.map_map, Function.comp_def]

theorem Instance_DeclaredBy_new (d : Declarations) : (InstanceInitHelp.new d).DeclaredBy d :=
  ⟨declaredItems_names _, declaredItems_names _, rfl⟩

theorem Device_DeclaredBy_new (d : Declarations) : (DeviceInitHelp.new d).DeclaredBy d :=
  ⟨declaredItems_names _, rfl⟩

/-- Every state a sequence of calls reaches from the freshly constructed
outer-scope session is over the same declarations. -/
theorem Instance_run_declaredBy (d : Declarations) (calls : List InstanceCall) :
    ((InstanceInitHelp.new d).run calls).2.DeclaredBy d := by
  obtain ⟨h1, h2, h3⟩ := Instance_run_sameDeclarations calls (InstanceInitHelp.new d)
  obtain ⟨g1, g2, g3⟩ := Instance_DeclaredBy_new d
  exact ⟨h1.trans g1, h2.trans g2, h3.trans g3⟩

/-- Every state a sequence of calls reaches from the freshly constructed
device-scope session is over the same declarations. -/
theorem Device_run_declaredBy (d : Declarations) (calls : List DeviceCall) :
    ((DeviceInitHelp.new d).run calls).2.DeclaredBy d := by
  obtain ⟨h1, h2⟩ := Device_run_sameDeclarations calls (DeviceInitHelp.new d)
  obtain ⟨g1, g2⟩ := Device_DeclaredBy_new d
  exact ⟨h1.trans g1, h2.trans g2⟩

/-- C11: from any state of a session over the declarations `d`, and so from
every state a sequence of calls reaches from the constructed session,
`Reset` yields the data members of the freshly constructed session: every
registry item has `supported = false` and `enabled = false`, every feature
record has `enabled = true`, the snapshots are empty, the chain is empty
(null `m_FeaturesChain`, null `m_Features2.pNext`, so that following the
links from the head visits nothing) and the enumerated, features-queried and
creation-prepared flags are false; `Reset` followed by `Reset` equals
`Reset`. The contents of the embedded storage blocks, which no longer
belong to any chain, are left as they are. -/
theorem C11_reset_is_fresh (d : Declarations) :
    (∀ s : InstanceInitHelp, s.DeclaredBy d →
      s.Reset.toInitHelpBase = (InstanceInitHelp.new d).toInitHelpBase ∧
      s.Reset.m_LayersEnumerated = (InstanceInitHelp.new d).m_LayersEnumerated ∧
      s.Reset.m_Layers = (InstanceInitHelp.new d).m_Layers ∧
      s.Reset.m_FeaturesChain = (InstanceInitHelp.new d).m_FeaturesChain ∧
      s.Reset.structs = s.structs) ∧
    (∀ s : InstanceInitHelp,
      s.Reset.Fresh ∧ (∀ f ∈ s.Reset.m_FeatureStructs, f.m_Enabled = true) ∧
      s.Reset.m_Extensions.m_EnabledItemNames = [] ∧ s.Reset.m_Layers.m_EnabledItemNames = [] ∧
      s.Reset.m_FeaturesChain = none ∧
      (∀ fuel, traverse s.Reset.structs fuel s.Reset.m_FeaturesChain = some []) ∧
      s.Reset.Reset = s.Reset) ∧
    (∀ calls : List InstanceCall, ((InstanceInitHelp.new d).run calls).2.DeclaredBy d) ∧
    (∀ t : DeviceInitHelp, t.DeclaredBy d →
      t.Reset.toInitHelpBase = (DeviceInitHelp.new d).toInitHelpBase ∧
      t.Reset.m_PhysicalDeviceFeaturesQueried =
        (DeviceInitHelp.new d).m_PhysicalDeviceFeaturesQueried ∧
      t.Reset.m_Features2 = (DeviceInitHelp.new d).m_Features2 ∧
      t.Reset.structs = t.structs) ∧
    (∀ t : DeviceInitHelp,
      t.Reset.Fresh ∧ (∀ f ∈ t.Reset.m_FeatureStructs, f.m_Enabled = true) ∧
      t.Reset.m_Extensions.m_EnabledItemNames = [] ∧ t.Reset.m_Features2.pNext = none ∧
      (∀ fuel, traverse t.Reset.structs fuel t.Reset.m_Features2.pNext = some []) ∧
      t.Reset.Reset = t.Reset) ∧
    (∀ calls : List DeviceCall, ((DeviceInitHelp.new d).run calls).2.DeclaredBy d) := by
  have hbase : ∀ (b : InitHelpBase) (names : List String)
      (decls : List (String × VkStructureType)),
      b.m_Extensions.declaredNames = names →
      b.m_FeatureStructs.map FeatureStruct.declaration =
        (declaredFeatureStructs decls).map FeatureStruct.declaration →
      b.Reset =
        { m_ExtensionsEnumerated := false, m_CreationPrepared := false,
          m_Extensions := { m_Items := declaredItems names, m_EnabledItemNames := [] },
          m_FeatureStructs := declaredFeatureStructs decls } := by
    intro b names decls hn hf
    simp only [InitHelpBase.Reset, Reset_eq_declared, hn, enableAll_eq_declared _ _ hf]
  have hen : ∀ (b : InitHelpBase), ∀ f ∈ b.Reset.m_FeatureStructs, f.m_Enabled = true := by
    intro b f hf
    simp only [InitHelpBase.Reset, List.mem_map] at hf
    obtain ⟨x, _, rfl⟩ := hf
    rfl
  refine ⟨?_, ?_, Instance_run_declaredBy d, ?_, ?_, Device_run_declaredBy d⟩
  · intro s hs
    obtain ⟨h1, h2, h3⟩ := hs
    refine ⟨hbase _ _ _ h1 h3, rfl, ?_, rfl, rfl⟩
    show s.m_Layers.Reset = _
    rw [Reset_eq_declared, h2]
    rfl
  · intro s
    refine ⟨Instance_Fresh_Reset s, hen s.toInitHelpBase, rfl, rfl, rfl,
      fun fuel => by cases fuel <;> rfl, ?_⟩
    simp [InstanceInitHelp.Reset, Base_Reset_Reset, Reset_Reset]
  · intro t ht
    obtain ⟨h1, h2⟩ := ht
    exact ⟨hbase _ _ _ h1 h2, rfl, rfl, rfl⟩
  · intro t
    refine ⟨Device_Fresh_Reset t, hen t.toInitHelpBase, rfl, rfl,
      fun fuel => by cases fuel <;> rfl, ?_⟩
    simp [DeviceInitHelp.Reset, Base_Reset_Reset]

/-- C11 on sessions taken to the finalized state: after `Reset` the data
members are those of the freshly constructed session, while the storage
block of `R2` still holds the link to `R1` that `PrepareCreation` wrote. -/
theorem C11_reset_is_fresh_witness :
    (((InstanceInitHelp.new sampleDeclarations).run sampleInstanceCalls).1 = .ok () ∧
      ((InstanceInitHelp.new sampleDeclarations).run sampleInstanceCalls).2.m_CreationPrepared =
        true ∧
      ((InstanceInitHelp.new sampleDeclarations).run
          sampleInstanceCalls).2.Reset.toInitHelpBase =
        (InstanceInitHelp.new sampleDeclarations).toInitHelpBase ∧
      (((InstanceInitHelp.new sampleDeclarations).run
          sampleInstanceCalls).2.Reset.structs 1).pNext = some 0) ∧
    (((DeviceInitHelp.new sampleDeclarations).run sampleDeviceCalls).1 = .ok () ∧
      ((DeviceInitHelp.new sampleDeclarations).run sampleDeviceCalls).2.Reset.toInitHelpBase =
        (DeviceInitHelp.new sampleDeclarations).toInitHelpBase) := by
  have h := C11_reset_is_fresh sampleDeclarations
  exact ⟨⟨by decide, by decide, (h.1 _ (h.2.2.1 sampleInstanceCalls)).1, by decide⟩,
    by decide, (h.2.2.2.1 _ (h.2.2.2.2.2 sampleDeviceCalls)).1⟩

/-! ## Lifecycle -/

/-- The finalized accessors of the base class and of the outer-scope
session, by the creation-prepared flag. -/
theorem Instance_accessors_by_flag (s : InstanceInitHelp) :
    (s.m_CreationPrepared = false →
      s.GetEnabledExtensionCount = .error .prepareCreationFirst ∧
      s.GetEnabledExtensionNames = .error .prepareCreationFirst ∧
      s.GetEnabledLayerCount = .error .prepareCreationFirst ∧
      s.GetEnabledLayerNames = .error .prepareCreationFirst ∧
      s.GetFeaturesChain = .error .prepareCreationFirst) ∧
    (s.m_CreationPrepared = true →
      s.GetEnabledExtensionCount = .ok s.m_Extensions.m_EnabledItemNames.length ∧
      s.GetEnabledExtensionNames =
        .ok (if s.m_Extensions.m_EnabledItemNames.isEmpty then none
          else some s.m_Extensions.m_EnabledItemNames) ∧
      s.GetEnabledLayerCount = .ok s.m_Layers.m_EnabledItemNames.length ∧
      s.GetEnabledLayerNames =
        .ok (if s.m_Layers.m_EnabledItemNames.isEmpty then none
          else some s.m_Layers.m_EnabledItemNames) ∧
      s.GetFeaturesChain = .ok s.m_FeaturesChain) := by
  constructor
  · intro h
    simp [InitHelpBase.GetEnabledExtensionCount, InitHelpBase.GetEnabledExtensionNames,
      InstanceInitHelp.GetEnabledLayerCount, InstanceInitHelp.GetEnabledLayerNames,
      InstanceInitHelp.GetFeaturesChain, h]
  · intro h
    simp [InitHelpBase.GetEnabledExtensionCount, InitHelpBase.GetEnabledExtensionNames,
      InstanceInitHelp.GetEnabledLayerCount, InstanceInitHelp.GetEnabledLayerNames,
      InstanceInitHelp.GetFeaturesChain, h]

/-- The finalized accessors of the device-scope session, by the
creation-prepared flag. -/
theorem Device_accessors_by_flag (s : DeviceInitHelp) :
    (s.m_CreationPrepared = false →
      s.GetEnabledExtensionCount = .error .prepareCreationFirst ∧
      s.GetEnabledExtensionNames = .error .prepareCreationFirst ∧
      s.GetFeaturesChain = .error .prepareCreationFirst) ∧
    (s.m_CreationPrepared = true →
      s.GetEnabledExtensionCount = .ok s.m_Extensions.m_EnabledItemNames.length ∧
      s.GetEnabledExtensionNames =
        .ok (if s.m_Extensions.m_EnabledItemNames.isEmpty then none
          else some s.m_Extensions.m_EnabledItemNames) ∧
      s.GetFeaturesChain = .ok s.m_Features2) := by
  constructor
  · intro h
    simp [InitHelpBase.GetEnabledExtensionCount, InitHelpBase.GetEnabledExtensionNames,
      DeviceInitHelp.GetFeaturesChain, h]
  · intro h
    simp [InitHelpBase.GetEnabledExtensionCount, InitHelpBase.GetEnabledExtensionNames,
      DeviceInitHelp.GetFeaturesChain, h]

theorem Instance_Agrees_new (d : Declarations) :
    (InstanceInitHelp.new d).Agrees InstanceHistory.initial :=
  ⟨rfl, rfl, fun h => absurd h (by simp [InstanceInitHelp.new])⟩

theorem Device_Agrees_new (d : Declarations) :
    (DeviceInitHelp.new d).Agrees DeviceHistory.initial :=
  ⟨rfl, rfl, fun h => absurd h (by simp [DeviceInitHelp.new])⟩

/-- C12: for every session, in the state `s` (`t` for the device variant)
that any sequence of calls has reached from construction, with the history
`h` of that sequence, each finalized accessor (`GetEnabledExtensionCount`,
`GetEnabledExtensionNames`, `GetEnabledLayerCount`, `GetEnabledLayerNames`,
`GetFeaturesChain` of both variants) fails with "You need to call
PrepareCreation first" if and only if no `PrepareCreation` has completed
since construction or since the last `Reset`; otherwise it returns what the
session stores. -/
theorem C12_accessors_need_prepareCreation (d : Declarations)
    (calls : List InstanceCall) (s : InstanceInitHelp) (h : InstanceHistory)
    (dcalls : List DeviceCall) (t : DeviceInitHelp) (k : DeviceHistory)
    (hs : ((InstanceInitHelp.new d).run calls).2 = s)
    (hh : (InstanceInitHelp.new d).history InstanceHistory.initial calls = h)
    (ht : ((DeviceInitHelp.new d).run dcalls).2 = t)
    (hk : (DeviceInitHelp.new d).history DeviceHistory.initial dcalls = k) :
    ((s.GetEnabledExtensionCount = .error .prepareCreationFirst ↔ h.creationPrepared = false) ∧
      (s.GetEnabledExtensionNames = .error .prepareCreationFirst ↔
        h.creationPrepared = false) ∧
      (s.GetEnabledLayerCount = .error .prepareCreationFirst ↔ h.creationPrepared = false) ∧
      (s.GetEnabledLayerNames = .error .prepareCreationFirst ↔ h.creationPrepared = false) ∧
      (s.GetFeaturesChain = .error .prepareCreationFirst ↔ h.creationPrepared = false) ∧
      (h.creationPrepared = true →
        s.GetEnabledExtensionCount = .ok s.m_Extensions.m_EnabledItemNames.length ∧
        s.GetEnabledExtensionNames =
          .ok (if s.m_Extensions.m_EnabledItemNames.isEmpty then none
            else some s.m_Extensions.m_EnabledItemNames) ∧
        s.GetEnabledLayerCount = .ok s.m_Layers.m_EnabledItemNames.length ∧
        s.GetEnabledLayerNames =
          .ok (if s.m_Layers.m_EnabledItemNames.isEmpty then none
            else some s.m_Layers.m_EnabledItemNames) ∧
        s.GetFeaturesChain = .ok s.m_FeaturesChain)) ∧
    ((t.GetEnabledExtensionCount = .error .prepareCreationFirst ↔ k.creationPrepared = false) ∧
      (t.GetEnabledExtensionNames = .error .prepareCreationFirst ↔
        k.creationPrepared = false) ∧
      (t.GetFeaturesChain = .error .prepareCreationFirst ↔ k.creationPrepared = false) ∧
      (k.creationPrepared = true →
        t.GetEnabledExtensionCount = .ok t.m_Extensions.m_EnabledItemNames.length ∧
        t.GetEnabledExtensionNames =
          .ok (if t.m_Extensions.m_EnabledItemNames.isEmpty then none
            else some t.m_Extensions.m_EnabledItemNames) ∧
        t.GetFeaturesChain = .ok t.m_Features2)) := by
  have hsa : s.Agrees h := by
    rw [← hs, ← hh]
    exact Instance_run_agrees calls _ _ (Instance_Agrees_new d)
  have hta : t.Agrees k := by
    rw [← ht, ← hk]
    exact Device_run_agrees dcalls _ _ (Device_Agrees_new d)
  obtain ⟨_, hsp, _⟩ := hsa
  obtain ⟨_, htp, _⟩ := hta
  obtain ⟨hsF, hsT⟩ := Instance_accessors_by_flag s
  obtain ⟨htF, htT⟩ := Device_accessors_by_flag t
  rw [← hsp, ← htp]
  refine ⟨?_, ?_⟩
  · cases hflag : s.m_CreationPrepared with
    | false =>
      obtain ⟨a1, a2, a3, a4, a5⟩ := hsF hflag
      simp [a1, a2, a3, a4, a5]
    | true =>
      obtain ⟨a1, a2, a3, a4, a5⟩ := hsT hflag
      simp only [a1, a2, a3, a4, a5]
      simp
  · cases hflag : t.m_CreationPrepared with
    | false =>
      obtain ⟨a1, a2, a3⟩ := htF hflag
      simp [a1, a2, a3]
    | true =>
      obtain ⟨a1, a2, a3⟩ := htT hflag
      simp only [a1, a2, a3]
      simp

/-- C12 on the sample sequences of calls: without their final
`PrepareCreation` the accessors fail, with it they return the snapshot (the
single enabled extension `Z`, the single layer `L2`) and the head of the
chain; and after a further `Reset` they fail again. -/
theorem C12_accessors_need_prepareCreation_witness :
    (((InstanceInitHelp.new sampleDeclarations).run
        sampleInstanceCalls.dropLast).2.GetEnabledExtensionCount =
      .error .prepareCreationFirst) ∧
    (((InstanceInitHelp.new sampleDeclarations).run
        sampleInstanceCalls).2.GetEnabledExtensionNames = .ok (some ["Z"]) ∧
      ((InstanceInitHelp.new sampleDeclarations).run
        sampleInstanceCalls).2.GetEnabledLayerCount = .ok 1 ∧
      ((InstanceInitHelp.new sampleDeclarations).run
        sampleInstanceCalls).2.GetFeaturesChain = .ok (some 1)) ∧
    (((InstanceInitHelp.new sampleDeclarations).run
        (sampleInstanceCalls ++ [.Reset])).2.GetFeaturesChain = .error .prepareCreationFirst) ∧
    (((DeviceInitHelp.new sampleDeclarations).run sampleDeviceCalls).2.GetFeaturesChain =
      .ok { sType := VK_STRUCTURE_TYPE_PHYSICAL_DEVICE_FEATURES_2, pNext := some 2 }) := by
  have h1 := (C12_accessors_need_prepareCreation sampleDeclarations
    sampleInstanceCalls.dropLast _ _ sampleDeviceCalls _ _ rfl rfl rfl rfl).1.1.2 (by decide)
  have h2 := C12_accessors_need_prepareCreation sampleDeclarations
    sampleInstanceCalls _ _ sampleDeviceCalls _ _ rfl rfl rfl rfl
  have h3 := (C12_accessors_need_prepareCreation sampleDeclarations
    (sampleInstanceCalls ++ [.Reset]) _ _ sampleDeviceCalls _ _ rfl rfl rfl
    rfl).1.2.2.2.2.1.2 (by decide)
  obtain ⟨_, a2, a3, _, a5⟩ := h2.1.2.2.2.2.2 (by decide)
  obtain ⟨_, _, b3⟩ := h2.2.2.2.2 (by decide)
  refine ⟨h1, ⟨?_, ?_, ?_⟩, h3, ?_⟩
  · rw [a2]; decide
  · rw [a3]; decide
  · rw [a5]; decide
  · rw [b3]; decide

/-! ## The tag check of the chain loops -/

theorem setNext_sType (mem : StructMemory) (p : Nat) (x : Option Nat) (a : Nat) :
    (setNext mem p x a).sType = (mem a).sType := by
  by_cases h : a = p <;> simp [setNext, h]

/-- The chain-building loop fails, with the tag assertion, exactly when some
enabled record carries a wrong tag; otherwise it completes. -/
theorem linkLoop_outcome (fs : List FeatureStruct) (mem : StructMemory) (head : Option Nat) :
    ((linkLoop fs mem head).1 = .error .structTypeMismatch ↔ TagMismatch fs mem) ∧
      ((linkLoop fs mem head).1 = .ok () ↔ ¬ TagMismatch fs mem) := by
  induction fs generalizing mem head with
  | nil => simp [linkLoop, TagMismatch]
  | cons f rest ih =>
    have hrest : ∀ x : Option Nat,
        TagMismatch rest (setNext mem f.m_StructPtr x) ↔ TagMismatch rest mem := by
      intro x
      simp only [TagMismatch, setNext_sType]
    have hcons : TagMismatch (f :: rest) mem ↔
        (f.m_Enabled = true ∧ (mem f.m_StructPtr).sType ≠ f.m_sType) ∨ TagMismatch rest mem := by
      simp [TagMismatch]
    by_cases he : f.m_Enabled = true
    · by_cases ht : (mem f.m_StructPtr).sType = f.m_sType
      · have h1 := ih (setNext mem f.m_StructPtr head) (some f.m_StructPtr)
        rw [hrest] at h1
        simp only [linkLoop, he, ht, if_true]
        rw [hcons]
        simpa [he, ht] using h1
      · simp only [linkLoop, he, ht, if_true, if_false]
        rw [hcons]
        simp [he, ht]
    · have h1 := ih mem head
      simp only [linkLoop, he]
      rw [hcons]
      simpa [he] using h1

/-- The outcome of the outer-scope `PrepareCreation`, when its entry
assertions hold, is the outcome of its chain loop. -/
theorem Instance_PrepareCreation_outcome (s : InstanceInitHelp) (hr : s.Ready) :
    (s.PrepareCreation).1 = (linkLoop s.m_FeatureStructs s.structs none).1 := by
  obtain ⟨hl, he, hie, hil⟩ := hr
  cases hlk : (linkLoop s.m_FeatureStructs s.structs none).1 with
  | ok u =>
    simp only [InstanceInitHelp.PrepareCreation, hl, if_true,
      InitHelpBase.PrepareEnabledExtensionNames, he, PrepareEnabled_ok _ hie,
      PrepareEnabled_ok _ hil, Instance_chainLoop_eq, hlk]
  | error e =>
    simp only [InstanceInitHelp.PrepareCreation, hl, if_true,
      InitHelpBase.PrepareEnabledExtensionNames, he, PrepareEnabled_ok _ hie,
      PrepareEnabled_ok _ hil, Instance_chainLoop_eq, hlk]

/-- The outcome of the device-scope `PrepareCreation`, when its entry
assertions hold, is the outcome of its chain loop. -/
theorem Device_PrepareCreation_outcome (s : DeviceInitHelp) (hr : s.Ready) :
    (s.PrepareCreation).1 = (linkLoop s.m_FeatureStructs s.structs none).1 := by
  obtain ⟨he, hq, hf, hie⟩ := hr
  cases hlk : (linkLoop s.m_FeatureStructs s.structs none).1 with
  | ok u =>
    simp only [DeviceInitHelp.PrepareCreation, he, hq, if_true,
      InitHelpBase.PrepareEnabledExtensionNames, PrepareEnabled_ok _ hie,
      Device_chainLoop_eq, hlk, hf, ne_eq, not_true_eq_false, if_false]
  | error e =>
    simp only [DeviceInitHelp.PrepareCreation, he, hq, if_true,
      InitHelpBase.PrepareEnabledExtensionNames, PrepareEnabled_ok _ hie,
      Device_chainLoop_eq, hlk, hf, ne_eq, not_true_eq_false, if_false]

/-- The member `GetPhysicalDeviceFeatures` when its entry assertions hold:
its outcome is the outcome of its chain loop, and when that completes the
collaborator is handed `m_Features2` with the head of the chain the loop
built, over the storage the loop left. -/
theorem Device_GetPhysicalDeviceFeatures_eval (s : DeviceInitHelp) (dev : VkPhysicalDevice)
    (q : VkPhysicalDevice → VkBaseInStructure → StructMemory → StructMemory)
    (hdev : dev ≠ 0) (hq : s.m_PhysicalDeviceFeaturesQueried = false)
    (hf : s.m_Features2.sType = VK_STRUCTURE_TYPE_PHYSICAL_DEVICE_FEATURES_2) :
    (s.GetPhysicalDeviceFeatures dev q).1 = (linkLoop s.m_FeatureStructs s.structs none).1 ∧
    ((linkLoop s.m_FeatureStructs s.structs none).1 = .ok () →
      s.GetPhysicalDeviceFeatures dev q =
        (.ok (),
          { s with
            m_PhysicalDeviceFeaturesQueried := true
            m_Features2 :=
              { s.m_Features2 with pNext := (linkLoop s.m_FeatureStructs s.structs none).2.2 }
            structs :=
              q dev
                { s.m_Features2 with
                  pNext := (linkLoop s.m_FeatureStructs s.structs none).2.2 }
                (linkLoop s.m_FeatureStructs s.structs none).2.1 })) := by
  cases hlk : (linkLoop s.m_FeatureStructs s.structs none).1 with
  | ok u =>
    constructor
    · simp [DeviceInitHelp.GetPhysicalDeviceFeatures, hdev, hq, hf, Device_queryChainLoop_eq,
        hlk]
    · intro _
      simp [DeviceInitHelp.GetPhysicalDeviceFeatures, hdev, hq, hf, Device_queryChainLoop_eq,
        hlk]
  | error e =>
    constructor
    · simp [DeviceInitHelp.GetPhysicalDeviceFeatures, hdev, hq, hf, Device_queryChainLoop_eq,
        hlk]
    · intro h
      exact absurd h (by simp)

/-- C16: building the feature chain fails with the tag assertion if and only
if some enabled record has a storage block whose embedded tag differs from
the declared tag of the record, and completes otherwise; a mismatch in a
disabled record is not looked at. This holds for each of the three loops
from any state, and for `PrepareCreation` of either variant and
`GetPhysicalDeviceFeatures` whenever their entry assertions hold. -/
theorem C16_chain_fails_iff_tag_mismatch (s : InstanceInitHelp) (t : DeviceInitHelp)
    (dev : VkPhysicalDevice)
    (q : VkPhysicalDevice → VkBaseInStructure → StructMemory → StructMemory) :
    (∀ fs : List FeatureStruct,
      ((InstanceInitHelp.chainLoop fs s).1 = .error .structTypeMismatch ↔
          TagMismatch fs s.structs) ∧
        ((InstanceInitHelp.chainLoop fs s).1 = .ok () ↔ ¬ TagMismatch fs s.structs) ∧
      ((DeviceInitHelp.chainLoop fs t).1 = .error .structTypeMismatch ↔
          TagMismatch fs t.structs) ∧
        ((DeviceInitHelp.chainLoop fs t).1 = .ok () ↔ ¬ TagMismatch fs t.structs) ∧
      ((DeviceInitHelp.queryChainLoop fs t).1 = .error .structTypeMismatch ↔
          TagMismatch fs t.structs) ∧
        ((DeviceInitHelp.queryChainLoop fs t).1 = .ok () ↔ ¬ TagMismatch fs t.structs)) ∧
    (s.Ready →
      ((s.PrepareCreation).1 = .error .structTypeMismatch ↔
          TagMismatch s.m_FeatureStructs s.structs) ∧
        ((s.PrepareCreation).1 = .ok () ↔ ¬ TagMismatch s.m_FeatureStructs s.structs)) ∧
    (t.Ready →
      ((t.PrepareCreation).1 = .error .structTypeMismatch ↔
          TagMismatch t.m_FeatureStructs t.structs) ∧
        ((t.PrepareCreation).1 = .ok () ↔ ¬ TagMismatch t.m_FeatureStructs t.structs)) ∧
    (dev ≠ 0 → t.m_PhysicalDeviceFeaturesQueried = false →
      t.m_Features2.sType = VK_STRUCTURE_TYPE_PHYSICAL_DEVICE_FEATURES_2 →
      ((t.GetPhysicalDeviceFeatures dev q).1 = .error .structTypeMismatch ↔
          TagMismatch t.m_FeatureStructs t.structs) ∧
        ((t.GetPhysicalDeviceFeatures dev q).1 = .ok () ↔
          ¬ TagMismatch t.m_FeatureStructs t.structs)) := by
  refine ⟨?_, ?_, ?_, ?_⟩
  · intro fs
    rw [Instance_chainLoop_eq, Device_chainLoop_eq, Device_queryChainLoop_eq]
    exact ⟨(linkLoop_outcome fs s.structs _).1, (linkLoop_outcome fs s.structs _).2,
      (linkLoop_outcome fs t.structs _).1, (linkLoop_outcome fs t.structs _).2,
      (linkLoop_outcome fs t.structs _).1, (linkLoop_outcome fs t.structs _).2⟩
  · intro hr
    rw [Instance_PrepareCreation_outcome s hr]
    exact linkLoop_outcome _ _ _
  · intro hr
    rw [Device_PrepareCreation_outcome t hr]
    exact linkLoop_outcome _ _ _
  · intro hdev hq hf
    rw [(Device_GetPhysicalDeviceFeatures_eval t dev q hdev hq hf).1]
    exact linkLoop_outcome _ _ _

/-- C16 on a session whose record `R2` has the tag `99` in its storage
block: `PrepareCreation` fails with the tag assertion while `R2` is enabled
and completes once `R2` is disabled. -/
theorem C16_chain_fails_iff_tag_mismatch_witness :
    (mismatchedInstance.PrepareCreation).1 = .error .structTypeMismatch ∧
      (mismatchedDisabledInstance.PrepareCreation).1 = .ok () :=
  ⟨((C16_chain_fails_iff_tag_mismatch mismatchedInstance sampleDevice 1
        sampleFeatureQuery).2.1 ⟨rfl, rfl, by decide, by decide⟩).1.2
      ⟨{ m_Name := "R2", m_sType := 12, m_StructPtr := 1, m_Enabled := true },
        by decide, rfl, by decide⟩,
    ((C16_chain_fails_iff_tag_mismatch mismatchedDisabledInstance sampleDevice 1
        sampleFeatureQuery).2.1 ⟨rfl, rfl, by decide, by decide⟩).2.2
      (by unfold TagMismatch; decide)⟩

/-- The outer-scope `PrepareCreation` when a discovery is missing: it fails
at the assertion of the missing step and changes nothing. -/
theorem Instance_PrepareCreation_missing (s : InstanceInitHelp) :
    (s.m_LayersEnumerated = false →
      s.PrepareCreation = (.error .enumerateLayersFirst, s)) ∧
    (s.m_LayersEnumerated = true → s.m_ExtensionsEnumerated = false →
      s.PrepareCreation = (.error .enumerateExtensionsFirst, s)) := by
  constructor
  · intro hl
    simp [InstanceInitHelp.PrepareCreation, hl]
  · intro hl he
    rcases s with ⟨b, le, la, ch, st⟩
    simp_all [InstanceInitHelp.PrepareCreation, InitHelpBase.PrepareEnabledExtensionNames]

/-- The device-scope `PrepareCreation` when a predecessor step is missing. -/
theorem Device_PrepareCreation_missing (s : DeviceInitHelp) :
    (s.m_ExtensionsEnumerated = false →
      s.PrepareCreation = (.error .enumerateExtensionsFirst, s)) ∧
    (s.m_ExtensionsEnumerated = true → s.m_PhysicalDeviceFeaturesQueried = false →
      s.PrepareCreation = (.error .getPhysicalDeviceFeaturesFirst, s)) := by
  constructor
  · intro he
    simp [DeviceInitHelp.PrepareCreation, he]
  · intro he hq
    rcases s with ⟨b, qd, f2, st⟩
    simp_all [DeviceInitHelp.PrepareCreation]

/-- In a freshly constructed session every storage block carries the
declared tag of its record. -/
theorem declared_no_mismatch (decls : List (String × VkStructureType)) :
    ¬ TagMismatch (declaredFeatureStructs decls) (declaredStorage decls) := by
  rintro ⟨f, hf, _, hne⟩
  simp only [declaredFeatureStructs, List.mem_map] at hf
  obtain ⟨⟨i, de⟩, hmem, rfl⟩ := hf
  have hi : decls[i]? = some de := List.mk_mem_enum_iff_getElem?.1 hmem
  simp [declaredStorage, hi] at hne

/-- C13: `PrepareCreation` requires both of its predecessor steps. In the
state `s` that any sequence of calls has reached from construction, with
history `h`: the outer-scope `PrepareCreation` completes, setting the
creation-prepared flag, only if an `EnumerateExtensions` and an
`EnumerateLayers` have returned `VK_SUCCESS` since construction or the last
`Reset`, and it fails fatally, changing nothing, if either is missing.
Likewise in the device-scope state `t` with history `k`, for
`EnumerateExtensions` and `GetPhysicalDeviceFeatures`. The member
`GetPhysicalDeviceFeatures` does not look at extension discovery: its
outcome is the same whatever the extensions-enumerated flag, and on the
freshly constructed session it completes. -/
theorem C13_prepareCreation_needs_predecessors (d : Declarations)
    (calls : List InstanceCall) (s : InstanceInitHelp) (h : InstanceHistory)
    (dcalls : List DeviceCall) (t : DeviceInitHelp) (k : DeviceHistory)
    (hs : ((InstanceInitHelp.new d).run calls).2 = s)
    (hh : (InstanceInitHelp.new d).history InstanceHistory.initial calls = h)
    (ht : ((DeviceInitHelp.new d).run dcalls).2 = t)
    (hk : (DeviceInitHelp.new d).history DeviceHistory.initial dcalls = k) :
    (((s.PrepareCreation).1 = .ok () →
        h.extensionsDiscovered = true ∧ h.layersDiscovered = true ∧
        (s.PrepareCreation).2.m_CreationPrepared = true) ∧
      (h.layersDiscovered = false → s.PrepareCreation = (.error .enumerateLayersFirst, s)) ∧
      (h.extensionsDiscovered = false →
        s.PrepareCreation = (.error .enumerateLayersFirst, s) ∨
        s.PrepareCreation = (.error .enumerateExtensionsFirst, s))) ∧
    (((t.PrepareCreation).1 = .ok () →
        k.extensionsDiscovered = true ∧ k.featuresQueried = true ∧
        (t.PrepareCreation).2.m_CreationPrepared = true) ∧
      (k.extensionsDiscovered = false →
        t.PrepareCreation = (.error .enumerateExtensionsFirst, t)) ∧
      (k.featuresQueried = false →
        t.PrepareCreation = (.error .enumerateExtensionsFirst, t) ∨
        t.PrepareCreation = (.error .getPhysicalDeviceFeaturesFirst, t))) ∧
    (∀ (dev : VkPhysicalDevice)
        (q : VkPhysicalDevice → VkBaseInStructure → StructMemory → StructMemory) (b : Bool),
      (DeviceInitHelp.GetPhysicalDeviceFeatures { t with m_ExtensionsEnumerated := b } dev q).1 =
        (t.GetPhysicalDeviceFeatures dev q).1) ∧
    (∀ (dev : VkPhysicalDevice)
        (q : VkPhysicalDevice → VkBaseInStructure → StructMemory → StructMemory),
      dev ≠ 0 →
      ((DeviceInitHelp.new d).GetPhysicalDeviceFeatures dev q).1 = .ok () ∧
        ((DeviceInitHelp.new d).GetPhysicalDeviceFeatures dev q).2.m_ExtensionsEnumerated =
          false) := by
  have hsa : s.Agrees h := by
    rw [← hs, ← hh]
    exact Instance_run_agrees calls _ _ (Instance_Agrees_new d)
  have hta : t.Agrees k := by
    rw [← ht, ← hk]
    exact Device_run_agrees dcalls _ _ (Device_Agrees_new d)
  obtain ⟨hsl, _, hse⟩ := hsa
  obtain ⟨htq, _, hte⟩ := hta
  refine ⟨⟨?_, ?_, ?_⟩, ⟨?_, ?_, ?_⟩, ?_, ?_⟩
  · intro hok
    obtain ⟨en, ln, mem, head, hshape, hflags⟩ := Instance_PrepareCreation_shape s
    obtain ⟨hl, he⟩ := hflags hok
    refine ⟨hse he, by rw [← hsl]; exact hl, ?_⟩
    rw [hshape, if_pos hok]
  · intro hl
    exact (Instance_PrepareCreation_missing s).1 (by rw [hsl]; exact hl)
  · intro he
    have hflag : s.m_ExtensionsEnumerated = false := by
      cases hx : s.m_ExtensionsEnumerated with
      | false => rfl
      | true => rw [hse hx] at he; exact absurd he (by decide)
    cases hl : s.m_LayersEnumerated with
    | false => exact Or.inl ((Instance_PrepareCreation_missing s).1 hl)
    | true => exact Or.inr ((Instance_PrepareCreation_missing s).2 hl hflag)
  · intro hok
    obtain ⟨en, mem, head, hshape, hflags⟩ := Device_PrepareCreation_shape t
    obtain ⟨he, hq⟩ := hflags hok
    refine ⟨hte he, by rw [← htq]; exact hq, ?_⟩
    rw [hshape, if_pos hok]
  · intro he
    have hflag : t.m_ExtensionsEnumerated = false := by
      cases hx : t.m_ExtensionsEnumerated with
      | false => rfl
      | true => rw [hte hx] at he; exact absurd he (by decide)
    exact (Device_PrepareCreation_missing t).1 hflag
  · intro hq
    have hq' : t.m_PhysicalDeviceFeaturesQueried = false := by rw [htq]; exact hq
    cases he : t.m_ExtensionsEnumerated with
    | false => exact Or.inl ((Device_PrepareCreation_missing t).1 he)
    | true => exact Or.inr ((Device_PrepareCreation_missing t).2 he hq')
  · intro dev q b
    by_cases hdev : dev = 0
    · simp [DeviceInitHelp.GetPhysicalDeviceFeatures, hdev]
    by_cases hq : t.m_PhysicalDeviceFeaturesQueried = true
    · simp [DeviceInitHelp.GetPhysicalDeviceFeatures, hdev, hq]
    by_cases hf : t.m_Features2.sType = VK_STRUCTURE_TYPE_PHYSICAL_DEVICE_FEATURES_2
    · have hq' : t.m_PhysicalDeviceFeaturesQueried = false := by simpa using hq
      rw [(Device_GetPhysicalDeviceFeatures_eval t dev q hdev hq' hf).1,
        (Device_GetPhysicalDeviceFeatures_eval _ dev q hdev
          (show (DeviceInitHelp.mk { t.toInitHelpBase with m_ExtensionsEnumerated := b }
            t.m_PhysicalDeviceFeaturesQueried t.m_Features2
            t.structs).m_PhysicalDeviceFeaturesQueried = false from hq') hf).1]
    · simp [DeviceInitHelp.GetPhysicalDeviceFeatures, hdev, hq, hf]
  · intro dev q hdev
    have hev := Device_GetPhysicalDeviceFeatures_eval (DeviceInitHelp.new d) dev q hdev rfl rfl
    have hok : (linkLoop (DeviceInitHelp.new d).m_FeatureStructs (DeviceInitHelp.new d).structs
        none).1 = .ok () :=
      (linkLoop_outcome _ _ _).2.2 (declared_no_mismatch d.deviceFeatureStructs)
    refine ⟨by rw [hev.1, hok], ?_⟩
    rw [hev.2 hok]
    rfl

/-- C13 on concrete sequences of calls: after extension discovery alone the
outer-scope `PrepareCreation` fails with "You should call EnumerateLayers
first"; after the feature query alone the device-scope `PrepareCreation`
fails with "You need to call EnumerateExtensions first", the feature query
itself having completed without extension discovery; and after the sample
sequence `PrepareCreation` completes and sets the flag. -/
theorem C13_prepareCreation_needs_predecessors_witness :
    (((InstanceInitHelp.new sampleDeclarations).run
        [.EnumerateExtensions (.success ["X"])]).2.PrepareCreation).1 =
      .error .enumerateLayersFirst ∧
    (((DeviceInitHelp.new sampleDeclarations).run
        [.GetPhysicalDeviceFeatures 1 sampleFeatureQuery]).2.PrepareCreation).1 =
      .error .enumerateExtensionsFirst ∧
    ((DeviceInitHelp.new sampleDeclarations).GetPhysicalDeviceFeatures 1
        sampleFeatureQuery).1 = .ok () ∧
    (((InstanceInitHelp.new sampleDeclarations).run
        sampleInstanceCalls.dropLast).2.PrepareCreation).2.m_CreationPrepared = true := by
  have h := C13_prepareCreation_needs_predecessors sampleDeclarations
    [.EnumerateExtensions (.success ["X"])] _ _
    [.GetPhysicalDeviceFeatures 1 sampleFeatureQuery] _ _ rfl rfl rfl rfl
  have h' := C13_prepareCreation_needs_predecessors sampleDeclarations
    sampleInstanceCalls.dropLast _ _ sampleDeviceCalls _ _ rfl rfl rfl rfl
  exact ⟨congrArg Prod.fst (h.1.2.1 (by decide)), congrArg Prod.fst (h.2.1.2.1 (by decide)),
    (h.2.2.2 1 sampleFeatureQuery (by decide)).1, (h'.1.1 (by decide)).2.2⟩

/-- C15: after `PrepareCreation` has completed (state `s1`, `t1` for the
device variant), for every sequence of calls made afterwards that contains
neither `PrepareCreation` nor `Reset` (so for every sequence of
configuration calls: `Enable` / `EnableAll` on extensions or layers,
`EnableFeatureStruct`, `EnableAllFeatureStructs`), whether or not a call of
the sequence fails, the finalized accessors return in the state reached
(`s2`, `t2`) what they returned right after `PrepareCreation`: the
enabled-name snapshots (count and names) and the feature chain (head and
links in the storage). -/
theorem C15_finalized_accessors_are_snapshots
    (s0 s1 s2 : InstanceInitHelp) (calls : List InstanceCall)
    (t0 t1 t2 : DeviceInitHelp) (dcalls : List DeviceCall)
    (hs0 : (s0.PrepareCreation).1 = .ok ()) (hs1 : (s0.PrepareCreation).2 = s1)
    (hcalls : ∀ c ∈ calls, c.isResetOrPrepare = false) (hs2 : (s1.run calls).2 = s2)
    (ht0 : (t0.PrepareCreation).1 = .ok ()) (ht1 : (t0.PrepareCreation).2 = t1)
    (hdcalls : ∀ c ∈ dcalls, c.isResetOrPrepare = false) (ht2 : (t1.run dcalls).2 = t2) :
    (s2.GetEnabledExtensionCount = s1.GetEnabledExtensionCount ∧
      s2.GetEnabledExtensionNames = s1.GetEnabledExtensionNames ∧
      s2.GetEnabledLayerCount = s1.GetEnabledLayerCount ∧
      s2.GetEnabledLayerNames = s1.GetEnabledLayerNames ∧
      s2.GetFeaturesChain = s1.GetFeaturesChain ∧
      s2.structs = s1.structs ∧
      s1.GetEnabledExtensionCount = .ok s1.m_Extensions.m_EnabledItemNames.length ∧
      s1.GetEnabledLayerCount = .ok s1.m_Layers.m_EnabledItemNames.length ∧
      s1.GetFeaturesChain = .ok s1.m_FeaturesChain) ∧
    (t2.GetEnabledExtensionCount = t1.GetEnabledExtensionCount ∧
      t2.GetEnabledExtensionNames = t1.GetEnabledExtensionNames ∧
      t2.GetFeaturesChain = t1.GetFeaturesChain ∧
      t2.structs = t1.structs ∧
      t1.GetEnabledExtensionCount = .ok t1.m_Extensions.m_EnabledItemNames.length ∧
      t1.GetFeaturesChain = .ok t1.m_Features2) ∧
    (∀ c : InstanceCall, c.isConfiguration = true → c.isResetOrPrepare = false) ∧
    (∀ c : DeviceCall, c.isConfiguration = true → c.isResetOrPrepare = false) := by
  refine ⟨?_, ?_, ?_, ?_⟩
  · obtain ⟨en, ln, mem, head, hshape, _⟩ := Instance_PrepareCreation_shape s0
    have hcp : s1.m_CreationPrepared = true := by
      rw [← hs1, hshape, if_pos hs0]
    obtain ⟨f1, f2, f3, f4, f5⟩ := Instance_run_finalizedFrame calls s1 hcalls
    rw [hs2] at f1 f2 f3 f4 f5
    obtain ⟨a1, _, a3, _, a5⟩ := (Instance_accessors_by_flag s1).2 hcp
    refine ⟨?_, ?_, ?_, ?_, ?_, f5, a1, a3, a5⟩
    · simp [InitHelpBase.GetEnabledExtensionCount, f1, f2]
    · simp [InitHelpBase.GetEnabledExtensionNames, f1, f2]
    · simp [InstanceInitHelp.GetEnabledLayerCount, f1, f3]
    · simp [InstanceInitHelp.GetEnabledLayerNames, f1, f3]
    · simp [InstanceInitHelp.GetFeaturesChain, f1, f4]
  · obtain ⟨en, mem, head, hshape, hflags⟩ := Device_PrepareCreation_shape t0
    have hcp : t1.m_CreationPrepared = true := by
      rw [← ht1, hshape, if_pos ht0]
    have hq : t1.m_PhysicalDeviceFeaturesQueried = true := by
      rw [← ht1, hshape]
      exact (hflags ht0).2
    obtain ⟨f1, f2, _, f4, f5⟩ := Device_run_finalizedFrame dcalls t1 hdcalls hq
    rw [ht2] at f1 f2 f4 f5
    obtain ⟨a1, _, a3⟩ := (Device_accessors_by_flag t1).2 hcp
    refine ⟨?_, ?_, ?_, f5, a1, a3⟩
    · simp [InitHelpBase.GetEnabledExtensionCount, f1, f2]
    · simp [InitHelpBase.GetEnabledExtensionNames, f1, f2]
    · simp [DeviceInitHelp.GetFeaturesChain, f1, f4]
  · intro c hc
    cases c <;> first | rfl | simp [InstanceCall.isConfiguration] at hc
  · intro c hc
    cases c <;> first | rfl | simp [DeviceCall.isConfiguration] at hc

/-- C15 on the sample sessions: after `PrepareCreation`, disabling every
extension, layer and feature record (and asking for an undeclared name,
which fails) leaves the accessors returning the snapshot `X`, `Z` and the
chain head `R2`; a further feature query on the device session, which fails,
leaves its chain head `C`. -/
theorem C15_finalized_accessors_are_snapshots_witness :
    ((sampleInstance.PrepareCreation).2.run
        [.EnableAllExtensions false, .EnableAllLayers false, .EnableAllFeatureStructs false,
          .EnableExtension "W" true]).2.GetEnabledExtensionNames = .ok (some ["X", "Z"]) ∧
    ((sampleInstance.PrepareCreation).2.run
        [.EnableAllExtensions false, .EnableAllLayers false, .EnableAllFeatureStructs false,
          .EnableExtension "W" true]).2.GetFeaturesChain = .ok (some 1) ∧
    ((sampleDevice.PrepareCreation).2.run
        [.EnableAllFeatureStructs false,
          .GetPhysicalDeviceFeatures 1 sampleFeatureQuery]).2.GetFeaturesChain =
      .ok { sType := VK_STRUCTURE_TYPE_PHYSICAL_DEVICE_FEATURES_2, pNext := some 2 } := by
  have h := C15_finalized_accessors_are_snapshots sampleInstance _ _
    [.EnableAllExtensions false, .EnableAllLayers false, .EnableAllFeatureStructs false,
      .EnableExtension "W" true]
    sampleDevice _ _
    [.EnableAllFeatureStructs false, .GetPhysicalDeviceFeatures 1 sampleFeatureQuery]
    (by decide) rfl (by decide) rfl (by decide) rfl
    (by intro c hc; simp at hc; rcases hc with rfl | rfl <;> rfl) rfl
  refine ⟨?_, ?_, ?_⟩
  · rw [h.1.2.1]; decide
  · rw [h.1.2.2.2.2.1]; decide
  · rw [h.2.1.2.2.1]; decide

/-! ## Lookup of feature records -/

/-- Lookup by name of a record of a list with pairwise distinct names
returns the position of that record. -/
theorem findByNameLoop_of_mem (l : List FeatureStruct) (r : FeatureStruct) (i : Nat)
    (hr : r ∈ l) (hd : (l.map FeatureStruct.m_Name).Nodup) :
    InitHelpBase.findByNameLoop r.m_Name l i = some (i + l.indexOf r) := by
  induction l generalizing i with
  | nil => simp at hr
  | cons f rest ih =>
    simp only [List.map_cons, List.nodup_cons] at hd
    by_cases hk : f.m_Name = r.m_Name
    · have hfr : f = r := by
        rcases List.mem_cons.1 hr with h | h
        · exact h.symm
        · exact absurd (List.mem_map.2 ⟨r, h, hk.symm⟩) hd.1
      simp [InitHelpBase.findByNameLoop, hk, List.indexOf_cons_eq _ hfr]
    · have hfr : f ≠ r := fun h => hk (by rw [h])
      have hmem : r ∈ rest := by
        rcases List.mem_cons.1 hr with h | h
        · exact absurd h.symm hfr
        · exact h
      simp only [InitHelpBase.findByNameLoop, hk, if_false]
      rw [ih (i + 1) hmem hd.2, List.indexOf_cons_ne _ hfr]
      congr 1
      omega

/-- Lookup by tag of a record of a list with pairwise distinct tags returns
the position of that record. -/
theorem findByTypeLoop_of_mem (l : List FeatureStruct) (r : FeatureStruct) (i : Nat)
    (hr : r ∈ l) (hd : (l.map FeatureStruct.m_sType).Nodup) :
    InitHelpBase.findByTypeLoop r.m_sType l i = some (i + l.indexOf r) := by
  induction l generalizing i with
  | nil => simp at hr
  | cons f rest ih =>
    simp only [List.map_cons, List.nodup_cons] at hd
    by_cases hk : f.m_sType = r.m_sType
    · have hfr : f = r := by
        rcases List.mem_cons.1 hr with h | h
        · exact h.symm
        · exact absurd (List.mem_map.2 ⟨r, h, hk.symm⟩) hd.1
      simp [InitHelpBase.findByTypeLoop, hk, List.indexOf_cons_eq _ hfr]
    · have hfr : f ≠ r := fun h => hk (by rw [h])
      have hmem : r ∈ rest := by
        rcases List.mem_cons.1 hr with h | h
        · exact absurd h.symm hfr
        · exact h
      simp only [InitHelpBase.findByTypeLoop, hk, if_false]
      rw [ih (i + 1) hmem hd.2, List.indexOf_cons_ne _ hfr]
      congr 1
      omega

/-- C14, as the claim states it, fails: in the device-scope session over
declarations that declare a structure and its alias (two names, one
`sType`), after the record `FKHR` was disabled by name, the record `FKHR`
is in the list, lookup by its name finds it (disabled) and lookup by its tag
finds the record `F` (enabled); and enabling by the tag of `FKHR` leaves
`FKHR` disabled where enabling by its name enables it. -/
theorem C14_name_and_tag_lookup_differ :
    ({ m_Name := "FKHR", m_sType := 7, m_StructPtr := 1, m_Enabled := false } : FeatureStruct) ∈
        aliasDevice.m_FeatureStructs ∧
      aliasDevice.IsFeatureStructEnabledByName "FKHR" = .ok false ∧
      aliasDevice.IsFeatureStructEnabledByType 7 = .ok true ∧
      (aliasDevice.EnableFeatureStructByName "FKHR" true).2.m_FeatureStructs.map
          FeatureStruct.m_Enabled = [true, true] ∧
      (aliasDevice.EnableFeatureStructByType 7 true).2.m_FeatureStructs.map
          FeatureStruct.m_Enabled = [true, false] := by
  decide

/-- C14, amended: for every feature-record list whose names are pairwise
distinct and whose tags are pairwise distinct, and every record `r` in it,
lookup by the name of `r` and lookup by the tag of `r` return the same
position, the one of `r`; so `IsFeatureStructEnabled` by name and by tag both
return the enabled flag of `r`, and `EnableFeatureStruct` by name and by tag
have the same outcome and leave the same state. -/
theorem C14_name_and_tag_lookup_agree (b : InitHelpBase) (r : FeatureStruct)
    (hr : r ∈ b.m_FeatureStructs)
    (hn : (b.m_FeatureStructs.map FeatureStruct.m_Name).Nodup)
    (ht : (b.m_FeatureStructs.map FeatureStruct.m_sType).Nodup) :
    b.FindFeatureStructByName r.m_Name = b.FindFeatureStructByType r.m_sType ∧
    (∃ i, b.FindFeatureStructByName r.m_Name = some i ∧ b.m_FeatureStructs[i]? = some r) ∧
    b.IsFeatureStructEnabledByName r.m_Name = .ok r.m_Enabled ∧
    b.IsFeatureStructEnabledByType r.m_sType = .ok r.m_Enabled ∧
    ∀ v, b.EnableFeatureStructByName r.m_Name v = b.EnableFeatureStructByType r.m_sType v := by
  have h1 : b.FindFeatureStructByName r.m_Name = some (b.m_FeatureStructs.indexOf r) := by
    simpa [InitHelpBase.FindFeatureStructByName] using
      findByNameLoop_of_mem b.m_FeatureStructs r 0 hr hn
  have h2 : b.FindFeatureStructByType r.m_sType = some (b.m_FeatureStructs.indexOf r) := by
    simpa [InitHelpBase.FindFeatureStructByType] using
      findByTypeLoop_of_mem b.m_FeatureStructs r 0 hr ht
  have h3 : b.m_FeatureStructs[b.m_FeatureStructs.indexOf r]? = some r :=
    List.getElem?_indexOf hr
  have h4 : b.featureStructAt (b.m_FeatureStructs.indexOf r) = r := by
    simp [InitHelpBase.featureStructAt, List.getD, h3]
  refine ⟨by rw [h1, h2], ⟨_, h1, h3⟩, ?_, ?_, ?_⟩
  · simp [InitHelpBase.IsFeatureStructEnabledByName, h1, h4]
  · simp [InitHelpBase.IsFeatureStructEnabledByType, h2, h4]
  · intro v
    simp [InitHelpBase.EnableFeatureStructByName, InitHelpBase.EnableFeatureStructByType, h1, h2]

/-- C14, amended, on the sample device session, whose records `A`, `B`, `C`
have the distinct tags `21`, `22`, `23`: the disabled record `B` is reported
disabled by name and by tag. -/
theorem C14_name_and_tag_lookup_agree_witness :
    sampleDevice.IsFeatureStructEnabledByName "B" = .ok false ∧
      sampleDevice.IsFeatureStructEnabledByType 22 = .ok false ∧
      sampleDevice.EnableFeatureStructByName "B" true =
        sampleDevice.EnableFeatureStructByType 22 true := by
  have h := C14_name_and_tag_lookup_agree sampleDevice.toInitHelpBase
    { m_Name := "B", m_sType := 22, m_StructPtr := 1, m_Enabled := false }
    (by decide) (by decide) (by decide)
  exact ⟨h.2.2.1, h.2.2.2.1, h.2.2.2.2 true⟩

/-! ## The three copies of the chain loop -/

/-- C19: the three copies of the chain-building loop compute the same
function: run on the same records, storage and head they have the same
outcome and leave the same storage and head. So for the device-scope
session `t` whose entry assertions for `GetPhysicalDeviceFeatures` hold, and
sessions `t'`, `s` that may run `PrepareCreation` over the same records and
storage, the three members have the same outcome, and when they complete
the feature-query collaborator is handed `m_Features2` with a head `head`
over a storage `mem` that are exactly the head and storage
`DeviceInitHelp::PrepareCreation` and `InstanceInitHelp::PrepareCreation`
leave; when the storage blocks are pairwise distinct, following the links
from that head visits the blocks of the currently enabled records in the
reverse of declaration order. -/
theorem C19_three_loops_agree (s : InstanceInitHelp) (t t' : DeviceInitHelp)
    (dev : VkPhysicalDevice)
    (q : VkPhysicalDevice → VkBaseInStructure → StructMemory → StructMemory) :
    (∀ fs : List FeatureStruct, s.structs = t.structs →
      s.m_FeaturesChain = t.m_Features2.pNext →
      DeviceInitHelp.queryChainLoop fs t = DeviceInitHelp.chainLoop fs t ∧
      (InstanceInitHelp.chainLoop fs s).1 = (DeviceInitHelp.chainLoop fs t).1 ∧
      (InstanceInitHelp.chainLoop fs s).2.structs = (DeviceInitHelp.chainLoop fs t).2.structs ∧
      (InstanceInitHelp.chainLoop fs s).2.m_FeaturesChain =
        (DeviceInitHelp.chainLoop fs t).2.m_Features2.pNext) ∧
    (dev ≠ 0 → t.m_PhysicalDeviceFeaturesQueried = false →
      t.m_Features2.sType = VK_STRUCTURE_TYPE_PHYSICAL_DEVICE_FEATURES_2 →
      t'.Ready → t'.m_FeatureStructs = t.m_FeatureStructs → t'.structs = t.structs →
      s.Ready → s.m_FeatureStructs = t.m_FeatureStructs → s.structs = t.structs →
      (t.GetPhysicalDeviceFeatures dev q).1 = (t'.PrepareCreation).1 ∧
      (t.GetPhysicalDeviceFeatures dev q).1 = (s.PrepareCreation).1 ∧
      ((t.GetPhysicalDeviceFeatures dev q).1 = .ok () →
        ∃ (mem : StructMemory) (head : Option Nat),
          (t.GetPhysicalDeviceFeatures dev q).2.structs =
            q dev { sType := VK_STRUCTURE_TYPE_PHYSICAL_DEVICE_FEATURES_2, pNext := head } mem ∧
          (t.GetPhysicalDeviceFeatures dev q).2.m_Features2.pNext = head ∧
          (t'.PrepareCreation).2.structs = mem ∧
          (t'.PrepareCreation).2.m_Features2.pNext = head ∧
          (s.PrepareCreation).2.structs = mem ∧
          (s.PrepareCreation).2.m_FeaturesChain = head ∧
          ((t.m_FeatureStructs.map FeatureStruct.m_StructPtr).Nodup →
            ∀ fuel, t.m_FeatureStructs.length ≤ fuel →
              traverse mem fuel head = some (enabledPtrs t.m_FeatureStructs).reverse))) := by
  refine ⟨?_, ?_⟩
  · intro fs hmem hhead
    rw [Device_queryChainLoop_eq, Device_chainLoop_eq, Instance_chainLoop_eq, hmem, hhead]
    exact ⟨rfl, rfl, rfl, rfl⟩
  · intro hdev hq hf hr' hfs' hmem' hr hfs hmem
    obtain ⟨hev1, hev2⟩ := Device_GetPhysicalDeviceFeatures_eval t dev q hdev hq hf
    have ho' := Device_PrepareCreation_outcome t' hr'
    have ho := Instance_PrepareCreation_outcome s hr
    rw [hfs', hmem'] at ho'
    rw [hfs, hmem] at ho
    refine ⟨by rw [hev1, ho'], by rw [hev1, ho], ?_⟩
    intro hok
    have hlk : (linkLoop t.m_FeatureStructs t.structs none).1 = .ok () := by
      rw [← hev1]; exact hok
    have hE' := Device_PrepareCreation_ok t' hr' (by rw [hfs', hmem']; exact hlk)
    have hE := Instance_PrepareCreation_ok s hr (by rw [hfs, hmem]; exact hlk)
    refine ⟨(linkLoop t.m_FeatureStructs t.structs none).2.1,
      (linkLoop t.m_FeatureStructs t.structs none).2.2, ?_, ?_, ?_, ?_, ?_, ?_, ?_⟩
    · rw [hev2 hlk]
      simp only [hf]
    · rw [hev2 hlk]
    · rw [hE', hfs', hmem']
    · rw [hE', hfs', hmem']
    · rw [hE, hfs, hmem]
    · rw [hE, hfs, hmem]
    · intro hnodup fuel hfuel
      have hnm : ¬ TagMismatch t.m_FeatureStructs t.structs :=
        (linkLoop_outcome _ _ none).2.1 hlk
      have htag : ∀ f ∈ t.m_FeatureStructs, f.m_Enabled = true →
          (t.structs f.m_StructPtr).sType = f.m_sType := by
        intro f hfm hen
        by_contra hne
        exact hnm ⟨f, hfm, hen, hne⟩
      obtain ⟨_, hchain⟩ := linkLoop_chain t.m_FeatureStructs t.structs none [] hnodup
        (fun _ _ => List.not_mem_nil _) htag rfl
      rw [List.append_nil] at hchain
      refine traverse_of_isChain _ _ _ fuel hchain (Nat.le_trans ?_ hfuel)
      simp only [enabledPtrs, List.length_reverse, List.length_map]
      exact List.length_filter_le _ _

/-- C19 on three sessions over the records `A`, `B`, `C`, all enabled, and
one storage: `GetPhysicalDeviceFeatures` and `PrepareCreation` of both
variants complete, and the chains of the two `PrepareCreation` members, the
ones handed to the collaborator, run `C`, `B`, `A`. -/
theorem C19_three_loops_agree_witness :
    (unqueriedDevice.GetPhysicalDeviceFeatures 1 sampleFeatureQuery).1 = .ok () ∧
    (queriedDevice.PrepareCreation).1 = .ok () ∧
    (sameRecordsInstance.PrepareCreation).1 = .ok () ∧
    traverse (queriedDevice.PrepareCreation).2.structs 3
        (queriedDevice.PrepareCreation).2.m_Features2.pNext = some [2, 1, 0] ∧
    traverse (sameRecordsInstance.PrepareCreation).2.structs 3
        (sameRecordsInstance.PrepareCreation).2.m_FeaturesChain = some [2, 1, 0] := by
  have h := (C19_three_loops_agree sameRecordsInstance unqueriedDevice queriedDevice 1
    sampleFeatureQuery).2 (by decide) rfl rfl ⟨rfl, rfl, rfl, by decide⟩ (by decide) rfl
    ⟨rfl, rfl, by decide, by decide⟩ rfl rfl
  have hok : (unqueriedDevice.GetPhysicalDeviceFeatures 1 sampleFeatureQuery).1 = .ok () := by
    decide
  obtain ⟨mem, head, _, _, e3, e4, e5, e6, htrav⟩ := h.2.2 hok
  have ht := htrav (by decide) 3 (by decide)
  refine ⟨hok, by rw [← h.1]; exact hok, by rw [← h.2.1]; exact hok, ?_, ?_⟩
  · rw [e3, e4, ht]; decide
  · rw [e5, e6, ht]; decide

/-! ## Loading as a function of the set of reported names -/

/-- Two lists with the same names load the same items. -/
theorem loadNames_congr (L1 L2 : List String) (items : List EnabledItem)
    (hset : ∀ n, n ∈ L1 ↔ n ∈ L2) : loadNames L1 items = loadNames L2 items := by
  rw [loadNames_eq_map, loadNames_eq_map]
  apply List.map_congr_left
  intro it _
  by_cases h : it.m_Name ∈ L1
  · rw [if_pos h, if_pos ((hset _).1 h)]
  · rw [if_neg h, if_neg (fun h2 => h ((hset _).2 h2))]

/-- Loading a list a second time changes nothing. -/
theorem loadNames_idem (L : List String) (items : List EnabledItem) :
    loadNames L (loadNames L items) = loadNames L items := by
  rw [loadNames_eq_map, loadNames_eq_map, List.map_map]
  apply List.map_congr_left
  intro it _
  by_cases h : it.m_Name ∈ L <;> simp [h]

/-- What loading leaves at each position: the same name, and flags that are
true where they were true. -/
theorem loadNames_getElem? (L : List String) (items : List EnabledItem) (i : Nat)
    (it : EnabledItem) (hi : items[i]? = some it) :
    ∃ it' : EnabledItem, (loadNames L items)[i]? = some it' ∧ it'.m_Name = it.m_Name ∧
      (it.m_Supported = true → it'.m_Supported = true) ∧
      (it.m_Enabled = true → it'.m_Enabled = true) ∧
      (it.m_Name ∈ L → it'.m_Supported = true ∧ it'.m_Enabled = true) ∧
      (it.m_Name ∉ L → it' = it) := by
  rw [loadNames_eq_map, List.getElem?_map, hi]
  by_cases h : it.m_Name ∈ L
  · exact ⟨_, rfl, by simp [h], by simp [h], by simp [h], by simp [h], fun hn => absurd h hn⟩
  · exact ⟨_, rfl, by simp [h], by simp [h], by simp [h], fun hn => absurd hn h, by simp [h]⟩

/-- C21: discovery loading depends only on the set of reported names. For
every state and any two reported lists `L1`, `L2` that contain the same
names, in any order and with any repetitions, `LoadExtensions` and
`LoadLayers` (and `EnumerateExtensions` of both variants and
`EnumerateLayers` on a successful report of the lists) return the same
outcome and state. Loading is monotone: it adds and removes no item, keeps
every name, and leaves true every supported and enabled flag that was true.
Loading the same list twice gives the same items as loading it once, for
the two nested loops themselves, for `LoadLayers`, and for `LoadExtensions`,
whose second call fails its only-once assertion and changes nothing. -/
theorem C21_loading_depends_on_name_set (b : InitHelpBase) (s : InstanceInitHelp)
    (t : DeviceInitHelp) (dev : VkPhysicalDevice) (L1 L2 : List String)
    (hset : ∀ n, n ∈ L1 ↔ n ∈ L2) :
    (b.LoadExtensions L1 = b.LoadExtensions L2 ∧ s.LoadLayers L1 = s.LoadLayers L2 ∧
      s.EnumerateExtensions (.success L1) = s.EnumerateExtensions (.success L2) ∧
      s.EnumerateLayers (.success L1) = s.EnumerateLayers (.success L2) ∧
      t.EnumerateExtensions dev (.success L1) = t.EnumerateExtensions dev (.success L2)) ∧
    ((b.LoadExtensions L1).2.m_Extensions.declaredNames = b.m_Extensions.declaredNames ∧
      (∀ (i : Nat) (it : EnabledItem), b.m_Extensions.m_Items[i]? = some it →
        ∃ it' : EnabledItem, (b.LoadExtensions L1).2.m_Extensions.m_Items[i]? = some it' ∧
          it'.m_Name = it.m_Name ∧ (it.m_Supported = true → it'.m_Supported = true) ∧
          (it.m_Enabled = true → it'.m_Enabled = true)) ∧
      (s.LoadLayers L1).m_Layers.declaredNames = s.m_Layers.declaredNames ∧
      (∀ (i : Nat) (it : EnabledItem), s.m_Layers.m_Items[i]? = some it →
        ∃ it' : EnabledItem, (s.LoadLayers L1).m_Layers.m_Items[i]? = some it' ∧
          it'.m_Name = it.m_Name ∧ (it.m_Supported = true → it'.m_Supported = true) ∧
          (it.m_Enabled = true → it'.m_Enabled = true))) ∧
    ((∀ items : List EnabledItem, loadNames L1 (loadNames L1 items) = loadNames L1 items) ∧
      (s.LoadLayers L1).LoadLayers L1 = s.LoadLayers L1 ∧
      ((b.LoadExtensions L1).2.LoadExtensions L1).2 = (b.LoadExtensions L1).2) := by
  have hnil : L1 = [] ↔ L2 = [] := by
    constructor
    · intro h
      subst h
      cases L2 with
      | nil => rfl
      | cons a r => exact absurd ((hset a).2 (List.mem_cons_self _ _)) (List.not_mem_nil _)
    · intro h
      subst h
      cases L1 with
      | nil => rfl
      | cons a r => exact absurd ((hset a).1 (List.mem_cons_self _ _)) (List.not_mem_nil _)
  have hlen : (L1.length = 0) ↔ (L2.length = 0) := by
    rw [List.length_eq_zero, List.length_eq_zero]; exact hnil
  have hLoadE : b.LoadExtensions L1 = b.LoadExtensions L2 := by
    simp only [InitHelpBase.LoadExtensions, loadNames_congr L1 L2 _ hset]
  have hLoadE' : ∀ b' : InitHelpBase, b'.LoadExtensions L1 = b'.LoadExtensions L2 := by
    intro b'
    simp only [InitHelpBase.LoadExtensions, loadNames_congr L1 L2 _ hset]
  have hLoadL : s.LoadLayers L1 = s.LoadLayers L2 := by
    simp only [InstanceInitHelp.LoadLayers, loadNames_congr L1 L2 _ hset]
  refine ⟨⟨hLoadE, hLoadL, ?_, ?_, ?_⟩, ⟨?_, ?_, ?_, ?_⟩, ⟨loadNames_idem L1, ?_, ?_⟩⟩
  · by_cases h1 : L1.length = 0
    · have h2 := hlen.1 h1
      simp [InstanceInitHelp.EnumerateExtensions, EnumerateReply.success, h1, h2]
    · have h2 : ¬ L2.length = 0 := fun h => h1 (hlen.2 h)
      simp [InstanceInitHelp.EnumerateExtensions, EnumerateReply.success, h1, h2,
        hLoadE' s.toInitHelpBase]
  · by_cases h1 : L1.length = 0
    · have h2 := hlen.1 h1
      simp [InstanceInitHelp.EnumerateLayers, EnumerateReply.success, h1, h2]
    · have h2 : ¬ L2.length = 0 := fun h => h1 (hlen.2 h)
      simp [InstanceInitHelp.EnumerateLayers, EnumerateReply.success, h1, h2, hLoadL]
  · by_cases h1 : L1.length = 0
    · have h2 := hlen.1 h1
      simp [DeviceInitHelp.EnumerateExtensions, EnumerateReply.success, h1, h2]
    · have h2 : ¬ L2.length = 0 := fun h => h1 (hlen.2 h)
      simp [DeviceInitHelp.EnumerateExtensions, EnumerateReply.success, h1, h2,
        hLoadE' t.toInitHelpBase]
  · rcases LoadExtensions_shape b L1 with ⟨_, h⟩ | ⟨_, h⟩
    · rw [h]
    · rw [h]; exact loadNames_names _ _
  · intro i it hi
    rcases LoadExtensions_shape b L1 with ⟨_, h⟩ | ⟨_, h⟩
    · rw [h]; exact ⟨it, hi, rfl, id, id⟩
    · rw [h]
      obtain ⟨it', h1, h2, h3, h4, _⟩ := loadNames_getElem? L1 _ i it hi
      exact ⟨it', h1, h2, h3, h4⟩
  · exact loadNames_names _ _
  · intro i it hi
    obtain ⟨it', h1, h2, h3, h4, _⟩ := loadNames_getElem? L1 _ i it hi
    exact ⟨it', h1, h2, h3, h4⟩
  · simp only [InstanceInitHelp.LoadLayers, loadNames_idem]
  · rcases LoadExtensions_shape b L1 with ⟨hflag, h⟩ | ⟨_, h⟩
    · rw [h, h]
    · rw [h]
      simp [InitHelpBase.LoadExtensions]

/-- C21 on the sample registry state (`X`, `Z` supported, `Z` enabled) taken
as the layers of a session: loading `Y`, `Y`, `X` and loading `X`, `Y`
leave the same session, in which `Z` is still supported and enabled and `X`
and `Y` have become so. -/
theorem C21_loading_depends_on_name_set_witness :
    InstanceInitHelp.LoadLayers { sampleInstance with m_Layers := sampleRegistry } ["Y", "Y", "X"] =
        InstanceInitHelp.LoadLayers { sampleInstance with m_Layers := sampleRegistry } ["X", "Y"] ∧
      (InstanceInitHelp.LoadLayers { sampleInstance with m_Layers := sampleRegistry }
          ["Y", "Y", "X"]).m_Layers.m_Items =
        [ { m_Name := "X", m_Supported := true, m_Enabled := true },
          { m_Name := "Y", m_Supported := true, m_Enabled := true },
          { m_Name := "Z", m_Supported := true, m_Enabled := true } ] :=
  ⟨(C21_loading_depends_on_name_set sampleInstance.toInitHelpBase
      { sampleInstance with m_Layers := sampleRegistry } sampleDevice 1 ["Y", "Y", "X"]
      ["X", "Y"] (by simp [List.mem_cons, or_comm, or_left_comm])).1.2.1,
    by decide⟩

/-! ## Enabling feature records -/

theorem findByNameLoop_eq_findFirstFrom (name : String) (l : List FeatureStruct) (i : Nat) :
    InitHelpBase.findByNameLoop name l i =
      findFirstFrom (fun f => decide (f.m_Name = name)) l i := by
  induction l generalizing i with
  | nil => rfl
  | cons f rest ih =>
    by_cases h : f.m_Name = name <;> simp [InitHelpBase.findByNameLoop, findFirstFrom, h, ih]

theorem findByTypeLoop_eq_findFirstFrom (sType : VkStructureType) (l : List FeatureStruct)
    (i : Nat) :
    InitHelpBase.findByTypeLoop sType l i =
      findFirstFrom (fun f => decide (f.m_sType = sType)) l i := by
  induction l generalizing i with
  | nil => rfl
  | cons f rest ih =>
    by_cases h : f.m_sType = sType <;> simp [InitHelpBase.findByTypeLoop, findFirstFrom, h, ih]

theorem findFirstFrom_eq_none_iff (p : FeatureStruct → Bool) (l : List FeatureStruct)
    (i : Nat) : findFirstFrom p l i = none ↔ ∀ f ∈ l, p f = false := by
  induction l generalizing i with
  | nil => simp [findFirstFrom]
  | cons f rest ih =>
    cases h : p f <;> simp [findFirstFrom, h, ih]

theorem findFirstFrom_eq_some (p : FeatureStruct → Bool) (l : List FeatureStruct) (i k : Nat)
    (h : findFirstFrom p l i = some k) :
    ∃ j f, k = i + j ∧ l[j]? = some f ∧ p f = true ∧
      ∀ j', j' < j → ∀ g, l[j']? = some g → p g = false := by
  induction l generalizing i with
  | nil => simp [findFirstFrom] at h
  | cons f rest ih =>
    cases hp : p f with
    | true =>
      refine ⟨0, f, ?_, by simp, hp, ?_⟩
      · simpa [findFirstFrom, hp] using h.symm
      · intro j' hj'; omega
    | false =>
      simp only [findFirstFrom, hp] at h
      obtain ⟨j, g, hk, hj, hg, hfirst⟩ := ih (i + 1) (by simpa using h)
      refine ⟨j + 1, g, by omega, by simpa using hj, hg, ?_⟩
      intro j' hj' x hx
      cases j' with
      | zero =>
        simp at hx
        subst hx
        exact hp
      | succ j'' =>
        simp at hx
        exact hfirst j'' (by omega) x hx

theorem findFirstFrom_congr (p : FeatureStruct → Bool) (l l' : List FeatureStruct) (i : Nat)
    (h : l.map p = l'.map p) : findFirstFrom p l i = findFirstFrom p l' i := by
  induction l generalizing l' i with
  | nil =>
    cases l' with
    | nil => rfl
    | cons a t => simp at h
  | cons f rest ih =>
    cases l' with
    | nil => simp at h
    | cons a t =>
      simp only [List.map_cons, List.cons.injEq] at h
      simp only [findFirstFrom, h.1]
      rw [ih t (i + 1) h.2]

/-- Lookup by a test that does not look at the enabled flag, followed by the
assignment of the enabled flag at the index found: the index holds the
first record that passes the test, the assignment rewrites that record
only, and the same lookup afterwards finds the same index. -/
theorem findFirst_then_set (p : FeatureStruct → Bool)
    (hp : ∀ (f : FeatureStruct) (v : Bool), p { f with m_Enabled := v } = p f)
    (b : InitHelpBase) (i : Nat) (h : findFirstFrom p b.m_FeatureStructs 0 = some i) :
    ∃ f, b.m_FeatureStructs[i]? = some f ∧ p f = true ∧
      (∀ j, j < i → ∀ g, b.m_FeatureStructs[j]? = some g → p g = false) ∧
      b.featureStructAt i = f ∧
      ∀ v,
        b.setFeatureStructEnabledAt i v =
          { b with m_FeatureStructs := b.m_FeatureStructs.set i { f with m_Enabled := v } } ∧
        findFirstFrom p (b.setFeatureStructEnabledAt i v).m_FeatureStructs 0 = some i ∧
        (b.setFeatureStructEnabledAt i v).featureStructAt i = { f with m_Enabled := v } ∧
        ∀ j, j ≠ i →
          (b.setFeatureStructEnabledAt i v).m_FeatureStructs[j]? = b.m_FeatureStructs[j]? := by
  obtain ⟨j, f, hk, hj, hpf, hfirst⟩ := findFirstFrom_eq_some p b.m_FeatureStructs 0 i h
  have hij : i = j := by omega
  subst hij
  have hat : b.featureStructAt i = f := by
    simp [InitHelpBase.featureStructAt, List.getD, hj]
  have hlt : i < b.m_FeatureStructs.length := by
    rcases Nat.lt_or_ge i b.m_FeatureStructs.length with hh | hh
    · exact hh
    · simp [List.getElem?_eq_none hh] at hj
  refine ⟨f, hj, hpf, hfirst, hat, ?_⟩
  intro v
  have hset : b.setFeatureStructEnabledAt i v =
      { b with m_FeatureStructs := b.m_FeatureStructs.set i { f with m_Enabled := v } } := by
    simp [InitHelpBase.setFeatureStructEnabledAt, hat]
  refine ⟨hset, ?_, ?_, ?_⟩
  · rw [hset, ← h]
    apply findFirstFrom_congr
    apply map_set_of_eq
    intro a ha
    rw [hj] at ha
    rw [← Option.some.inj ha]
    exact hp f v
  · rw [hset]
    simp [InitHelpBase.featureStructAt, List.getD, hlt]
  · intro j hji
    rw [hset]
    exact List.getElem?_set_ne (fun e => hji e.symm)

/-- Lookup after `EnableAllFeatureStructs(v)` finds the same index, and the
record there has `enabled = v`. -/
theorem findFirst_EnableAllFeatureStructs (p : FeatureStruct → Bool)
    (hp : ∀ (f : FeatureStruct) (v : Bool), p { f with m_Enabled := v } = p f)
    (b : InitHelpBase) (v : Bool) (i : Nat)
    (h : findFirstFrom p b.m_FeatureStructs 0 = some i) :
    findFirstFrom p (b.EnableAllFeatureStructs v).m_FeatureStructs 0 = some i ∧
      ((b.EnableAllFeatureStructs v).featureStructAt i).m_Enabled = v := by
  obtain ⟨j, f, hk, hj, _, _⟩ := findFirstFrom_eq_some p b.m_FeatureStructs 0 i h
  have hij : i = j := by omega
  subst hij
  constructor
  · rw [← h]
    apply findFirstFrom_congr
    simp [InitHelpBase.EnableAllFeatureStructs, List.map_map, Function.comp_def, hp]
  · simp [InitHelpBase.EnableAllFeatureStructs, InitHelpBase.featureStructAt, List.getD,
      List.getElem?_map, hj]

theorem FindFeatureStructByName_eq (b : InitHelpBase) (name : String) :
    b.FindFeatureStructByName name =
      findFirstFrom (fun f => decide (f.m_Name = name)) b.m_FeatureStructs 0 :=
  findByNameLoop_eq_findFirstFrom name b.m_FeatureStructs 0

theorem FindFeatureStructByType_eq (b : InitHelpBase) (sType : VkStructureType) :
    b.FindFeatureStructByType sType =
      findFirstFrom (fun f => decide (f.m_sType = sType)) b.m_FeatureStructs 0 :=
  findByTypeLoop_eq_findFirstFrom sType b.m_FeatureStructs 0

theorem FindFeatureStructByName_eq_none_iff (b : InitHelpBase) (name : String) :
    b.FindFeatureStructByName name = none ↔ name ∉ b.structNames := by
  rw [FindFeatureStructByName_eq, findFirstFrom_eq_none_iff]
  simp [InitHelpBase.structNames]

theorem FindFeatureStructByType_eq_none_iff (b : InitHelpBase) (sType : VkStructureType) :
    b.FindFeatureStructByType sType = none ↔ sType ∉ b.structTypes := by
  rw [FindFeatureStructByType_eq, findFirstFrom_eq_none_iff]
  simp [InitHelpBase.structTypes]

/-- C22: for every feature-record list and every key `k`, a name or a tag.
When `k` is declared: `IsFeatureStructEnabled(k)` returns the enabled flag
of the first record with that key; `EnableFeatureStruct(k, v)` completes
and assigns `v`, with no support check, to that record only, every other
record being left as it was; and afterwards `IsFeatureStructEnabled(k)`
returns `v`. After `EnableAllFeatureStructs(v)`, `IsFeatureStructEnabled`
returns `v` for every declared key. `IsFeatureStructEnabled(k)` and
`EnableFeatureStruct(k, v)` fail with their unknown-record assertion exactly
when no declared record has the key `k`, and then nothing is changed. -/
theorem C22_enableFeatureStruct (b : InitHelpBase) :
    (∀ name : String,
      (b.IsFeatureStructEnabledByName name = .error .queryUnknownFeatureStruct ↔
        name ∉ b.structNames) ∧
      (∀ v, (b.EnableFeatureStructByName name v).1 = .error .enableUnknownFeatureStruct ↔
        name ∉ b.structNames) ∧
      (name ∉ b.structNames →
        ∀ v, b.EnableFeatureStructByName name v = (.error .enableUnknownFeatureStruct, b)) ∧
      (name ∈ b.structNames →
        ∃ (i : Nat) (f : FeatureStruct), b.m_FeatureStructs[i]? = some f ∧ f.m_Name = name ∧
          (∀ j, j < i → ∀ g : FeatureStruct, b.m_FeatureStructs[j]? = some g →
            g.m_Name ≠ name) ∧
          b.IsFeatureStructEnabledByName name = .ok f.m_Enabled ∧
          ∀ v,
            b.EnableFeatureStructByName name v =
              (.ok (),
                { b with
                  m_FeatureStructs := b.m_FeatureStructs.set i { f with m_Enabled := v } }) ∧
            (b.EnableFeatureStructByName name v).2.IsFeatureStructEnabledByName name = .ok v ∧
            (∀ j, j ≠ i →
              (b.EnableFeatureStructByName name v).2.m_FeatureStructs[j]? =
                b.m_FeatureStructs[j]?) ∧
            (b.EnableAllFeatureStructs v).IsFeatureStructEnabledByName name = .ok v)) ∧
    (∀ sType : VkStructureType,
      (b.IsFeatureStructEnabledByType sType = .error .queryUnknownFeatureStruct ↔
        sType ∉ b.structTypes) ∧
      (∀ v, (b.EnableFeatureStructByType sType v).1 = .error .enableUnknownFeatureStruct ↔
        sType ∉ b.structTypes) ∧
      (sType ∉ b.structTypes →
        ∀ v, b.EnableFeatureStructByType sType v = (.error .enableUnknownFeatureStruct, b)) ∧
      (sType ∈ b.structTypes →
        ∃ (i : Nat) (f : FeatureStruct), b.m_FeatureStructs[i]? = some f ∧ f.m_sType = sType ∧
          (∀ j, j < i → ∀ g : FeatureStruct, b.m_FeatureStructs[j]? = some g →
            g.m_sType ≠ sType) ∧
          b.IsFeatureStructEnabledByType sType = .ok f.m_Enabled ∧
          ∀ v,
            b.EnableFeatureStructByType sType v =
              (.ok (),
                { b with
                  m_FeatureStructs := b.m_FeatureStructs.set i { f with m_Enabled := v } }) ∧
            (b.EnableFeatureStructByType sType v).2.IsFeatureStructEnabledByType sType =
              .ok v ∧
            (∀ j, j ≠ i →
              (b.EnableFeatureStructByType sType v).2.m_FeatureStructs[j]? =
                b.m_FeatureStructs[j]?) ∧
            (b.EnableAllFeatureStructs v).IsFeatureStructEnabledByType sType = .ok v)) := by
  refine ⟨?_, ?_⟩
  · intro name
    have hnone := FindFeatureStructByName_eq_none_iff b name
    have hsome : name ∈ b.structNames → ∃ i, b.FindFeatureStructByName name = some i := by
      intro hd
      cases hf : b.FindFeatureStructByName name with
      | none => exact absurd hd (hnone.1 hf)
      | some i => exact ⟨i, rfl⟩
    refine ⟨?_, ?_, ?_, ?_⟩
    · constructor
      · intro h hd
        obtain ⟨i, hf⟩ := hsome hd
        simp [InitHelpBase.IsFeatureStructEnabledByName, hf] at h
      · intro h
        simp [InitHelpBase.IsFeatureStructEnabledByName, hnone.2 h]
    · intro v
      constructor
      · intro h hd
        obtain ⟨i, hf⟩ := hsome hd
        simp [InitHelpBase.EnableFeatureStructByName, hf] at h
      · intro h
        simp [InitHelpBase.EnableFeatureStructByName, hnone.2 h]
    · intro h v
      simp [InitHelpBase.EnableFeatureStructByName, hnone.2 h]
    · intro hd
      obtain ⟨i, hf⟩ := hsome hd
      have hf' := hf
      rw [FindFeatureStructByName_eq] at hf'
      obtain ⟨f, hi, hpf, hfirst, hat, hv⟩ :=
        findFirst_then_set (fun f => decide (f.m_Name = name)) (fun _ _ => rfl) b i hf'
      refine ⟨i, f, hi, by simpa using hpf, ?_, ?_, ?_⟩
      · intro j hj g hg
        simpa using hfirst j hj g hg
      · simp [InitHelpBase.IsFeatureStructEnabledByName, hf, hat]
      · intro v
        obtain ⟨hset, hfind, hat', hother⟩ := hv v
        have hE : b.EnableFeatureStructByName name v =
            (.ok (), b.setFeatureStructEnabledAt i v) := by
          simp [InitHelpBase.EnableFeatureStructByName, hf]
        obtain ⟨hall, hallat⟩ := findFirst_EnableAllFeatureStructs
          (fun f => decide (f.m_Name = name)) (fun _ _ => rfl) b v i hf'
        refine ⟨by rw [hE, hset], ?_, ?_, ?_⟩
        · rw [hE]
          simp only [InitHelpBase.IsFeatureStructEnabledByName, FindFeatureStructByName_eq,
            hfind, hat']
        · intro j hj
          rw [hE]
          exact hother j hj
        · simp only [InitHelpBase.IsFeatureStructEnabledByName, FindFeatureStructByName_eq,
            hall, hallat]
  · intro sType
    have hnone := FindFeatureStructByType_eq_none_iff b sType
    have hsome : sType ∈ b.structTypes → ∃ i, b.FindFeatureStructByType sType = some i := by
      intro hd
      cases hf : b.FindFeatureStructByType sType with
      | none => exact absurd hd (hnone.1 hf)
      | some i => exact ⟨i, rfl⟩
    refine ⟨?_, ?_, ?_, ?_⟩
    · constructor
      · intro h hd
        obtain ⟨i, hf⟩ := hsome hd
        simp [InitHelpBase.IsFeatureStructEnabledByType, hf] at h
      · intro h
        simp [InitHelpBase.IsFeatureStructEnabledByType, hnone.2 h]
    · intro v
      constructor
      · intro h hd
        obtain ⟨i, hf⟩ := hsome hd
        simp [InitHelpBase.EnableFeatureStructByType, hf] at h
      · intro h
        simp [InitHelpBase.EnableFeatureStructByType, hnone.2 h]
    · intro h v
      simp [InitHelpBase.EnableFeatureStructByType, hnone.2 h]
    · intro hd
      obtain ⟨i, hf⟩ := hsome hd
      have hf' := hf
      rw [FindFeatureStructByType_eq] at hf'
      obtain ⟨f, hi, hpf, hfirst, hat, hv⟩ :=
        findFirst_then_set (fun f => decide (f.m_sType = sType)) (fun _ _ => rfl) b i hf'
      refine ⟨i, f, hi, by simpa using hpf, ?_, ?_, ?_⟩
      · intro j hj g hg
        simpa using hfirst j hj g hg
      · simp [InitHelpBase.IsFeatureStructEnabledByType, hf, hat]
      · intro v
        obtain ⟨hset, hfind, hat', hother⟩ := hv v
        have hE : b.EnableFeatureStructByType sType v =
            (.ok (), b.setFeatureStructEnabledAt i v) := by
          simp [InitHelpBase.EnableFeatureStructByType, hf]
        obtain ⟨hall, hallat⟩ := findFirst_EnableAllFeatureStructs
          (fun f => decide (f.m_sType = sType)) (fun _ _ => rfl) b v i hf'
        refine ⟨by rw [hE, hset], ?_, ?_, ?_⟩
        · rw [hE]
          simp only [InitHelpBase.IsFeatureStructEnabledByType, FindFeatureStructByType_eq,
            hfind, hat']
        · intro j hj
          rw [hE]
          exact hother j hj
        · simp only [InitHelpBase.IsFeatureStructEnabledByType, FindFeatureStructByType_eq,
            hall, hallat]

/-- C22 on the sample device session, whose record `B` is disabled:
enabling `B` by name makes `IsFeatureStructEnabled("B")` true, the
undeclared name `W` fails and changes nothing, after
`EnableAllFeatureStructs(false)` the record `B` is reported disabled; and in
the session that declares `F` and `FKHR` with one tag, enabling by that tag
assigns to the first of them only. -/
theorem C22_enableFeatureStruct_witness :
    (sampleDevice.EnableFeatureStructByName "B" true).2.IsFeatureStructEnabledByName "B" =
        .ok true ∧
      sampleDevice.EnableFeatureStructByName "W" true =
        (.error .enableUnknownFeatureStruct, sampleDevice.toInitHelpBase) ∧
      (sampleDevice.EnableAllFeatureStructs false).IsFeatureStructEnabledByName "B" =
        .ok false ∧
      (aliasDevice.EnableFeatureStructByType 7 false).2.m_FeatureStructs.map
          FeatureStruct.m_Enabled = [false, false] ∧
      (aliasDevice.EnableFeatureStructByType 7 false).2.IsFeatureStructEnabledByType 7 =
        .ok false := by
  have h := C22_enableFeatureStruct sampleDevice.toInitHelpBase
  have ha := C22_enableFeatureStruct aliasDevice.toInitHelpBase
  obtain ⟨i, f, _, _, _, _, hv⟩ := (h.1 "B").2.2.2 (by decide)
  obtain ⟨k, g, _, _, _, _, hw⟩ := (ha.2 7).2.2.2 (by decide)
  exact ⟨(hv true).2.1, (h.1 "W").2.2.1 (by decide) true, (hv false).2.2.2, by decide,
    (hw false).2.1⟩

end VKEFH
